import Mathlib

/-!
Dawn: the D3D12 render-pass builder, the lifecycle of external textures, the semantic
information of Tint functions, the submission of the Vulkan queue, and the recording contexts of
render passes and render bundles.

A shallow embedding of

* `src/dawn/native/d3d12/RenderPassBuilderD3D12.cpp` (namespace `dawn::native::d3d12`),
* `src/dawn_native/ExternalTexture.cpp` (namespace `dawn::native`),
* `third_party/tint/src/sem/function.h` (namespace `tint::sem`),
* `src/dawn_native/vulkan/QueueVk.cpp` (namespace `dawn_native::vulkan`),

and a model of the recording contexts (namespace `dawn.recording`), whose encoders are not among
the sources: it follows the specification, every definition of it says so, and it agrees with the
expectations of `src/tests/unittests/validation/RenderBundleValidationTests.cpp`. The types
`utils::UniqueVector` and `sem::Call`, which `function.h` uses and which are not among the
sources either, are modelled as well, and their definitions say so. Theorems about the embedded
and the modelled functions follow the definitions.

Conventions of the embedding.

* A C++ object is a Lean structure; a member function that mutates `this` takes the object and
  returns the new one; a `const` member function returns a value only.
* `UNREACHABLE()` and a failing `ASSERT(...)` end the run: a function that can reach one returns
  `Except Fault _`, and every `Fault` constructor names the source line that raises it.
* `MaybeError` / `ResultOrError<T>` are `Except ErrorData _`; `DAWN_INVALID_IF(c, ...)` returns a
  validation error when `c` holds, `DAWN_TRY(e)` returns the error of `e` if there is one.
* Machine integers are natural numbers; `static_cast<uint8_t>` is `% 256`.
* Storage that C++ leaves without an initialiser is passed in explicitly (the `uninit` arguments),
  so every theorem holds whatever that storage contained.
-/

namespace wgpu

/-- The enum `wgpu::LoadOp`; the switch of `D3D12BeginningAccessType` names all three values. -/
inductive LoadOp where
  | Undefined
  | Clear
  | Load
  deriving DecidableEq, Repr

/-- The enum `wgpu::StoreOp`; the switch of `D3D12EndingAccessType` names all three values. -/
inductive StoreOp where
  | Undefined
  | Store
  | Discard
  deriving DecidableEq, Repr

/-- The enum `wgpu::TextureComponentType`; the resolve-mode switch names all four values. -/
inductive TextureComponentType where
  | Float
  | Sint
  | Uint
  | DepthComparison
  deriving DecidableEq, Repr

/-- The enum `wgpu::TextureFormat`: the five formats `ExternalTexture.cpp` names, and every other
enumerator (identified by its numeric value) under `other`. -/
inductive TextureFormat where
  | R8Unorm
  | RG8Unorm
  | RGBA8Unorm
  | BGRA8Unorm
  | RGBA16Float
  | other (raw : Nat)
  deriving DecidableEq, Repr

/-- The enum `wgpu::TextureViewDimension`: `e2D`, the one value the source names, and every other
enumerator under `other`. -/
inductive TextureViewDimension where
  | e2D
  | other (raw : Nat)
  deriving DecidableEq, Repr

/-- The enum `wgpu::PredefinedColorSpace`: `Srgb`, the one value the source names, and every other
enumerator under `other`. -/
inductive PredefinedColorSpace where
  | Srgb
  | other (raw : Nat)
  deriving DecidableEq, Repr

/-- The bitmask `wgpu::TextureUsage`, as the number holding its bits. -/
abbrev TextureUsage := Nat

/-- The bit `wgpu::TextureUsage::TextureBinding` (declared in `webgpu_cpp.h`, which is not among
the sources; WebGPU assigns it `0x04`). -/
def TextureUsage.TextureBinding : TextureUsage := 0x00000004

end wgpu

namespace dawn.native

/-- Where a run ends without returning: each constructor is one `UNREACHABLE()` or `ASSERT` of the
two embedded files. -/
inductive Fault where
  /-- The `UNREACHABLE()` in `D3D12BeginningAccessType`, case `LoadOp::Undefined` (line 34). -/
  | unreachableLoadOp
  /-- The `UNREACHABLE()` in `D3D12EndingAccessType`, case `StoreOp::Undefined` (line 46). -/
  | unreachableStoreOp
  /-- The `UNREACHABLE()` in the resolve-mode switch of `D3D12EndingAccessResolveParameters`,
  case `TextureComponentType::DepthComparison` (line 82). -/
  | unreachableResolveMode
  /-- The `ASSERT(resolveDestinationTexture->GetFormat().aspects == Aspect::Color)` of
  `D3D12EndingAccessResolveSubresourceParameters` (line 94). -/
  | assertColorAspect
  /-- The `ASSERT(descriptor->plane0)` in `ValidateExternalTextureDescriptor` (line 49). -/
  | assertPlane0
  /-- The `ASSERT(!IsError())` in `ExternalTextureBase::ValidateCanUseInSubmitNow` (line 135). -/
  | assertNotError
  deriving DecidableEq, Repr

/-- The bitmask `Aspect`, as the number holding its bits. -/
abbrev Aspect := Nat

/-- The bit `Aspect::Color` (declared in `Subresource.h`, which is not among the sources; the
embedded code only compares with it and passes it on). -/
def Aspect.Color : Aspect := 0x1

/-- The part of `AspectInfo` the builder reads. -/
structure AspectInfo where
  baseType : wgpu.TextureComponentType
  deriving DecidableEq, Repr

/-- The part of `Format` the two files read: the `format` enumerator, the `aspects` mask and
`GetAspectInfo(aspect)`. -/
structure Format where
  format : wgpu.TextureFormat
  aspects : Aspect
  GetAspectInfo : Aspect → AspectInfo

end dawn.native

namespace dawn.native.d3d12

/-- A `DXGI_FORMAT` enumerator, as its numeric value. -/
abbrev DXGI_FORMAT := Nat

/-- An `ID3D12Resource*`, as the address it holds. -/
abbrev ID3D12ResourcePtr := Nat

/-- A `D3D12_CPU_DESCRIPTOR_HANDLE`, as its `ptr` member. -/
abbrev D3D12_CPU_DESCRIPTOR_HANDLE := Nat

/-- A `ColorAttachmentIndex` (a typed `uint8_t`), as the number it holds. -/
abbrev ColorAttachmentIndex := Nat

/-- A 32-bit `FLOAT`, as its bit pattern. -/
abbrev FLOAT := Nat

/-- A 64-bit `double`, as its bit pattern. -/
abbrev double := Nat

/-- The enum `D3D12_RENDER_PASS_BEGINNING_ACCESS_TYPE` of `d3d12.h`. -/
inductive D3D12_RENDER_PASS_BEGINNING_ACCESS_TYPE where
  | DISCARD
  | PRESERVE
  | CLEAR
  | NO_ACCESS
  deriving DecidableEq, Repr

/-- The enum `D3D12_RENDER_PASS_ENDING_ACCESS_TYPE` of `d3d12.h`. -/
inductive D3D12_RENDER_PASS_ENDING_ACCESS_TYPE where
  | DISCARD
  | PRESERVE
  | RESOLVE
  | NO_ACCESS
  deriving DecidableEq, Repr

/-- The enum `D3D12_RESOLVE_MODE` of `d3d12.h`. -/
inductive D3D12_RESOLVE_MODE where
  | DECOMPRESS
  | MIN
  | MAX
  | AVERAGE
  | ENCODE_SAMPLER_FEEDBACK
  | DECODE_SAMPLER_FEEDBACK
  deriving DecidableEq, Repr

/-- The bitmask `D3D12_RENDER_PASS_FLAGS` of `d3d12.h`, as the number holding its bits. -/
abbrev D3D12_RENDER_PASS_FLAGS := Nat

/-- The value `D3D12_RENDER_PASS_FLAG_NONE` of `d3d12.h`. -/
def D3D12_RENDER_PASS_FLAG_NONE : D3D12_RENDER_PASS_FLAGS := 0

/-- The value `D3D12_RENDER_PASS_FLAG_ALLOW_UAV_WRITES` of `d3d12.h`. -/
def D3D12_RENDER_PASS_FLAG_ALLOW_UAV_WRITES : D3D12_RENDER_PASS_FLAGS := 0x1

/-- The struct `D3D12_RECT`. -/
structure D3D12_RECT where
  left : Int
  top : Int
  right : Int
  bottom : Int
  deriving DecidableEq, Repr

/-- The struct `D3D12_DEPTH_STENCIL_VALUE`. -/
structure D3D12_DEPTH_STENCIL_VALUE where
  Depth : FLOAT
  Stencil : Nat
  deriving DecidableEq, Repr

/-- The struct `D3D12_CLEAR_VALUE`. Its members `Color` and `DepthStencil` are kept side by side:
the builder writes `Color` only in colour slots and `DepthStencil` only in the depth-stencil
descriptor, so the overlap of the two in the C union is never observed. -/
structure D3D12_CLEAR_VALUE where
  Format : DXGI_FORMAT
  Color : Fin 4 → FLOAT
  DepthStencil : D3D12_DEPTH_STENCIL_VALUE

/-- The struct `D3D12_RENDER_PASS_BEGINNING_ACCESS_CLEAR_PARAMETERS`. -/
structure D3D12_RENDER_PASS_BEGINNING_ACCESS_CLEAR_PARAMETERS where
  ClearValue : D3D12_CLEAR_VALUE

/-- The struct `D3D12_RENDER_PASS_BEGINNING_ACCESS`; `Type_` is its member `Type`. -/
structure D3D12_RENDER_PASS_BEGINNING_ACCESS where
  Type_ : D3D12_RENDER_PASS_BEGINNING_ACCESS_TYPE
  Clear : D3D12_RENDER_PASS_BEGINNING_ACCESS_CLEAR_PARAMETERS

/-- The struct `D3D12_RENDER_PASS_ENDING_ACCESS_RESOLVE_SUBRESOURCE_PARAMETERS`. -/
structure D3D12_RENDER_PASS_ENDING_ACCESS_RESOLVE_SUBRESOURCE_PARAMETERS where
  SrcSubresource : Nat
  DstSubresource : Nat
  DstX : Nat
  DstY : Nat
  SrcRect : D3D12_RECT
  deriving DecidableEq, Repr

/-- The struct `D3D12_RENDER_PASS_ENDING_ACCESS_RESOLVE_PARAMETERS`. The pointer
`pSubresourceParameters` is `some k` when it holds `&mSubresourceParams[k]` and `none` when it
points nowhere in that array. -/
structure D3D12_RENDER_PASS_ENDING_ACCESS_RESOLVE_PARAMETERS where
  pSrcResource : ID3D12ResourcePtr
  pDstResource : ID3D12ResourcePtr
  SubresourceCount : Nat
  pSubresourceParameters : Option ColorAttachmentIndex
  Format : DXGI_FORMAT
  ResolveMode : D3D12_RESOLVE_MODE
  PreserveResolveSource : Bool
  deriving DecidableEq, Repr

/-- The struct `D3D12_RENDER_PASS_ENDING_ACCESS`; `Type_` is its member `Type`. -/
structure D3D12_RENDER_PASS_ENDING_ACCESS where
  Type_ : D3D12_RENDER_PASS_ENDING_ACCESS_TYPE
  Resolve : D3D12_RENDER_PASS_ENDING_ACCESS_RESOLVE_PARAMETERS
  deriving DecidableEq, Repr

/-- The struct `D3D12_RENDER_PASS_RENDER_TARGET_DESC`. -/
structure D3D12_RENDER_PASS_RENDER_TARGET_DESC where
  cpuDescriptor : D3D12_CPU_DESCRIPTOR_HANDLE
  BeginningAccess : D3D12_RENDER_PASS_BEGINNING_ACCESS
  EndingAccess : D3D12_RENDER_PASS_ENDING_ACCESS

/-- The struct `D3D12_RENDER_PASS_DEPTH_STENCIL_DESC`. -/
structure D3D12_RENDER_PASS_DEPTH_STENCIL_DESC where
  cpuDescriptor : D3D12_CPU_DESCRIPTOR_HANDLE
  DepthBeginningAccess : D3D12_RENDER_PASS_BEGINNING_ACCESS
  StencilBeginningAccess : D3D12_RENDER_PASS_BEGINNING_ACCESS
  DepthEndingAccess : D3D12_RENDER_PASS_ENDING_ACCESS
  StencilEndingAccess : D3D12_RENDER_PASS_ENDING_ACCESS

/-- The struct `dawn::native::Color`. -/
structure Color where
  r : double
  g : double
  b : double
  a : double
  deriving DecidableEq, Repr

/-- The part of the backend `Texture` the builder reads: `GetD3D12Resource()`, `GetFormat()` and
`GetSubresourceIndex(mipLevel, arrayLayer, aspect)`. -/
structure Texture where
  GetD3D12Resource : ID3D12ResourcePtr
  GetFormat : Format
  GetSubresourceIndex : Nat → Nat → Aspect → Nat

/-- The part of the backend `TextureView` the builder reads. -/
structure TextureView where
  GetD3D12Format : DXGI_FORMAT
  GetFormat : Format
  GetTexture : Texture
  GetBaseMipLevel : Nat
  GetBaseArrayLayer : Nat

/-- The data members of `RenderPassBuilder`. The three `ityp::array`s indexed by
`ColorAttachmentIndex` are maps from the index; their capacity is fixed in
`RenderPassBuilderD3D12.h`, which is not among the sources, and is not modelled. -/
structure RenderPassBuilder where
  mHighestColorAttachmentIndexPlusOne : ColorAttachmentIndex
  mHasDepth : Bool
  mRenderPassFlags : D3D12_RENDER_PASS_FLAGS
  mRenderPassDepthStencilDesc : D3D12_RENDER_PASS_DEPTH_STENCIL_DESC
  mRenderPassRenderTargetDescriptors : ColorAttachmentIndex → D3D12_RENDER_PASS_RENDER_TARGET_DESC
  mRenderTargetViews : ColorAttachmentIndex → D3D12_CPU_DESCRIPTOR_HANDLE
  mSubresourceParams :
    ColorAttachmentIndex → D3D12_RENDER_PASS_ENDING_ACCESS_RESOLVE_SUBRESOURCE_PARAMETERS

/-- The function `D3D12BeginningAccessType` (lines 27-37). -/
def D3D12BeginningAccessType :
    wgpu.LoadOp → Except Fault D3D12_RENDER_PASS_BEGINNING_ACCESS_TYPE
  | .Clear => .ok .CLEAR
  | .Load => .ok .PRESERVE
  | .Undefined => .error .unreachableLoadOp

/-- The function `D3D12EndingAccessType` (lines 39-49). -/
def D3D12EndingAccessType :
    wgpu.StoreOp → Except Fault D3D12_RENDER_PASS_ENDING_ACCESS_TYPE
  | .Discard => .ok .DISCARD
  | .Store => .ok .PRESERVE
  | .Undefined => .error .unreachableStoreOp

/-- The function `D3D12EndingAccessResolveParameters` (lines 51-88). The local
`resolveParameters` is declared without an initialiser: `uninit` is what it holds then. -/
def D3D12EndingAccessResolveParameters
    (uninit : D3D12_RENDER_PASS_ENDING_ACCESS_RESOLVE_PARAMETERS)
    (storeOp : wgpu.StoreOp) (resolveSource resolveDestination : TextureView) :
    Except Fault D3D12_RENDER_PASS_ENDING_ACCESS_RESOLVE_PARAMETERS := do
  let resolveParameters := uninit
  let resolveParameters :=
    { resolveParameters with Format := resolveDestination.GetD3D12Format }
  let resolveParameters :=
    { resolveParameters with pSrcResource := resolveSource.GetTexture.GetD3D12Resource }
  let resolveParameters :=
    { resolveParameters with pDstResource := resolveDestination.GetTexture.GetD3D12Resource }
  -- Clear or preserve the resolve source.
  let resolveParameters :=
    if storeOp = wgpu.StoreOp.Discard then
      { resolveParameters with PreserveResolveSource := false }
    else if storeOp = wgpu.StoreOp.Store then
      { resolveParameters with PreserveResolveSource := true }
    else resolveParameters
  -- RESOLVE_MODE_AVERAGE is only valid for non-integer formats.
  let resolveParameters ←
    match (resolveDestination.GetFormat.GetAspectInfo Aspect.Color).baseType with
    | .Sint | .Uint =>
      Except.ok { resolveParameters with ResolveMode := D3D12_RESOLVE_MODE.MAX }
    | .Float =>
      Except.ok { resolveParameters with ResolveMode := D3D12_RESOLVE_MODE.AVERAGE }
    | .DepthComparison => Except.error Fault.unreachableResolveMode
  let resolveParameters := { resolveParameters with SubresourceCount := 1 }
  return resolveParameters

/-- The function `D3D12EndingAccessResolveSubresourceParameters` (lines 90-109). -/
def D3D12EndingAccessResolveSubresourceParameters (resolveDestination : TextureView) :
    Except Fault D3D12_RENDER_PASS_ENDING_ACCESS_RESOLVE_SUBRESOURCE_PARAMETERS :=
  let resolveDestinationTexture := resolveDestination.GetTexture
  if resolveDestinationTexture.GetFormat.aspects = Aspect.Color then
    .ok
      { DstX := 0
        DstY := 0
        SrcSubresource := 0
        DstSubresource :=
          resolveDestinationTexture.GetSubresourceIndex resolveDestination.GetBaseMipLevel
            resolveDestination.GetBaseArrayLayer Aspect.Color
        SrcRect := { left := 0, top := 0, right := 0, bottom := 0 } }
  else .error .assertColorAspect

namespace RenderPassBuilder

/-- The assignment `mRenderPassRenderTargetDescriptors[attachment] = f(old value)`. -/
def setRenderTargetDesc (self : RenderPassBuilder) (attachment : ColorAttachmentIndex)
    (f : D3D12_RENDER_PASS_RENDER_TARGET_DESC → D3D12_RENDER_PASS_RENDER_TARGET_DESC) :
    RenderPassBuilder :=
  { self with
    mRenderPassRenderTargetDescriptors :=
      Function.update self.mRenderPassRenderTargetDescriptors attachment
        (f (self.mRenderPassRenderTargetDescriptors attachment)) }

/-- Modelled from the spec: the default member initialisers of `RenderPassBuilder`, which stand
in `RenderPassBuilderD3D12.h` (not among the sources). Before any slot is configured no colour
slot carries a real attachment, so the highest index plus one is 0; no depth access has been set;
the capability flag is absent unless the constructor computes it. The members without an
initialiser (the descriptors and the arrays) keep what `uninit` holds. -/
def defaultMembers (uninit : RenderPassBuilder) : RenderPassBuilder :=
  { uninit with
    mHighestColorAttachmentIndexPlusOne := 0
    mHasDepth := false
    mRenderPassFlags := D3D12_RENDER_PASS_FLAG_NONE }

/-- The constructor `RenderPassBuilder::RenderPassBuilder(bool hasUAV)` (lines 112-116). -/
def ctor (uninit : RenderPassBuilder) (hasUAV : Bool) : RenderPassBuilder :=
  let self := defaultMembers uninit
  if hasUAV then
    { self with mRenderPassFlags := D3D12_RENDER_PASS_FLAG_ALLOW_UAV_WRITES }
  else self

/-- The member function `SetRenderTargetView` (lines 118-129). -/
def SetRenderTargetView (self : RenderPassBuilder) (attachmentIndex : ColorAttachmentIndex)
    (baseDescriptor : D3D12_CPU_DESCRIPTOR_HANDLE) (isNullRTV : Bool) : RenderPassBuilder :=
  let self :=
    { self with
      mRenderTargetViews := Function.update self.mRenderTargetViews attachmentIndex baseDescriptor }
  let self :=
    self.setRenderTargetDesc attachmentIndex fun d => { d with cpuDescriptor := baseDescriptor }
  if !isNullRTV then
    { self with
      mHighestColorAttachmentIndexPlusOne :=
        max self.mHighestColorAttachmentIndexPlusOne ((attachmentIndex % 256 + 1) % 256) }
  else self

/-- The member function `SetDepthStencilView` (lines 131-133). -/
def SetDepthStencilView (self : RenderPassBuilder)
    (baseDescriptor : D3D12_CPU_DESCRIPTOR_HANDLE) : RenderPassBuilder :=
  { self with
    mRenderPassDepthStencilDesc :=
      { self.mRenderPassDepthStencilDesc with cpuDescriptor := baseDescriptor } }

/-- The member function `GetHighestColorAttachmentIndexPlusOne` (lines 135-137). -/
def GetHighestColorAttachmentIndexPlusOne (self : RenderPassBuilder) : ColorAttachmentIndex :=
  self.mHighestColorAttachmentIndexPlusOne

/-- The member function `HasDepth` (lines 139-141). -/
def HasDepth (self : RenderPassBuilder) : Bool :=
  self.mHasDepth

/-- The member function `GetRenderPassRenderTargetDescriptors` (lines 143-146): the span that
starts at `mRenderPassRenderTargetDescriptors.data()` and has
`mHighestColorAttachmentIndexPlusOne` elements, as the list of its elements. -/
def GetRenderPassRenderTargetDescriptors (self : RenderPassBuilder) :
    List D3D12_RENDER_PASS_RENDER_TARGET_DESC :=
  (List.range self.mHighestColorAttachmentIndexPlusOne).map
    self.mRenderPassRenderTargetDescriptors

/-- The member function `GetRenderPassDepthStencilDescriptor` (lines 148-151), as the descriptor
the returned pointer refers to. -/
def GetRenderPassDepthStencilDescriptor (self : RenderPassBuilder) :
    D3D12_RENDER_PASS_DEPTH_STENCIL_DESC :=
  self.mRenderPassDepthStencilDesc

/-- The member function `GetRenderPassFlags` (lines 153-155). -/
def GetRenderPassFlags (self : RenderPassBuilder) : D3D12_RENDER_PASS_FLAGS :=
  self.mRenderPassFlags

/-- The member function `GetRenderTargetViews` (lines 157-159), as the array the returned pointer
refers to. -/
def GetRenderTargetViews (self : RenderPassBuilder) :
    ColorAttachmentIndex → D3D12_CPU_DESCRIPTOR_HANDLE :=
  self.mRenderTargetViews

/-- The member function `SetRenderTargetBeginningAccess` (lines 161-179). The assignments of the
`double` members of `clearColor` to the `FLOAT` array convert them: `toFLOAT` is that
conversion. -/
def SetRenderTargetBeginningAccess (toFLOAT : double → FLOAT) (self : RenderPassBuilder)
    (attachment : ColorAttachmentIndex) (loadOp : wgpu.LoadOp) (clearColor : Color)
    (format : DXGI_FORMAT) : Except Fault RenderPassBuilder := do
  let type ← D3D12BeginningAccessType loadOp
  let self :=
    self.setRenderTargetDesc attachment fun d =>
      { d with BeginningAccess := { d.BeginningAccess with Type_ := type } }
  if loadOp = wgpu.LoadOp.Clear then
    let setColor (self : RenderPassBuilder) (k : Fin 4) (v : FLOAT) : RenderPassBuilder :=
      self.setRenderTargetDesc attachment fun d =>
        { d with
          BeginningAccess :=
            { d.BeginningAccess with
              Clear :=
                { ClearValue :=
                    { d.BeginningAccess.Clear.ClearValue with
                      Color := Function.update d.BeginningAccess.Clear.ClearValue.Color k v } } } }
    let self := setColor self 0 (toFLOAT clearColor.r)
    let self := setColor self 1 (toFLOAT clearColor.g)
    let self := setColor self 2 (toFLOAT clearColor.b)
    let self := setColor self 3 (toFLOAT clearColor.a)
    return self.setRenderTargetDesc attachment fun d =>
      { d with
        BeginningAccess :=
          { d.BeginningAccess with
            Clear :=
              { ClearValue := { d.BeginningAccess.Clear.ClearValue with Format := format } } } }
  else
    return self

/-- The member function `SetRenderTargetEndingAccess` (lines 181-185). -/
def SetRenderTargetEndingAccess (self : RenderPassBuilder) (attachment : ColorAttachmentIndex)
    (storeOp : wgpu.StoreOp) : Except Fault RenderPassBuilder := do
  let type ← D3D12EndingAccessType storeOp
  return self.setRenderTargetDesc attachment fun d =>
    { d with EndingAccess := { d.EndingAccess with Type_ := type } }

/-- The member function `SetRenderTargetEndingAccessResolve` (lines 187-201); `uninit` is passed
on to `D3D12EndingAccessResolveParameters`. -/
def SetRenderTargetEndingAccessResolve
    (uninit : D3D12_RENDER_PASS_ENDING_ACCESS_RESOLVE_PARAMETERS) (self : RenderPassBuilder)
    (attachment : ColorAttachmentIndex) (storeOp : wgpu.StoreOp)
    (resolveSource resolveDestination : TextureView) : Except Fault RenderPassBuilder := do
  let self :=
    self.setRenderTargetDesc attachment fun d =>
      { d with
        EndingAccess :=
          { d.EndingAccess with Type_ := D3D12_RENDER_PASS_ENDING_ACCESS_TYPE.RESOLVE } }
  let resolve ← D3D12EndingAccessResolveParameters uninit storeOp resolveSource resolveDestination
  let self :=
    self.setRenderTargetDesc attachment fun d =>
      { d with EndingAccess := { d.EndingAccess with Resolve := resolve } }
  let subresourceParameters ← D3D12EndingAccessResolveSubresourceParameters resolveDestination
  let self :=
    { self with
      mSubresourceParams :=
        Function.update self.mSubresourceParams attachment subresourceParameters }
  return self.setRenderTargetDesc attachment fun d =>
    { d with
      EndingAccess :=
        { d.EndingAccess with
          Resolve := { d.EndingAccess.Resolve with pSubresourceParameters := some attachment } } }

/-- The member function `SetDepthAccess` (lines 203-215). -/
def SetDepthAccess (self : RenderPassBuilder) (loadOp : wgpu.LoadOp) (storeOp : wgpu.StoreOp)
    (clearDepth : FLOAT) (format : DXGI_FORMAT) : Except Fault RenderPassBuilder := do
  let self := { self with mHasDepth := true }
  let beginning ← D3D12BeginningAccessType loadOp
  let desc := self.mRenderPassDepthStencilDesc
  let desc :=
    { desc with DepthBeginningAccess := { desc.DepthBeginningAccess with Type_ := beginning } }
  let desc :=
    if loadOp = wgpu.LoadOp.Clear then
      { desc with
        DepthBeginningAccess :=
          { desc.DepthBeginningAccess with
            Clear :=
              { ClearValue :=
                  { desc.DepthBeginningAccess.Clear.ClearValue with
                    DepthStencil :=
                      { desc.DepthBeginningAccess.Clear.ClearValue.DepthStencil with
                        Depth := clearDepth }
                    Format := format } } } }
    else desc
  let ending ← D3D12EndingAccessType storeOp
  let desc := { desc with DepthEndingAccess := { desc.DepthEndingAccess with Type_ := ending } }
  return { self with mRenderPassDepthStencilDesc := desc }

/-- The member function `SetStencilAccess` (lines 217-228); `clearStencil` is a `uint8_t`. -/
def SetStencilAccess (self : RenderPassBuilder) (loadOp : wgpu.LoadOp) (storeOp : wgpu.StoreOp)
    (clearStencil : Nat) (format : DXGI_FORMAT) : Except Fault RenderPassBuilder := do
  let beginning ← D3D12BeginningAccessType loadOp
  let desc := self.mRenderPassDepthStencilDesc
  let desc :=
    { desc with
      StencilBeginningAccess := { desc.StencilBeginningAccess with Type_ := beginning } }
  let desc :=
    if loadOp = wgpu.LoadOp.Clear then
      { desc with
        StencilBeginningAccess :=
          { desc.StencilBeginningAccess with
            Clear :=
              { ClearValue :=
                  { desc.StencilBeginningAccess.Clear.ClearValue with
                    DepthStencil :=
                      { desc.StencilBeginningAccess.Clear.ClearValue.DepthStencil with
                        Stencil := clearStencil }
                    Format := format } } } }
    else desc
  let ending ← D3D12EndingAccessType storeOp
  let desc :=
    { desc with StencilEndingAccess := { desc.StencilEndingAccess with Type_ := ending } }
  return { self with mRenderPassDepthStencilDesc := desc }

/-- The member function `SetDepthNoAccess` (lines 230-235). -/
def SetDepthNoAccess (self : RenderPassBuilder) : RenderPassBuilder :=
  let desc := self.mRenderPassDepthStencilDesc
  let desc :=
    { desc with
      DepthBeginningAccess :=
        { desc.DepthBeginningAccess with
          Type_ := D3D12_RENDER_PASS_BEGINNING_ACCESS_TYPE.NO_ACCESS } }
  let desc :=
    { desc with
      DepthEndingAccess :=
        { desc.DepthEndingAccess with Type_ := D3D12_RENDER_PASS_ENDING_ACCESS_TYPE.NO_ACCESS } }
  { self with mRenderPassDepthStencilDesc := desc }

/-- The member function `SetStencilNoAccess` (lines 242-247). -/
def SetStencilNoAccess (self : RenderPassBuilder) : RenderPassBuilder :=
  let desc := self.mRenderPassDepthStencilDesc
  let desc :=
    { desc with
      StencilBeginningAccess :=
        { desc.StencilBeginningAccess with
          Type_ := D3D12_RENDER_PASS_BEGINNING_ACCESS_TYPE.NO_ACCESS } }
  let desc :=
    { desc with
      StencilEndingAccess :=
        { desc.StencilEndingAccess with
          Type_ := D3D12_RENDER_PASS_ENDING_ACCESS_TYPE.NO_ACCESS } }
  { self with mRenderPassDepthStencilDesc := desc }

/-- The member function `SetDepthStencilNoAccess` (lines 237-240). -/
def SetDepthStencilNoAccess (self : RenderPassBuilder) : RenderPassBuilder :=
  self.SetDepthNoAccess.SetStencilNoAccess

end RenderPassBuilder

end dawn.native.d3d12

namespace dawn.native

/-- The enum `InternalErrorType`: the kinds of error an `ErrorData` can carry. -/
inductive InternalErrorType where
  | Validation
  | DeviceLost
  | Internal
  | OutOfMemory
  deriving DecidableEq, Repr

/-- The error carried by a failed `MaybeError` or `ResultOrError`: its kind and the format string
of its message. -/
structure ErrorData where
  type : InternalErrorType
  message : String
  deriving DecidableEq, Repr

/-- The type `MaybeError`. -/
abbrev MaybeError := Except ErrorData Unit

/-- The type `ResultOrError<T>`. -/
abbrev ResultOrError (α : Type) := Except ErrorData α

/-- The macro `DAWN_FORMAT_VALIDATION_ERROR(...)`: a validation error with the given message. -/
def DAWN_FORMAT_VALIDATION_ERROR (message : String) : ErrorData :=
  { type := InternalErrorType.Validation, message := message }

/-- The macro `DAWN_INVALID_IF(condition, ...)`: returns a validation error from the enclosing
function when `condition` holds. -/
def DAWN_INVALID_IF (condition : Prop) [Decidable condition] (message : String) : MaybeError :=
  if condition then .error (DAWN_FORMAT_VALIDATION_ERROR message) else .ok ()

/-- The enum `Toggle`: `DisallowUnsafeAPIs`, the one value the source names, and every other
enumerator under `other`. -/
inductive Toggle where
  | DisallowUnsafeAPIs
  | other (raw : Nat)
  deriving DecidableEq, Repr

/-- The part of `ApiObjectBase` visible here: the address of the device the object belongs to, its
label, and whether it was built with the error tag (`IsError()`). -/
structure ApiObjectBase where
  device : Nat
  label : Option String
  IsError : Bool
  deriving DecidableEq, Repr

/-- The part of `TextureBase` that `ValidateExternalTexturePlane` reads. -/
structure TextureBase where
  GetUsage : wgpu.TextureUsage
  GetSampleCount : Nat

/-- The part of `TextureViewBase` that `ExternalTexture.cpp` reads. -/
structure TextureViewBase extends ApiObjectBase where
  GetTexture : TextureBase
  GetDimension : wgpu.TextureViewDimension
  GetLevelCount : Nat
  GetFormat : Format

/-- The part of `DeviceBase` that `ExternalTexture.cpp` calls. `Device.cpp` is not among the
sources: `ValidateObject` and `IsToggleEnabled` are whatever the device at hand answers. -/
structure DeviceBase where
  addr : Nat
  ValidateObject : ApiObjectBase → MaybeError
  IsToggleEnabled : Toggle → Bool

/-- The struct `ExternalTextureDescriptor`; a null plane pointer is `none`. -/
structure ExternalTextureDescriptor where
  label : Option String
  plane0 : Option TextureViewBase
  plane1 : Option TextureViewBase
  colorSpace : wgpu.PredefinedColorSpace

/-- The function `ValidateExternalTexturePlane` (lines 25-44). -/
def ValidateExternalTexturePlane (textureView : TextureViewBase) : MaybeError := do
  DAWN_INVALID_IF
    ((textureView.GetTexture.GetUsage &&& wgpu.TextureUsage.TextureBinding) = 0)
    "The external texture plane (%s) usage (%s) doesn't include the required usage (%s)"
  DAWN_INVALID_IF (textureView.GetDimension ≠ wgpu.TextureViewDimension.e2D)
    "The external texture plane (%s) dimension (%s) is not 2D."
  DAWN_INVALID_IF (textureView.GetLevelCount > 1)
    "The external texture plane (%s) mip level count (%u) is not 1."
  DAWN_INVALID_IF (textureView.GetTexture.GetSampleCount ≠ 1)
    "The external texture plane (%s) sample count (%u) is not one."
  return ()

/-- The function `ValidateExternalTextureDescriptor` (lines 46-93). The descriptor is passed by
value, so `ASSERT(descriptor)` holds; `ASSERT(descriptor->plane0)` ends the run when `plane0` is
null. -/
def ValidateExternalTextureDescriptor (device : DeviceBase)
    (descriptor : ExternalTextureDescriptor) : Except Fault MaybeError :=
  match descriptor.plane0 with
  | none => .error Fault.assertPlane0
  | some plane0 => .ok do
    device.ValidateObject plane0.toApiObjectBase
    let plane0Format := plane0.GetFormat.format
    match descriptor.plane1 with
    | some plane1 =>
      DAWN_INVALID_IF (device.IsToggleEnabled Toggle.DisallowUnsafeAPIs = true)
        "Bi-planar external textures are disabled until the implementation is completed."
      DAWN_INVALID_IF (descriptor.colorSpace ≠ wgpu.PredefinedColorSpace.Srgb)
        "The specified color space (%s) is not %s."
      device.ValidateObject plane1.toApiObjectBase
      let plane1Format := plane1.GetFormat.format
      DAWN_INVALID_IF (plane0Format ≠ wgpu.TextureFormat.R8Unorm)
        "The bi-planar external texture plane (%s) format (%s) is not %s."
      DAWN_INVALID_IF (plane1Format ≠ wgpu.TextureFormat.RG8Unorm)
        "The bi-planar external texture plane (%s) format (%s) is not %s."
      ValidateExternalTexturePlane plane0
      ValidateExternalTexturePlane plane1
    | none =>
      match plane0Format with
      | .RGBA8Unorm | .BGRA8Unorm | .RGBA16Float => ValidateExternalTexturePlane plane0
      | _ =>
        Except.error (DAWN_FORMAT_VALIDATION_ERROR
          "The external texture plane (%s) format (%s) is not a supported format (%s, %s, %s).")
    return ()

/-- The enum `ExternalTextureState`. -/
inductive ExternalTextureState where
  | Alive
  | Destroyed
  deriving DecidableEq, Repr

/-- The data members of `ExternalTextureBase`. The array `mTextureViews` of `Ref`s is a map from
the plane index; a null `Ref` is `none`. -/
structure ExternalTextureBase extends ApiObjectBase where
  mTextureViews : Nat → Option TextureViewBase
  mState : ExternalTextureState

namespace ExternalTextureBase

/-- The constructor `ExternalTextureBase(DeviceBase*, const ExternalTextureDescriptor*)`
(lines 105-109): the base is built from the device and the label, every `Ref` of `mTextureViews`
starts null, and `mState` starts `Alive`. -/
def ctor (device : DeviceBase) (descriptor : ExternalTextureDescriptor) : ExternalTextureBase :=
  { device := device.addr
    label := descriptor.label
    IsError := false
    mTextureViews := fun _ => none
    mState := ExternalTextureState.Alive }

/-- The constructor `ExternalTextureBase(DeviceBase*, ObjectBase::ErrorTag)` (lines 116-118), used
by `MakeError` (lines 153-155): the base carries the error tag and `mState` has no initialiser,
so it keeps what `uninit` holds. -/
def MakeError (uninit : ExternalTextureState) (device : DeviceBase) : ExternalTextureBase :=
  { device := device.addr
    label := none
    IsError := true
    mTextureViews := fun _ => none
    mState := uninit }

/-- The member function `Initialize` (lines 120-127): the result it returns and the object after
the call. -/
def Initialize (self : ExternalTextureBase) (_device : DeviceBase)
    (descriptor : ExternalTextureDescriptor) : MaybeError × ExternalTextureBase :=
  -- Store any passed in TextureViews associated with individual planes.
  let self := { self with mTextureViews := Function.update self.mTextureViews 0 descriptor.plane0 }
  let self := { self with mTextureViews := Function.update self.mTextureViews 1 descriptor.plane1 }
  (.ok (), self)

/-- The static member function `Create` (lines 96-103). -/
def Create (device : DeviceBase) (descriptor : ExternalTextureDescriptor) :
    ResultOrError ExternalTextureBase :=
  let externalTexture := ctor device descriptor
  match externalTexture.Initialize device descriptor with
  | (.error e, _) => .error e
  | (.ok (), externalTexture) => .ok externalTexture

/-- The member function `GetTextureViews` (lines 129-132). -/
def GetTextureViews (self : ExternalTextureBase) : Nat → Option TextureViewBase :=
  self.mTextureViews

/-- The member function `ValidateCanUseInSubmitNow` (lines 134-139). -/
def ValidateCanUseInSubmitNow (self : ExternalTextureBase) : Except Fault MaybeError :=
  if self.IsError then .error Fault.assertNotError
  else .ok do
    DAWN_INVALID_IF (self.mState = ExternalTextureState.Destroyed)
      "Destroyed external texture %s is used in a submit."
    return ()

/-- The member function `DestroyImpl` (lines 148-150). -/
def DestroyImpl (self : ExternalTextureBase) : ExternalTextureBase :=
  { self with mState := ExternalTextureState.Destroyed }

/-- Modelled from the spec: `ApiObjectBase::Destroy`, which `ObjectBase.cpp` defines and the
sources do not contain. Destroying moves the object to Destroyed and destroying twice is a no-op,
not an error: the call runs the object's `DestroyImpl`. -/
def Destroy (self : ExternalTextureBase) : ExternalTextureBase :=
  self.DestroyImpl

/-- The member function `APIDestroy` (lines 141-146), with `device` the device `GetDevice()`
returns: the object after the call, and the error handed to `ConsumedError` if there was one. -/
def APIDestroy (self : ExternalTextureBase) (device : DeviceBase) :
    ExternalTextureBase × Option ErrorData :=
  match device.ValidateObject self.toApiObjectBase with
  | .error e => (self, some e)
  | .ok () => (self.Destroy, none)

end ExternalTextureBase

end dawn.native

namespace dawn.recording

/-- Modelled from the spec: the usage kinds of a Usage Record (section 3). The encoders and their
usage tracker are not among the sources, only their tests are. -/
inductive UsageKind where
  | readOnlySampled
  | readOnlyUniform
  | storageRead
  | storageWrite
  | vertexInput
  | indexInput
  | indirectArgument
  | colorAttachmentWrite
  | depthStencilWrite
  | resolveSource
  | resolveDestination
  deriving DecidableEq, Repr

/-- Modelled from the spec: the partition of the usage kinds into the READ and the WRITE class
(section 3); the kinds that write are the WRITE class. The tracker is not among the sources. -/
def UsageKind.isWrite : UsageKind → Bool
  | .storageWrite => true
  | .colorAttachmentWrite => true
  | .depthStencilWrite => true
  | .resolveDestination => true
  | _ => false

/-- Modelled from the spec: the subresource range specification of a Resource Handle
(section 3). The resource classes are not among the sources. -/
structure SubresourceRange where
  baseArrayLayer : Nat
  layerCount : Nat
  baseMipLevel : Nat
  levelCount : Nat
  aspectMask : Nat
  deriving DecidableEq, Repr

/-- Modelled from the spec: a Resource Handle, an opaque identity with a subresource range
(section 3). The resource classes are not among the sources. -/
structure ResourceHandle where
  identity : Nat
  range : SubresourceRange
  deriving DecidableEq, Repr

/-- Modelled from the spec: the handle of a buffer, which has a single subresource (section 3).
The resource classes are not among the sources. -/
def ResourceHandle.buffer (identity : Nat) : ResourceHandle :=
  { identity := identity
    range :=
      { baseArrayLayer := 0, layerCount := 1, baseMipLevel := 0, levelCount := 1,
        aspectMask := 1 } }

/-- Modelled from the spec: the overlap test of two handles (sections 3 and 4.1): the same
underlying resource, and array layers, mip levels and aspects that are not disjoint, so that two
disjoint mip levels of one texture do not overlap. The tracker is not among the sources. -/
def ResourceHandle.overlaps (a b : ResourceHandle) : Bool :=
  decide (a.identity = b.identity) &&
    decide (a.range.baseArrayLayer < b.range.baseArrayLayer + b.range.layerCount) &&
    decide (b.range.baseArrayLayer < a.range.baseArrayLayer + a.range.layerCount) &&
    decide (a.range.baseMipLevel < b.range.baseMipLevel + b.range.levelCount) &&
    decide (b.range.baseMipLevel < a.range.baseMipLevel + a.range.levelCount) &&
    decide (a.range.aspectMask &&& b.range.aspectMask ≠ 0)

/-- Modelled from the spec: a Usage Record, a resource handle with a usage kind (section 3). The
tracker is not among the sources. -/
structure UsageRecord where
  resource : ResourceHandle
  kind : UsageKind
  deriving DecidableEq, Repr

/-- Modelled from the spec: `AddUsage(record)`, which inserts a record into the usage set of the
scope idempotently (section 4.1). The tracker is not among the sources. -/
def AddUsage (usages : List UsageRecord) (record : UsageRecord) : List UsageRecord :=
  if record ∈ usages then usages else usages ++ [record]

/-- Modelled from the spec: the merge of a frozen usage summary into a live usage set, record by
record (section 4.1); identical records are deduplicated (section 9). The tracker is not among
the sources. -/
def mergeUsages (usages summary : List UsageRecord) : List UsageRecord :=
  summary.foldl AddUsage usages

/-- Modelled from the spec: two records are in hazard when they are different records on
overlapping ranges and at least one of them is a WRITE usage: a READ_WRITE classification or
several distinct WRITE usages, never the repetition of one record (sections 3 and 4.1). The
tracker is not among the sources. -/
def UsageRecord.conflicts (a b : UsageRecord) : Bool :=
  decide (a ≠ b) && a.resource.overlaps b.resource && (a.kind.isWrite || b.kind.isWrite)

/-- Modelled from the spec: the first pair of records in hazard in a usage set, if the set has a
hazard (section 4.1). The tracker is not among the sources. -/
def firstHazard (usages : List UsageRecord) : Option (UsageRecord × UsageRecord) :=
  usages.findSome? fun a => (usages.find? fun b => a.conflicts b).map fun b => (a, b)

/-- Modelled from the spec: the Pipeline/Pass Compatibility Key: the ordered list of colour
attachment formats, the optional depth-stencil format and the sample count (section 3). The
encoders are not among the sources. -/
structure CompatibilityKey where
  colorFormats : List wgpu.TextureFormat
  depthStencilFormat : Option wgpu.TextureFormat
  sampleCount : Nat
  deriving DecidableEq, Repr

/-- Modelled from the spec: what a compatibility error identifies (section 4.4): the first colour
slot that mismatches in format or is present on one side only, or the depth-stencil format, or
the sample count. The validator is not among the sources. -/
inductive Mismatch where
  | colorSlot (slot : Nat)
  | depthStencilFormat
  | sampleCount
  deriving DecidableEq, Repr

/-- Modelled from the spec: the first colour slot, counted from `slot`, in which two lists of
colour formats differ in format or in presence (section 4.4). The validator is not among the
sources. -/
def firstColorMismatch : List wgpu.TextureFormat → List wgpu.TextureFormat → Nat → Option Nat
  | [], [], _ => none
  | a :: as, b :: bs, slot => if a = b then firstColorMismatch as bs (slot + 1) else some slot
  | _, _, slot => some slot

/-- Modelled from the spec: the comparison of the key of the active scope with the key of a
candidate, slot for slot, including the attachment count (sections 3 and 4.4). The validator is
not among the sources. -/
def CompatibilityKey.firstMismatch (scope candidate : CompatibilityKey) : Option Mismatch :=
  match firstColorMismatch scope.colorFormats candidate.colorFormats 0 with
  | some slot => some (Mismatch.colorSlot slot)
  | none =>
    if scope.depthStencilFormat ≠ candidate.depthStencilFormat then
      some Mismatch.depthStencilFormat
    else if scope.sampleCount ≠ candidate.sampleCount then some Mismatch.sampleCount
    else none

/-- Modelled from the spec: a pipeline object, which exposes its Compatibility Key and its
required bind-group layout shapes (section 6), and the vertex-buffer slots a draw with it reads
(section 8, property 1). The pipeline class is not among the sources. -/
structure Pipeline where
  identity : Nat
  key : CompatibilityKey
  bindGroupLayouts : List Nat
  vertexBufferSlots : List Nat
  deriving DecidableEq, Repr

/-- Modelled from the spec: a bind group: its layout shape and the usage records of the
resources it binds, each with the usage kind its binding was declared with (section 3). The
bind-group class is not among the sources. -/
structure BindGroup where
  identity : Nat
  layout : Nat
  usages : List UsageRecord
  deriving DecidableEq, Repr

/-- Modelled from the spec: the bindings of a recording context: pipeline, bind groups,
vertex buffers and index buffer (section 4.2). The encoders are not among the sources. -/
structure BindingState where
  pipeline : Option Pipeline
  bindGroups : Nat → Option BindGroup
  vertexBuffers : Nat → Option ResourceHandle
  indexBuffer : Option ResourceHandle

/-- Modelled from the spec: the state in which nothing is bound (section 4.2). The encoders are
not among the sources. -/
def BindingState.empty : BindingState :=
  { pipeline := none
    bindGroups := fun _ => none
    vertexBuffers := fun _ => none
    indexBuffer := none }

/-- Modelled from the spec: the recording methods shared by a pass and a bundle (section 6). The
encoders are not among the sources. -/
inductive RenderCommand where
  | SetPipeline (pipeline : Pipeline)
  | SetBindGroup (slot : Nat) (group : BindGroup)
  | SetVertexBuffer (slot : Nat) (buffer : ResourceHandle)
  | SetIndexBuffer (buffer : ResourceHandle)
  | Draw
  | DrawIndexed
  deriving DecidableEq, Repr

/-- Modelled from the spec: a finished bundle, an immutable value made of the key it was recorded
against, its recorded commands and its frozen usage summary (sections 3 and 9). The bundle class
is not among the sources. -/
structure Bundle where
  key : CompatibilityKey
  commands : List RenderCommand
  usages : List UsageRecord
  deriving DecidableEq, Repr

/-- Modelled from the spec: the recording methods of a pass: the shared ones and
`ExecuteBundles` (section 6). A bundle whose `Finish()` carried an error is no usable output
(section 7): it is `none` in the list. The encoders are not among the sources. -/
inductive PassCommand where
  | render (command : RenderCommand)
  | ExecuteBundles (bundles : List (Option Bundle))
  deriving DecidableEq, Repr

/-- Modelled from the spec: the validation failures of a recording context (section 7). The
encoders are not among the sources. -/
inductive RecordingError where
  | incompatiblePipeline (mismatch : Mismatch)
  | pipelineNotBound
  | bindGroupNotBound (slot : Nat)
  | bindGroupLayoutMismatch (slot : Nat)
  | vertexBufferNotBound (slot : Nat)
  | indexBufferNotBound
  | unusableBundle (index : Nat)
  | incompatibleBundle (index : Nat) (mismatch : Mismatch)
  | hazard (first second : UsageRecord)
  | contextFinished
  | noAttachmentFormat
  deriving DecidableEq, Repr

/-- Modelled from the spec: the three classes of the error taxonomy (section 7). The encoders
are not among the sources. -/
inductive ErrorClass where
  | structural
  | hazard
  | misuse
  deriving DecidableEq, Repr

/-- Modelled from the spec: the class of each validation failure in the error taxonomy
(section 7). The encoders are not among the sources. -/
def RecordingError.errorClass : RecordingError → ErrorClass
  | .hazard _ _ => ErrorClass.hazard
  | .contextFinished => ErrorClass.misuse
  | .unusableBundle _ => ErrorClass.misuse
  | .incompatibleBundle _ _ => ErrorClass.misuse
  | _ => ErrorClass.structural

/-- Modelled from the spec: the Recording Context State Machine (section 4.2): `Open`, with the
key, the bindings, the usage set and the recorded commands of the scope; `Error`, with the
latched first failure; `Finished`, with the outcome that was fixed when the context finished. The
encoders are not among the sources. -/
inductive RecordingContext (Cmd : Type) where
  | Open (key : CompatibilityKey) (bindings : BindingState) (usages : List UsageRecord)
      (commands : List Cmd)
  | Error (error : RecordingError)
  | Finished (outcome : Option RecordingError)

/-- Modelled from the spec: the recording context of a bundle (section 3). The encoders are not
among the sources. -/
abbrev BundleContext := RecordingContext RenderCommand

/-- Modelled from the spec: the recording context of a pass (section 3). The encoders are not
among the sources. -/
abbrev PassContext := RecordingContext PassCommand

/-- Modelled from the spec: what is bound in a context; a context that latched an error or has
finished has nothing bound (section 4.2). The encoders are not among the sources. -/
def RecordingContext.bindings {Cmd : Type} : RecordingContext Cmd → BindingState
  | .Open _ bindings _ _ => bindings
  | _ => BindingState.empty

/-- Modelled from the spec: whether the context has finished (section 4.2). The encoders are not
among the sources. -/
def RecordingContext.isFinished {Cmd : Type} : RecordingContext Cmd → Bool
  | .Finished _ => true
  | _ => false

/-- Modelled from the spec: the first required bind-group slot of the pipeline that has no bind
group of the required layout shape bound (section 6). The encoders are not among the sources. -/
def missingBindGroup (pipeline : Pipeline) (bindings : BindingState) : Option RecordingError :=
  (List.range pipeline.bindGroupLayouts.length).findSome? fun slot =>
    match bindings.bindGroups slot with
    | none => some (RecordingError.bindGroupNotBound slot)
    | some group =>
      if pipeline.bindGroupLayouts[slot]? = some group.layout then none
      else some (RecordingError.bindGroupLayoutMismatch slot)

/-- Modelled from the spec: the first vertex-buffer slot the pipeline reads that has no buffer
bound (section 8, property 1). The encoders are not among the sources. -/
def missingVertexBuffer (pipeline : Pipeline) (bindings : BindingState) :
    Option RecordingError :=
  pipeline.vertexBufferSlots.findSome? fun slot =>
    match bindings.vertexBuffers slot with
    | none => some (RecordingError.vertexBufferNotBound slot)
    | some _ => none

/-- Modelled from the spec: the validation of a draw against the bindings: it needs a pipeline,
the bind groups the pipeline requires, the vertex buffers it reads and, when indexed, an index
buffer (sections 4.2 and 8). The encoders are not among the sources. -/
def validateDraw (bindings : BindingState) (indexed : Bool) : Option RecordingError :=
  match bindings.pipeline with
  | none => some RecordingError.pipelineNotBound
  | some pipeline =>
    match missingBindGroup pipeline bindings with
    | some e => some e
    | none =>
      match missingVertexBuffer pipeline bindings with
      | some e => some e
      | none =>
        if indexed = true ∧ bindings.indexBuffer = none then
          some RecordingError.indexBufferNotBound
        else none

/-- Modelled from the spec: one shared recording method on a context (sections 4.2, 4.4, 6
and 7). On an open context a failed validation latches the error; a successful call updates the
bindings and the usage set and records the command. On a context that latched an error the call
is a no-op, and a finished context stays as it is. The encoders are not among the sources. -/
def RecordingContext.record {Cmd : Type} (embed : RenderCommand → Cmd)
    (ctx : RecordingContext Cmd) (command : RenderCommand) : RecordingContext Cmd :=
  match ctx with
  | .Open key bindings usages commands =>
    match command with
    | .SetPipeline pipeline =>
      match key.firstMismatch pipeline.key with
      | some mismatch => .Error (RecordingError.incompatiblePipeline mismatch)
      | none =>
        .Open key { bindings with pipeline := some pipeline } usages (commands ++ [embed command])
    | .SetBindGroup slot group =>
      .Open key { bindings with bindGroups := Function.update bindings.bindGroups slot group }
        (mergeUsages usages group.usages) (commands ++ [embed command])
    | .SetVertexBuffer slot buffer =>
      .Open key
        { bindings with vertexBuffers := Function.update bindings.vertexBuffers slot buffer }
        (AddUsage usages { resource := buffer, kind := UsageKind.vertexInput })
        (commands ++ [embed command])
    | .SetIndexBuffer buffer =>
      .Open key { bindings with indexBuffer := some buffer }
        (AddUsage usages { resource := buffer, kind := UsageKind.indexInput })
        (commands ++ [embed command])
    | .Draw =>
      match validateDraw bindings false with
      | some e => .Error e
      | none => .Open key bindings usages (commands ++ [embed command])
    | .DrawIndexed =>
      match validateDraw bindings true with
      | some e => .Error e
      | none => .Open key bindings usages (commands ++ [embed command])
  | .Error e => .Error e
  | .Finished outcome => .Finished outcome

/-- Modelled from the spec: the error that a recording method or a further `Finish()` surfaces at
once when it is called on the context: calling either on a finished context is an error
(section 4.2). The encoders are not among the sources. -/
def RecordingContext.misuse {Cmd : Type} : RecordingContext Cmd → Option RecordingError
  | .Finished _ => some RecordingError.contextFinished
  | _ => none

/-- Modelled from the spec: the deferred error of a scope once its usage set is complete: the
latched error, or the first hazard of the usage set (section 7). The encoders are not among the
sources. -/
def RecordingContext.deferredError {Cmd : Type} : RecordingContext Cmd → Option RecordingError
  | .Open _ _ usages _ => (firstHazard usages).map fun p => RecordingError.hazard p.1 p.2
  | .Error e => some e
  | .Finished outcome => outcome

/-- Modelled from the spec: `CreateBundleEncoder(attachmentConfig)` (section 6): a bundle context
that is open, with nothing bound, no usage and no command (section 4.2); a configuration without
any attachment format is rejected (section 7, missing required attachment). The encoders are not
among the sources. -/
def CreateBundleEncoder (attachmentConfig : CompatibilityKey) :
    Except RecordingError BundleContext :=
  if attachmentConfig.colorFormats = [] ∧ attachmentConfig.depthStencilFormat = none then
    .error RecordingError.noAttachmentFormat
  else .ok (.Open attachmentConfig BindingState.empty [] [])

/-- Modelled from the spec: `BeginPass(attachmentConfig)` (section 6): an open pass context with
nothing bound. The encoders are not among the sources. -/
def BeginPass (attachmentConfig : CompatibilityKey) : PassContext :=
  .Open attachmentConfig BindingState.empty [] []

/-- Modelled from the spec: a recording method of a bundle context (section 6). The encoders are
not among the sources. -/
def BundleContext.record (ctx : BundleContext) (command : RenderCommand) : BundleContext :=
  RecordingContext.record id ctx command

/-- Modelled from the spec: the bundle context after the recording calls of `commands`, first one
first. The encoders are not among the sources. -/
def BundleContext.recordAll (ctx : BundleContext) (commands : List RenderCommand) :
    BundleContext :=
  commands.foldl BundleContext.record ctx

/-- Modelled from the spec: `Finish()` on a bundle context (sections 4.2, 6 and 7): the context
becomes finished, and the call returns the frozen bundle, or the latched error, or the hazard of
the complete usage set; on a finished context it fails. The encoders are not among the
sources. -/
def BundleContext.Finish (ctx : BundleContext) : BundleContext × Except RecordingError Bundle :=
  match ctx with
  | .Open key _ usages commands =>
    match firstHazard usages with
    | some p =>
      (.Finished (some (RecordingError.hazard p.1 p.2)),
        .error (RecordingError.hazard p.1 p.2))
    | none => (.Finished none, .ok { key := key, commands := commands, usages := usages })
  | .Error e => (.Finished (some e), .error e)
  | .Finished outcome => (.Finished outcome, .error RecordingError.contextFinished)

/-- Modelled from the spec: the first bundle of the list, counted from `index`, that is no usable
output or was recorded against an incompatible attachment configuration (sections 4.4 and 7).
The encoders are not among the sources. -/
def invalidBundle (key : CompatibilityKey) :
    List (Option Bundle) → Nat → Option RecordingError
  | [], _ => none
  | none :: _, index => some (RecordingError.unusableBundle index)
  | some bundle :: rest, index =>
    match key.firstMismatch bundle.key with
    | some mismatch => some (RecordingError.incompatibleBundle index mismatch)
    | none => invalidBundle key rest (index + 1)

/-- Modelled from the spec: the usage set of a pass after the usage summaries of the bundles are
merged into it, in listed order (section 4.2). The tracker is not among the sources. -/
def mergeBundles (usages : List UsageRecord) (bundles : List (Option Bundle)) :
    List UsageRecord :=
  bundles.foldl
    (fun merged bundle =>
      match bundle with
      | none => merged
      | some b => mergeUsages merged b.usages)
    usages

/-- Modelled from the spec: `ExecuteBundles` on a pass context (sections 4.1, 4.2 and 7). With
zero bundles the pass state is not altered. With at least one bundle, an unusable or incompatible
bundle latches an error; otherwise the usage summaries are merged into the usage set of the
pass, a hazard of the merged set latches an error, and the pipeline, bind groups and vertex and
index buffers of the pass are cleared. On a context that latched an error the call is a no-op.
The encoders are not among the sources. -/
def PassContext.ExecuteBundles (ctx : PassContext) (bundles : List (Option Bundle)) :
    PassContext :=
  match ctx with
  | .Open key bindings usages commands =>
    match bundles with
    | [] => .Open key bindings usages (commands ++ [PassCommand.ExecuteBundles []])
    | _ :: _ =>
      match invalidBundle key bundles 0 with
      | some e => .Error e
      | none =>
        match firstHazard (mergeBundles usages bundles) with
        | some p => .Error (RecordingError.hazard p.1 p.2)
        | none =>
          .Open key BindingState.empty (mergeBundles usages bundles)
            (commands ++ [PassCommand.ExecuteBundles bundles])
  | .Error e => .Error e
  | .Finished outcome => .Finished outcome

/-- Modelled from the spec: a recording method of a pass context (section 6). The encoders are
not among the sources. -/
def PassContext.record (ctx : PassContext) : PassCommand → PassContext
  | .render command => RecordingContext.record PassCommand.render ctx command
  | .ExecuteBundles bundles => ctx.ExecuteBundles bundles

/-- Modelled from the spec: the pass context after the recording calls of `commands`, first one
first. The encoders are not among the sources. -/
def PassContext.recordAll (ctx : PassContext) (commands : List PassCommand) : PassContext :=
  commands.foldl PassContext.record ctx

/-- Modelled from the spec: `End` on a pass context (section 6): the scope is complete, and the
context finishes with its deferred error as the fixed outcome (section 7). The encoders are not
among the sources. -/
def PassContext.End (ctx : PassContext) : PassContext :=
  match ctx with
  | .Finished outcome => .Finished outcome
  | other => .Finished other.deferredError

/-- Modelled from the spec: `Finish()` of the command encoder that holds the passes `passes`,
in recording order: it surfaces the first deferred error, if any (section 6). The encoders are
not among the sources. -/
def CommandEncoderFinish (passes : List PassContext) : Except RecordingError Unit :=
  match passes.findSome? RecordingContext.deferredError with
  | some e => .error e
  | none => .ok ()

end dawn.recording

namespace tint.utils

/-- Modelled from the spec: `utils::UniqueVector<T>` is declared in `src/utils/unique_vector.h`,
which is not among the sources, and the spec does not describe it. It is modelled as its name
and its use in `sem::Function` say: a vector that holds each item once, in the order in which
the items were added. -/
structure UniqueVector (T : Type) where
  vector : List T
  deriving DecidableEq, Repr

/-- Modelled from the spec: `UniqueVector::add(item)` of `src/utils/unique_vector.h`, which is
not among the sources: the item is appended unless the vector holds it already. -/
def UniqueVector.add {T : Type} [DecidableEq T] (self : UniqueVector T) (item : T) :
    UniqueVector T :=
  if item ∈ self.vector then self else { vector := self.vector ++ [item] }

end tint.utils

namespace tint.sem

open tint.utils

/-- The type `WorkgroupDimension`: the size of one dimension of the workgroup size of an entry
point, and the pipeline-overridable constant that overrides it (a pointer, `none` for
`nullptr`). -/
structure WorkgroupDimension where
  value : Nat
  overridable_const : Option Nat
  deriving DecidableEq, Repr

/-- The type `WorkgroupSize`, `std::array<WorkgroupDimension, 3>`. -/
abbrev WorkgroupSize := Fin 3 → WorkgroupDimension

/-- Modelled from the spec: `sem::Call` is declared in `src/sem/call.h`, which is not among the
sources, and the spec does not describe it. `sem::Function` holds pointers to calls and reads
`Target()` of the call behind each: a pointer to a call is modelled by the address it holds
together with the pointer to the call target that `Target()` returns there. -/
structure Call where
  address : Nat
  target_ : Nat
  deriving DecidableEq, Repr

/-- Modelled from the spec: `Call::Target()` of `src/sem/call.h`, which is not among the
sources: the target of the call. -/
def Call.Target (self : Call) : Nat := self.target_

/-- The data members of the class `sem::Function`, in the order of their declaration. A pointer
to a declaration, a global, a function, an intrinsic or an entry point is the address it holds.
The vectors of calls hold pointers to calls, which `FindDirectCallTo` dereferences one by one:
each is a `Call`. The members of the base class `CallTarget` are not read by the methods of the
header and are left out. -/
structure Function where
  declaration_ : Nat
  workgroup_size_ : WorkgroupSize
  directly_referenced_globals_ : UniqueVector Nat
  transitively_referenced_globals_ : UniqueVector Nat
  transitively_called_functions_ : UniqueVector Nat
  directly_called_intrinsics_ : UniqueVector Nat
  direct_calls_ : List Call
  callsites_ : List Call
  ancestor_entry_points_ : List Nat
  has_discard_ : Bool

/-- The method `Function::Declaration`. -/
def Function.Declaration (self : Function) : Nat := self.declaration_

/-- The method `Function::WorkgroupSize`. -/
def Function.WorkgroupSize (self : Function) : WorkgroupSize := self.workgroup_size_

/-- The method `Function::SetWorkgroupSize`. -/
def Function.SetWorkgroupSize (self : Function) (workgroup_size : tint.sem.WorkgroupSize) :
    Function :=
  { self with workgroup_size_ := workgroup_size }

/-- The method `Function::DirectlyReferencedGlobals`. -/
def Function.DirectlyReferencedGlobals (self : Function) : UniqueVector Nat :=
  self.directly_referenced_globals_

/-- The method `Function::AddDirectlyReferencedGlobal`: the global is added to the directly
referenced globals and to the transitively referenced ones. -/
def Function.AddDirectlyReferencedGlobal (self : Function) (global : Nat) : Function :=
  { self with
    directly_referenced_globals_ := self.directly_referenced_globals_.add global
    transitively_referenced_globals_ := self.transitively_referenced_globals_.add global }

/-- The method `Function::TransitivelyReferencedGlobals`. -/
def Function.TransitivelyReferencedGlobals (self : Function) : UniqueVector Nat :=
  self.transitively_referenced_globals_

/-- The method `Function::AddTransitivelyReferencedGlobal`. -/
def Function.AddTransitivelyReferencedGlobal (self : Function) (global : Nat) : Function :=
  { self with
    transitively_referenced_globals_ := self.transitively_referenced_globals_.add global }

/-- The method `Function::TransitivelyCalledFunctions`. -/
def Function.TransitivelyCalledFunctions (self : Function) : UniqueVector Nat :=
  self.transitively_called_functions_

/-- The method `Function::AddTransitivelyCalledFunction`. -/
def Function.AddTransitivelyCalledFunction (self : Function) (function : Nat) : Function :=
  { self with transitively_called_functions_ := self.transitively_called_functions_.add function }

/-- The method `Function::DirectlyCalledIntrinsics`. -/
def Function.DirectlyCalledIntrinsics (self : Function) : UniqueVector Nat :=
  self.directly_called_intrinsics_

/-- The method `Function::AddDirectlyCalledIntrinsic`. -/
def Function.AddDirectlyCalledIntrinsic (self : Function) (intrinsic : Nat) : Function :=
  { self with directly_called_intrinsics_ := self.directly_called_intrinsics_.add intrinsic }

/-- The method `Function::DirectCallStatements`. -/
def Function.DirectCallStatements (self : Function) : List Call := self.direct_calls_

/-- The method `Function::AddDirectCall`: `emplace_back` on the direct calls. -/
def Function.AddDirectCall (self : Function) (call : Call) : Function :=
  { self with direct_calls_ := self.direct_calls_ ++ [call] }

/-- The method `Function::FindDirectCallTo`: the loop over the direct calls returns the first
call whose `Target()` is `target`, and `nullptr` (`none`) when it finds none. -/
def Function.FindDirectCallTo (self : Function) (target : Nat) : Option Call :=
  self.direct_calls_.find? fun call => call.Target == target

/-- The method `Function::CallSites`. -/
def Function.CallSites (self : Function) : List Call := self.callsites_

/-- The method `Function::AddCallSite`. -/
def Function.AddCallSite (self : Function) (call : Call) : Function :=
  { self with callsites_ := self.callsites_ ++ [call] }

/-- The method `Function::AncestorEntryPoints`. -/
def Function.AncestorEntryPoints (self : Function) : List Nat := self.ancestor_entry_points_

/-- The method `Function::AddAncestorEntryPoint`. -/
def Function.AddAncestorEntryPoint (self : Function) (entry_point : Nat) : Function :=
  { self with ancestor_entry_points_ := self.ancestor_entry_points_ ++ [entry_point] }

/-- The method `Function::SetHasDiscard`. -/
def Function.SetHasDiscard (self : Function) : Function := { self with has_discard_ := true }

/-- The method `Function::HasDiscard`. -/
def Function.HasDiscard (self : Function) : Bool := self.has_discard_

end tint.sem

namespace dawn_native.vulkan

/-- A `VkCommandBuffer`, as the handle it holds. -/
abbrev VkCommandBuffer := Nat

/-- The part of the backend `Device` that `Queue::Submit` calls. `DeviceVk.h` is not among the
sources: `GetPendingCommandBuffer` and `SubmitPendingCommands` are whatever the device at hand
does, as functions of the state `σ` that the calls of the backend act on. -/
structure Device (σ : Type) where
  GetPendingCommandBuffer : σ → VkCommandBuffer × σ
  SubmitPendingCommands : σ → σ

/-- The part of the backend `CommandBuffer` that `Queue::Submit` calls. `CommandBufferVk.h` is
not among the sources: `RecordCommands` is whatever the command buffer at hand does. -/
structure CommandBuffer (σ : Type) where
  RecordCommands : VkCommandBuffer → σ → σ

/-- The class `Queue`: its base `QueueBase` holds the device that `GetDevice()` returns, and
`ToBackend` casts it to the backend `Device`. -/
structure Queue (σ : Type) where
  GetDevice : Device σ

/-- The constructor `Queue::Queue(Device* device)` (lines 22-23). -/
def Queue.ctor {σ : Type} (device : Device σ) : Queue σ :=
  { GetDevice := device }

/-- The loop of `Queue::Submit` (lines 32-34) from counter value `i` on: while
`i < numCommands`, `commands[i]` records into `commandBuffer` and `i` is incremented. The counter
never exceeds `numCommands`, so the 32-bit `i` does not wrap. -/
def Queue.Submit.loop {σ : Type} (numCommands : Nat) (commands : Nat → CommandBuffer σ)
    (commandBuffer : VkCommandBuffer) (i : Nat) (state : σ) : σ :=
  if i < numCommands then
    Queue.Submit.loop numCommands commands commandBuffer (i + 1)
      ((commands i).RecordCommands commandBuffer state)
  else state
termination_by numCommands - i

/-- The member function `Queue::Submit` (lines 28-37); `commands` is the array behind the
pointer, as a map from the index. -/
def Queue.Submit {σ : Type} (self : Queue σ) (numCommands : Nat)
    (commands : Nat → CommandBuffer σ) (state : σ) : σ :=
  let device := self.GetDevice
  let (commandBuffer, state) := device.GetPendingCommandBuffer state
  let state := Queue.Submit.loop numCommands commands commandBuffer 0 state
  device.SubmitPendingCommands state

end dawn_native.vulkan

/-! ## Drivers and concrete inputs -/

namespace dawn.native.d3d12

/-- A colour format description whose colour aspect has component type `baseType`. -/
def sampleFormat (baseType : wgpu.TextureComponentType) : Format :=
  { format := wgpu.TextureFormat.RGBA8Unorm
    aspects := Aspect.Color
    GetAspectInfo := fun _ => { baseType := baseType } }

/-- A single-mip, single-layer colour texture at resource address `resource`; its subresource
index is `mipLevel + arrayLayer`. -/
def sampleTexture (resource : Nat) (baseType : wgpu.TextureComponentType) : Texture :=
  { GetD3D12Resource := resource
    GetFormat := sampleFormat baseType
    GetSubresourceIndex := fun mipLevel arrayLayer _ => mipLevel + arrayLayer }

/-- A view of `sampleTexture resource baseType` with the same format. -/
def sampleView (resource : Nat) (baseType : wgpu.TextureComponentType) : TextureView :=
  { GetD3D12Format := 28
    GetFormat := sampleFormat baseType
    GetTexture := sampleTexture resource baseType
    GetBaseMipLevel := 0
    GetBaseArrayLayer := 0 }

/-- Some contents for a `D3D12_RENDER_PASS_ENDING_ACCESS_RESOLVE_PARAMETERS` without
initialiser. -/
def sampleResolveStorage : D3D12_RENDER_PASS_ENDING_ACCESS_RESOLVE_PARAMETERS :=
  { pSrcResource := 0
    pDstResource := 0
    SubresourceCount := 7
    pSubresourceParameters := none
    Format := 0
    ResolveMode := D3D12_RESOLVE_MODE.MIN
    PreserveResolveSource := false }

/-- Some contents for a `D3D12_RENDER_PASS_BEGINNING_ACCESS` without initialiser. -/
def sampleBeginningStorage : D3D12_RENDER_PASS_BEGINNING_ACCESS :=
  { Type_ := D3D12_RENDER_PASS_BEGINNING_ACCESS_TYPE.DISCARD
    Clear :=
      { ClearValue :=
          { Format := 0, Color := fun _ => 0, DepthStencil := { Depth := 0, Stencil := 0 } } } }

/-- Some contents for a `D3D12_RENDER_PASS_ENDING_ACCESS` without initialiser. -/
def sampleEndingStorage : D3D12_RENDER_PASS_ENDING_ACCESS :=
  { Type_ := D3D12_RENDER_PASS_ENDING_ACCESS_TYPE.DISCARD, Resolve := sampleResolveStorage }

/-- Some contents for the storage of a `RenderPassBuilder` ahead of its constructor. -/
def sampleBuilderStorage : RenderPassBuilder :=
  { mHighestColorAttachmentIndexPlusOne := 5
    mHasDepth := true
    mRenderPassFlags := 6
    mRenderPassDepthStencilDesc :=
      { cpuDescriptor := 0
        DepthBeginningAccess := sampleBeginningStorage
        StencilBeginningAccess := sampleBeginningStorage
        DepthEndingAccess := sampleEndingStorage
        StencilEndingAccess := sampleEndingStorage }
    mRenderPassRenderTargetDescriptors := fun _ =>
      { cpuDescriptor := 0
        BeginningAccess := sampleBeginningStorage
        EndingAccess := sampleEndingStorage }
    mRenderTargetViews := fun _ => 0
    mSubresourceParams := fun _ =>
      { SrcSubresource := 9
        DstSubresource := 9
        DstX := 9
        DstY := 9
        SrcRect := { left := 1, top := 1, right := 1, bottom := 1 } } }

/-- One call `SetRenderTargetView(attachmentIndex, baseDescriptor, isNullRTV)`. -/
structure SetRenderTargetViewCall where
  attachmentIndex : ColorAttachmentIndex
  baseDescriptor : D3D12_CPU_DESCRIPTOR_HANDLE
  isNullRTV : Bool
  deriving DecidableEq, Repr

/-- The builder after the calls of `calls`, made on `self` one after the other, first one
first. -/
def RenderPassBuilder.SetRenderTargetViews (self : RenderPassBuilder)
    (calls : List SetRenderTargetViewCall) : RenderPassBuilder :=
  calls.foldl (fun b c => b.SetRenderTargetView c.attachmentIndex c.baseDescriptor c.isNullRTV)
    self

/-- Three `SetRenderTargetView` calls: real attachments in slots 0 and 1 and a placeholder in
slot 2. -/
def sampleCalls : List SetRenderTargetViewCall :=
  [ { attachmentIndex := 0, baseDescriptor := 4096, isNullRTV := false },
    { attachmentIndex := 2, baseDescriptor := 4160, isNullRTV := true },
    { attachmentIndex := 1, baseDescriptor := 4128, isNullRTV := false } ]

/-- A freshly constructed builder without UAV writes. -/
def sampleBuilder : RenderPassBuilder :=
  RenderPassBuilder.ctor sampleBuilderStorage false

/-- The most recent call of `calls` for slot `attachmentIndex`, if there is one. -/
def lastCallFor (calls : List SetRenderTargetViewCall) (attachmentIndex : ColorAttachmentIndex) :
    Option SetRenderTargetViewCall :=
  (calls.filter fun c => c.attachmentIndex = attachmentIndex).getLast?

/-- Two `SetRenderTargetView` calls for slot 3: a real attachment, then a placeholder. -/
def sampleOverwritingCalls : List SetRenderTargetViewCall :=
  [ { attachmentIndex := 3, baseDescriptor := 4096, isNullRTV := false },
    { attachmentIndex := 3, baseDescriptor := 0, isNullRTV := true } ]

/-- One call of a member function of `RenderPassBuilder` that is not `const`, with its
arguments. -/
inductive RenderPassBuilderCall where
  | SetRenderTargetView (attachmentIndex : ColorAttachmentIndex)
      (baseDescriptor : D3D12_CPU_DESCRIPTOR_HANDLE) (isNullRTV : Bool)
  | SetDepthStencilView (baseDescriptor : D3D12_CPU_DESCRIPTOR_HANDLE)
  | SetRenderTargetBeginningAccess (toFLOAT : double → FLOAT) (attachment : ColorAttachmentIndex)
      (loadOp : wgpu.LoadOp) (clearColor : Color) (format : DXGI_FORMAT)
  | SetRenderTargetEndingAccess (attachment : ColorAttachmentIndex) (storeOp : wgpu.StoreOp)
  | SetRenderTargetEndingAccessResolve
      (uninit : D3D12_RENDER_PASS_ENDING_ACCESS_RESOLVE_PARAMETERS)
      (attachment : ColorAttachmentIndex) (storeOp : wgpu.StoreOp)
      (resolveSource resolveDestination : TextureView)
  | SetDepthAccess (loadOp : wgpu.LoadOp) (storeOp : wgpu.StoreOp) (clearDepth : FLOAT)
      (format : DXGI_FORMAT)
  | SetStencilAccess (loadOp : wgpu.LoadOp) (storeOp : wgpu.StoreOp) (clearStencil : Nat)
      (format : DXGI_FORMAT)
  | SetDepthNoAccess
  | SetDepthStencilNoAccess
  | SetStencilNoAccess

/-- The builder after one call, or the fault at which the call stops. -/
def RenderPassBuilder.call (self : RenderPassBuilder) :
    RenderPassBuilderCall → Except Fault RenderPassBuilder
  | .SetRenderTargetView attachmentIndex baseDescriptor isNullRTV =>
    .ok (self.SetRenderTargetView attachmentIndex baseDescriptor isNullRTV)
  | .SetDepthStencilView baseDescriptor => .ok (self.SetDepthStencilView baseDescriptor)
  | .SetRenderTargetBeginningAccess toFLOAT attachment loadOp clearColor format =>
    self.SetRenderTargetBeginningAccess toFLOAT attachment loadOp clearColor format
  | .SetRenderTargetEndingAccess attachment storeOp =>
    self.SetRenderTargetEndingAccess attachment storeOp
  | .SetRenderTargetEndingAccessResolve uninit attachment storeOp resolveSource
      resolveDestination =>
    self.SetRenderTargetEndingAccessResolve uninit attachment storeOp resolveSource
      resolveDestination
  | .SetDepthAccess loadOp storeOp clearDepth format =>
    self.SetDepthAccess loadOp storeOp clearDepth format
  | .SetStencilAccess loadOp storeOp clearStencil format =>
    self.SetStencilAccess loadOp storeOp clearStencil format
  | .SetDepthNoAccess => .ok self.SetDepthNoAccess
  | .SetDepthStencilNoAccess => .ok self.SetDepthStencilNoAccess
  | .SetStencilNoAccess => .ok self.SetStencilNoAccess

/-- The builder after the calls of `calls`, made one after the other, first one first; the run
stops at the first fault. -/
def RenderPassBuilder.calls (self : RenderPassBuilder) :
    List RenderPassBuilderCall → Except Fault RenderPassBuilder
  | [] => .ok self
  | c :: rest =>
    match self.call c with
    | .error f => .error f
    | .ok next => next.calls rest

/-- A run of calls that touches colour slot 1, the depth-stencil view and all depth and stencil
accesses. -/
def sampleBuilderCalls : List RenderPassBuilderCall :=
  [ .SetRenderTargetView 1 4128 false,
    .SetRenderTargetBeginningAccess (fun x => x) 1 wgpu.LoadOp.Clear
      { r := 1, g := 2, b := 3, a := 4 } 28,
    .SetRenderTargetEndingAccessResolve sampleResolveStorage 1 wgpu.StoreOp.Store
      (sampleView 100 wgpu.TextureComponentType.Float)
      (sampleView 200 wgpu.TextureComponentType.Float),
    .SetRenderTargetEndingAccess 1 wgpu.StoreOp.Discard,
    .SetDepthStencilView 8192,
    .SetDepthAccess wgpu.LoadOp.Load wgpu.StoreOp.Store 0 40,
    .SetStencilAccess wgpu.LoadOp.Clear wgpu.StoreOp.Discard 7 40,
    .SetDepthStencilNoAccess ]

/-- Whether the call is a call of `SetDepthAccess`. -/
def RenderPassBuilderCall.isSetDepthAccess : RenderPassBuilderCall → Bool
  | .SetDepthAccess _ _ _ _ => true
  | _ => false

end dawn.native.d3d12

namespace dawn.native

/-- One call of a member function on an `ExternalTextureBase`. -/
inductive ExternalTextureCall where
  | Initialize (device : DeviceBase) (descriptor : ExternalTextureDescriptor)
  | GetTextureViews
  | ValidateCanUseInSubmitNow
  | APIDestroy (device : DeviceBase)
  | DestroyImpl

/-- Whether the call is one of the two that destroy: `APIDestroy` or `DestroyImpl`. -/
def ExternalTextureCall.destroys : ExternalTextureCall → Bool
  | .APIDestroy _ => true
  | .DestroyImpl => true
  | _ => false

/-- The object after one call. The `const` member functions leave it as it is;
`ValidateCanUseInSubmitNow` ends the run when its `ASSERT` fails. -/
def ExternalTextureBase.afterCall (self : ExternalTextureBase) :
    ExternalTextureCall → Except Fault ExternalTextureBase
  | .Initialize device descriptor => .ok (self.Initialize device descriptor).2
  | .GetTextureViews => .ok self
  | .ValidateCanUseInSubmitNow =>
    match self.ValidateCanUseInSubmitNow with
    | .error f => .error f
    | .ok _ => .ok self
  | .APIDestroy device => .ok (self.APIDestroy device).1
  | .DestroyImpl => .ok self.DestroyImpl

/-- The object after the calls of `calls`, made one after the other, first one first. -/
def ExternalTextureBase.afterCalls (self : ExternalTextureBase) :
    List ExternalTextureCall → Except Fault ExternalTextureBase
  | [] => .ok self
  | c :: calls =>
    match self.afterCall c with
    | .error f => .error f
    | .ok next => next.afterCalls calls

/-- A device at address 1 that accepts the objects that belong to it and carry no error tag,
with every toggle off. -/
def sampleDevice : DeviceBase :=
  { addr := 1
    ValidateObject := fun object =>
      DAWN_INVALID_IF (object.device ≠ 1 ∨ object.IsError = true) "%s is invalid."
    IsToggleEnabled := fun _ => false }

/-- A 2D view on `sampleDevice` with the given format and mip level count, of a single-sampled
texture whose usage is `TextureBinding`. -/
def samplePlane (format : wgpu.TextureFormat) (levelCount : Nat) : TextureViewBase :=
  { device := 1
    label := none
    IsError := false
    GetTexture := { GetUsage := wgpu.TextureUsage.TextureBinding, GetSampleCount := 1 }
    GetDimension := wgpu.TextureViewDimension.e2D
    GetLevelCount := levelCount
    GetFormat :=
      { format := format
        aspects := Aspect.Color
        GetAspectInfo := fun _ => { baseType := wgpu.TextureComponentType.Float } } }

/-- A descriptor with the single plane `samplePlane format levelCount`. -/
def sampleSinglePlane (format : wgpu.TextureFormat) (levelCount : Nat) :
    ExternalTextureDescriptor :=
  { label := none
    plane0 := some (samplePlane format levelCount)
    plane1 := none
    colorSpace := wgpu.PredefinedColorSpace.Srgb }

/-- A descriptor with an `R8Unorm` plane 0 and an `RG8Unorm` plane 1, both with one mip level. -/
def sampleBiPlanar : ExternalTextureDescriptor :=
  { label := none
    plane0 := some (samplePlane wgpu.TextureFormat.R8Unorm 1)
    plane1 := some (samplePlane wgpu.TextureFormat.RG8Unorm 1)
    colorSpace := wgpu.PredefinedColorSpace.Srgb }

/-- A device at address 1 that accepts the objects that belong to it and carry no error tag,
with the toggle `DisallowUnsafeAPIs` on and every other toggle off. -/
def sampleSafeDevice : DeviceBase :=
  { addr := 1
    ValidateObject := fun object =>
      DAWN_INVALID_IF (object.device ≠ 1 ∨ object.IsError = true) "%s is invalid."
    IsToggleEnabled := fun toggle => decide (toggle = Toggle.DisallowUnsafeAPIs) }

end dawn.native

namespace dawn.recording

/-- The shared recording methods among the recording calls of a pass, in order. -/
def renderCommands : List PassCommand → List RenderCommand
  | [] => []
  | .render command :: rest => command :: renderCommands rest
  | .ExecuteBundles _ :: rest => renderCommands rest

/-- Everything bound in `bindings` was bound by a call of `commands`. -/
def boundBy (commands : List RenderCommand) (bindings : BindingState) : Prop :=
  (∀ pipeline, bindings.pipeline = some pipeline →
    RenderCommand.SetPipeline pipeline ∈ commands) ∧
  (∀ slot group, bindings.bindGroups slot = some group →
    RenderCommand.SetBindGroup slot group ∈ commands) ∧
  (∀ slot buffer, bindings.vertexBuffers slot = some buffer →
    RenderCommand.SetVertexBuffer slot buffer ∈ commands)

/-- The calls of `commands` leave a binding unset that a draw after them needs: they set no
pipeline; or they set no bind group in a slot that every pipeline they set requires; or they set
no vertex buffer in a slot that every pipeline they set reads. -/
def leavesUnbound (commands : List RenderCommand) : Prop :=
  (∀ pipeline, RenderCommand.SetPipeline pipeline ∉ commands) ∨
  (∃ slot, (∀ group, RenderCommand.SetBindGroup slot group ∉ commands) ∧
    ∀ pipeline, RenderCommand.SetPipeline pipeline ∈ commands →
      slot < pipeline.bindGroupLayouts.length) ∨
  (∃ slot, (∀ buffer, RenderCommand.SetVertexBuffer slot buffer ∉ commands) ∧
    ∀ pipeline, RenderCommand.SetPipeline pipeline ∈ commands →
      slot ∈ pipeline.vertexBufferSlots)

/-- The attachment configuration of the render pass of the tests: one `RGBA8Unorm` colour
attachment, single-sampled. -/
def sampleKey : CompatibilityKey :=
  { colorFormats := [wgpu.TextureFormat.RGBA8Unorm], depthStencilFormat := none, sampleCount := 1 }

/-- The pipeline of the tests: two bind-group layouts (shapes 10 and 11) and one vertex buffer in
slot 0. -/
def samplePipeline : Pipeline :=
  { identity := 1, key := sampleKey, bindGroupLayouts := [10, 11], vertexBufferSlots := [0] }

/-- The vertex buffer of the tests. -/
def sampleVertexBuffer : ResourceHandle := ResourceHandle.buffer 2

/-- The bind group `bg0` of the tests: a uniform buffer, layout shape 10. -/
def sampleBindGroup0 : BindGroup :=
  { identity := 1
    layout := 10
    usages := [{ resource := ResourceHandle.buffer 1, kind := UsageKind.readOnlyUniform }] }

/-- The bind group `bg1` of the tests: a uniform buffer and a storage buffer, layout shape 11. -/
def sampleBindGroup1 : BindGroup :=
  { identity := 2
    layout := 11
    usages :=
      [ { resource := ResourceHandle.buffer 1, kind := UsageKind.readOnlyUniform },
        { resource := ResourceHandle.buffer 3, kind := UsageKind.storageWrite } ] }

/-- The bundle commands of the first case of the test `StateInheritance`: both bind groups and
the vertex buffer, but no pipeline. -/
def sampleCommandsWithoutPipeline : List RenderCommand :=
  [ .SetBindGroup 0 sampleBindGroup0, .SetBindGroup 1 sampleBindGroup1,
    .SetVertexBuffer 0 sampleVertexBuffer ]

/-- The empty bundle of the test `ClearsState`. -/
def sampleEmptyBundle : Bundle :=
  { key := sampleKey, commands := [], usages := [] }

/-- The vertex buffer with storage usage of the tests. -/
def sampleVertexStorageBuffer : ResourceHandle := ResourceHandle.buffer 4

/-- The bind group `bg1Vertex` of the tests: a uniform buffer and the vertex buffer with storage
usage bound as storage buffer, layout shape 11. -/
def sampleBindGroup1Vertex : BindGroup :=
  { identity := 3
    layout := 11
    usages :=
      [ { resource := ResourceHandle.buffer 1, kind := UsageKind.readOnlyUniform },
        { resource := sampleVertexStorageBuffer, kind := UsageKind.storageWrite } ] }

/-- The outcome of `Finish()` on a bundle encoder created for `attachmentConfig` on which the
calls of `commands` were recorded. -/
def finishBundle (attachmentConfig : CompatibilityKey) (commands : List RenderCommand) :
    Except RecordingError Bundle :=
  match CreateBundleEncoder attachmentConfig with
  | .error e => .error e
  | .ok encoder => (BundleContext.Finish (BundleContext.recordAll encoder commands)).2

/-- The outcome of `Finish()` on a command encoder with one pass, begun for `attachmentConfig`,
on which the calls of `commands` were recorded before it ended. -/
def finishPass (attachmentConfig : CompatibilityKey) (commands : List PassCommand) :
    Except RecordingError Unit :=
  CommandEncoderFinish [PassContext.End (PassContext.recordAll (BeginPass attachmentConfig)
    commands)]

/-- The call `ExecuteBundles` with the outcomes of the given `Finish()` calls. -/
def executeOutcomes (outcomes : List (Except RecordingError Bundle)) : PassCommand :=
  PassCommand.ExecuteBundles (outcomes.map Except.toOption)

/-- The bundle commands of the test `SimpleSuccess`: pipeline, both bind groups, vertex buffer,
draw. -/
def sampleCompleteCommands : List RenderCommand :=
  [ .SetPipeline samplePipeline, .SetBindGroup 0 sampleBindGroup0,
    .SetBindGroup 1 sampleBindGroup1, .SetVertexBuffer 0 sampleVertexBuffer, .Draw ]

/-- The bundle `renderBundle0` of the test `UsageTracking`: the vertex buffer with storage usage
is bound as storage buffer. -/
def sampleStorageCommands : List RenderCommand :=
  [ .SetPipeline samplePipeline, .SetBindGroup 0 sampleBindGroup0,
    .SetBindGroup 1 sampleBindGroup1Vertex, .SetVertexBuffer 0 sampleVertexBuffer, .Draw ]

/-- The bundle `renderBundle1` of the test `UsageTracking`: the vertex buffer with storage usage
is bound as vertex buffer. -/
def sampleVertexCommands : List RenderCommand :=
  [ .SetPipeline samplePipeline, .SetBindGroup 0 sampleBindGroup0,
    .SetBindGroup 1 sampleBindGroup1, .SetVertexBuffer 0 sampleVertexStorageBuffer, .Draw ]

/-- The attachment configuration with three colour formats of the tests
`PipelineColorFormatMismatch` and `RenderPassColorFormatMismatch`. -/
def sampleKey3 : CompatibilityKey :=
  { colorFormats :=
      [wgpu.TextureFormat.RGBA8Unorm, wgpu.TextureFormat.other 2, wgpu.TextureFormat.other 3]
    depthStencilFormat := none
    sampleCount := 1 }

/-- The attachment configuration with a depth-stencil format of the tests
`PipelineDepthStencilFormatMismatch` and `RenderPassDepthStencilFormatMismatch`. -/
def sampleKeyDepth : CompatibilityKey :=
  { colorFormats := [wgpu.TextureFormat.RGBA8Unorm]
    depthStencilFormat := some (wgpu.TextureFormat.other 40)
    sampleCount := 1 }

/-- The context without its list of recorded commands: the state that validation reads. -/
def RecordingContext.withoutCommands {Cmd : Type} : RecordingContext Cmd → RecordingContext Cmd
  | .Open key bindings usages _ => .Open key bindings usages []
  | .Error e => .Error e
  | .Finished outcome => .Finished outcome

/-- The usage records that a shared recording call adds to the usage set of its scope. -/
def RenderCommand.usages : RenderCommand → List UsageRecord
  | .SetBindGroup _ group => group.usages
  | .SetVertexBuffer _ buffer => [{ resource := buffer, kind := UsageKind.vertexInput }]
  | .SetIndexBuffer buffer => [{ resource := buffer, kind := UsageKind.indexInput }]
  | _ => []

/-- The usage records of the usable bundles of a list. -/
def bundleUsages : List (Option Bundle) → List UsageRecord
  | [] => []
  | none :: rest => bundleUsages rest
  | some bundle :: rest => bundle.usages ++ bundleUsages rest

/-- The usage records that a recording call of a pass adds to the usage set of the pass. -/
def PassCommand.usages : PassCommand → List UsageRecord
  | .render command => command.usages
  | .ExecuteBundles bundles => bundleUsages bundles
/-- The usage set of a context; a context that latched an error or has finished has none. -/
def RecordingContext.usages {Cmd : Type} : RecordingContext Cmd → List UsageRecord
  | .Open _ _ usages _ => usages
  | _ => []

/-- The pass of the zero-bundle case of the test `ClearsState` before `ExecuteBundles`: the
pipeline, both bind groups and the vertex buffer are set. -/
def sampleBoundPass : PassContext :=
  PassContext.recordAll (BeginPass sampleKey)
    [ .render (.SetPipeline samplePipeline), .render (.SetBindGroup 0 sampleBindGroup0),
      .render (.SetBindGroup 1 sampleBindGroup1),
      .render (.SetVertexBuffer 0 sampleVertexBuffer) ]
/-- The calls `ExecuteBundles` that execute one bundle `counts[i]` times in call `i`. -/
def executeRepeatedly (bundle : Bundle) (counts : List Nat) : List PassCommand :=
  counts.map fun count => PassCommand.ExecuteBundles (List.replicate count (some bundle))

/-- The context after `count` further calls of `Finish()`. -/
def finishAgain : Nat → BundleContext → BundleContext
  | 0, ctx => ctx
  | count + 1, ctx => finishAgain count (BundleContext.Finish ctx).1

end dawn.recording

namespace tint.sem

open tint.utils

/-- A call of one of the methods of `sem::Function` that change the function. -/
inductive FunctionCall where
  | SetWorkgroupSize (workgroup_size : WorkgroupSize)
  | AddDirectlyReferencedGlobal (global : Nat)
  | AddTransitivelyReferencedGlobal (global : Nat)
  | AddTransitivelyCalledFunction (function : Nat)
  | AddDirectlyCalledIntrinsic (intrinsic : Nat)
  | AddDirectCall (call : Call)
  | AddCallSite (call : Call)
  | AddAncestorEntryPoint (entry_point : Nat)
  | SetHasDiscard

/-- The function after one call. -/
def Function.afterCall (self : Function) : FunctionCall → Function
  | .SetWorkgroupSize workgroup_size => self.SetWorkgroupSize workgroup_size
  | .AddDirectlyReferencedGlobal global => self.AddDirectlyReferencedGlobal global
  | .AddTransitivelyReferencedGlobal global => self.AddTransitivelyReferencedGlobal global
  | .AddTransitivelyCalledFunction function => self.AddTransitivelyCalledFunction function
  | .AddDirectlyCalledIntrinsic intrinsic => self.AddDirectlyCalledIntrinsic intrinsic
  | .AddDirectCall call => self.AddDirectCall call
  | .AddCallSite call => self.AddCallSite call
  | .AddAncestorEntryPoint entry_point => self.AddAncestorEntryPoint entry_point
  | .SetHasDiscard => self.SetHasDiscard

/-- The function after the calls of `calls`, first one first. -/
def Function.afterCalls (self : Function) (calls : List FunctionCall) : Function :=
  calls.foldl Function.afterCall self

/-- The calls that `AddDirectCall` was given among `calls`, in order. -/
def directCallsOf : List FunctionCall → List Call
  | [] => []
  | .AddDirectCall call :: rest => call :: directCallsOf rest
  | _ :: rest => directCallsOf rest

/-- A function whose vectors are empty, as the member declarations of the class leave them
without an initialiser. -/
def sampleFunction : Function :=
  { declaration_ := 1
    workgroup_size_ := fun _ => { value := 1, overridable_const := none }
    directly_referenced_globals_ := { vector := [] }
    transitively_referenced_globals_ := { vector := [] }
    transitively_called_functions_ := { vector := [] }
    directly_called_intrinsics_ := { vector := [] }
    direct_calls_ := []
    callsites_ := []
    ancestor_entry_points_ := []
    has_discard_ := false }

end tint.sem

namespace dawn_native.vulkan

/-- A call that `Queue::Submit` makes: on the device, or `RecordCommands(commandBuffer)` on the
command buffer object at address `commands`. -/
inductive Call where
  | GetPendingCommandBuffer
  | RecordCommands (commands : Nat) (commandBuffer : VkCommandBuffer)
  | SubmitPendingCommands
  deriving DecidableEq, Repr

/-- A device that keeps the list of the calls made so far as its state, and whose pending command
buffer is `pending`. -/
def loggingDevice (pending : VkCommandBuffer) : Device (List Call) :=
  { GetPendingCommandBuffer := fun log => (pending, log ++ [Call.GetPendingCommandBuffer])
    SubmitPendingCommands := fun log => log ++ [Call.SubmitPendingCommands] }

/-- The command buffer object at address `address`, which adds its call to the list. -/
def loggingCommandBuffer (address : Nat) : CommandBuffer (List Call) :=
  { RecordCommands := fun commandBuffer log =>
      log ++ [Call.RecordCommands address commandBuffer] }

end dawn_native.vulkan

/-! ## Theorems -/

namespace dawn.native.d3d12

open RenderPassBuilder

/-- The descriptor of slot `attachment` after `setRenderTargetDesc` on that slot. -/
theorem setRenderTargetDesc_same (self : RenderPassBuilder) (attachment : ColorAttachmentIndex)
    (f : D3D12_RENDER_PASS_RENDER_TARGET_DESC → D3D12_RENDER_PASS_RENDER_TARGET_DESC) :
    (self.setRenderTargetDesc attachment f).mRenderPassRenderTargetDescriptors attachment =
      f (self.mRenderPassRenderTargetDescriptors attachment) := by
  simp [setRenderTargetDesc]

/-- The resolve parameters computed for each component type of the destination. -/
theorem D3D12EndingAccessResolveParameters_eq
    (uninit : D3D12_RENDER_PASS_ENDING_ACCESS_RESOLVE_PARAMETERS) (storeOp : wgpu.StoreOp)
    (src dst : TextureView) :
    D3D12EndingAccessResolveParameters uninit storeOp src dst =
      match (dst.GetFormat.GetAspectInfo Aspect.Color).baseType with
      | .DepthComparison => .error Fault.unreachableResolveMode
      | t =>
        .ok
          { pSrcResource := src.GetTexture.GetD3D12Resource
            pDstResource := dst.GetTexture.GetD3D12Resource
            SubresourceCount := 1
            pSubresourceParameters := uninit.pSubresourceParameters
            Format := dst.GetD3D12Format
            ResolveMode :=
              if t = wgpu.TextureComponentType.Float then D3D12_RESOLVE_MODE.AVERAGE
              else D3D12_RESOLVE_MODE.MAX
            PreserveResolveSource :=
              match storeOp with
              | .Discard => false
              | .Store => true
              | .Undefined => uninit.PreserveResolveSource } := by
  unfold D3D12EndingAccessResolveParameters
  cases h : (dst.GetFormat.GetAspectInfo Aspect.Color).baseType <;> cases storeOp <;>
    simp [h, bind, Except.bind, pure, Except.pure]


/-- The outcome of `SetRenderTargetEndingAccessResolve`, case by case. -/
theorem SetRenderTargetEndingAccessResolve_eq
    (uninit : D3D12_RENDER_PASS_ENDING_ACCESS_RESOLVE_PARAMETERS) (self : RenderPassBuilder)
    (attachment : ColorAttachmentIndex) (storeOp : wgpu.StoreOp) (src dst : TextureView) :
    SetRenderTargetEndingAccessResolve uninit self attachment storeOp src dst =
      if (dst.GetFormat.GetAspectInfo Aspect.Color).baseType
          = wgpu.TextureComponentType.DepthComparison then
        .error Fault.unreachableResolveMode
      else if dst.GetTexture.GetFormat.aspects = Aspect.Color then
        .ok
          { self with
            mRenderPassRenderTargetDescriptors :=
              Function.update self.mRenderPassRenderTargetDescriptors attachment
                { self.mRenderPassRenderTargetDescriptors attachment with
                  EndingAccess :=
                    { Type_ := D3D12_RENDER_PASS_ENDING_ACCESS_TYPE.RESOLVE
                      Resolve :=
                        { pSrcResource := src.GetTexture.GetD3D12Resource
                          pDstResource := dst.GetTexture.GetD3D12Resource
                          SubresourceCount := 1
                          pSubresourceParameters := some attachment
                          Format := dst.GetD3D12Format
                          ResolveMode :=
                            if (dst.GetFormat.GetAspectInfo Aspect.Color).baseType
                                = wgpu.TextureComponentType.Float then
                              D3D12_RESOLVE_MODE.AVERAGE
                            else D3D12_RESOLVE_MODE.MAX
                          PreserveResolveSource :=
                            match storeOp with
                            | .Discard => false
                            | .Store => true
                            | .Undefined => uninit.PreserveResolveSource } } }
            mSubresourceParams :=
              Function.update self.mSubresourceParams attachment
                { SrcSubresource := 0
                  DstSubresource :=
                    dst.GetTexture.GetSubresourceIndex dst.GetBaseMipLevel dst.GetBaseArrayLayer
                      Aspect.Color
                  DstX := 0
                  DstY := 0
                  SrcRect := { left := 0, top := 0, right := 0, bottom := 0 } } }
      else .error Fault.assertColorAspect := by
  unfold SetRenderTargetEndingAccessResolve
  rw [D3D12EndingAccessResolveParameters_eq]
  by_cases ha : dst.GetTexture.GetFormat.aspects = Aspect.Color <;>
    cases hb : (dst.GetFormat.GetAspectInfo Aspect.Color).baseType <;>
    simp [hb, ha, bind, Except.bind, pure, Except.pure,
      D3D12EndingAccessResolveSubresourceParameters, setRenderTargetDesc]

/-- C1: `SetRenderTargetEndingAccessResolve` selects the resolve mode from the component type of
the colour aspect of the destination view's format. For every destination view,
`D3D12EndingAccessResolveParameters` returns `D3D12_RESOLVE_MODE_MAX` for `Sint` and `Uint` and
`D3D12_RESOLVE_MODE_AVERAGE` for `Float`; on a destination whose texture is a colour texture the
member function returns with that mode in the slot; and whenever it returns, the mode in the slot
is `MAX` for an integer type or `AVERAGE` for `Float`, never any other mode. -/
theorem C1_resolve_mode_chosen_by_component_type
    (uninit : D3D12_RENDER_PASS_ENDING_ACCESS_RESOLVE_PARAMETERS) (self : RenderPassBuilder)
    (attachment : ColorAttachmentIndex) (storeOp : wgpu.StoreOp) (src dst : TextureView) :
    (((dst.GetFormat.GetAspectInfo Aspect.Color).baseType = wgpu.TextureComponentType.Sint ∨
        (dst.GetFormat.GetAspectInfo Aspect.Color).baseType = wgpu.TextureComponentType.Uint) →
      ∃ p, D3D12EndingAccessResolveParameters uninit storeOp src dst = .ok p ∧
        p.ResolveMode = D3D12_RESOLVE_MODE.MAX) ∧
    ((dst.GetFormat.GetAspectInfo Aspect.Color).baseType = wgpu.TextureComponentType.Float →
      ∃ p, D3D12EndingAccessResolveParameters uninit storeOp src dst = .ok p ∧
        p.ResolveMode = D3D12_RESOLVE_MODE.AVERAGE) ∧
    (dst.GetTexture.GetFormat.aspects = Aspect.Color →
      ((dst.GetFormat.GetAspectInfo Aspect.Color).baseType = wgpu.TextureComponentType.Sint ∨
        (dst.GetFormat.GetAspectInfo Aspect.Color).baseType = wgpu.TextureComponentType.Uint) →
      ∃ after, SetRenderTargetEndingAccessResolve uninit self attachment storeOp src dst
          = .ok after ∧
        (after.mRenderPassRenderTargetDescriptors attachment).EndingAccess.Resolve.ResolveMode
          = D3D12_RESOLVE_MODE.MAX) ∧
    (dst.GetTexture.GetFormat.aspects = Aspect.Color →
      (dst.GetFormat.GetAspectInfo Aspect.Color).baseType = wgpu.TextureComponentType.Float →
      ∃ after, SetRenderTargetEndingAccessResolve uninit self attachment storeOp src dst
          = .ok after ∧
        (after.mRenderPassRenderTargetDescriptors attachment).EndingAccess.Resolve.ResolveMode
          = D3D12_RESOLVE_MODE.AVERAGE) ∧
    (∀ after, SetRenderTargetEndingAccessResolve uninit self attachment storeOp src dst
        = .ok after →
      ((after.mRenderPassRenderTargetDescriptors attachment).EndingAccess.Resolve.ResolveMode
          = D3D12_RESOLVE_MODE.MAX ∧
        ((dst.GetFormat.GetAspectInfo Aspect.Color).baseType = wgpu.TextureComponentType.Sint ∨
          (dst.GetFormat.GetAspectInfo Aspect.Color).baseType = wgpu.TextureComponentType.Uint)) ∨
      ((after.mRenderPassRenderTargetDescriptors attachment).EndingAccess.Resolve.ResolveMode
          = D3D12_RESOLVE_MODE.AVERAGE ∧
        (dst.GetFormat.GetAspectInfo Aspect.Color).baseType
          = wgpu.TextureComponentType.Float)) := by
  rw [SetRenderTargetEndingAccessResolve_eq, D3D12EndingAccessResolveParameters_eq]
  refine ⟨?_, ?_, ?_, ?_, ?_⟩
  · intro hb
    rcases hb with hb | hb <;> simp [hb]
  · intro hb
    simp [hb]
  · intro ha hb
    rcases hb with hb | hb <;> simp [hb, ha]
  · intro ha hb
    simp [hb, ha]
  · intro after h
    cases hb : (dst.GetFormat.GetAspectInfo Aspect.Color).baseType <;>
      simp only [hb, reduceCtorEq, if_false, if_true] at h <;>
      split at h <;> simp at h <;> subst h <;> simp

/-- C1, witness: an unsigned-integer destination gets `MAX` and a float destination gets
`AVERAGE`. -/
theorem C1_resolve_mode_chosen_by_component_type_witness :
    (∃ after, SetRenderTargetEndingAccessResolve sampleResolveStorage sampleBuilder 0
          wgpu.StoreOp.Store (sampleView 100 wgpu.TextureComponentType.Uint)
          (sampleView 200 wgpu.TextureComponentType.Uint) = .ok after ∧
        (after.mRenderPassRenderTargetDescriptors 0).EndingAccess.Resolve.ResolveMode
          = D3D12_RESOLVE_MODE.MAX) ∧
    (∃ after, SetRenderTargetEndingAccessResolve sampleResolveStorage sampleBuilder 0
          wgpu.StoreOp.Store (sampleView 100 wgpu.TextureComponentType.Float)
          (sampleView 200 wgpu.TextureComponentType.Float) = .ok after ∧
        (after.mRenderPassRenderTargetDescriptors 0).EndingAccess.Resolve.ResolveMode
          = D3D12_RESOLVE_MODE.AVERAGE) :=
  ⟨(C1_resolve_mode_chosen_by_component_type sampleResolveStorage sampleBuilder 0
      wgpu.StoreOp.Store (sampleView 100 wgpu.TextureComponentType.Uint)
      (sampleView 200 wgpu.TextureComponentType.Uint)).2.2.1 rfl (Or.inr rfl),
    (C1_resolve_mode_chosen_by_component_type sampleResolveStorage sampleBuilder 0
      wgpu.StoreOp.Store (sampleView 100 wgpu.TextureComponentType.Float)
      (sampleView 200 wgpu.TextureComponentType.Float)).2.2.2.1 rfl rfl⟩

/-- C2: for every resolve destination whose format has the `DepthComparison` component type, and
every builder, slot, store operation, source and content of the storage,
`SetRenderTargetEndingAccessResolve` is rejected as a logic error: its run ends at an
`UNREACHABLE()`, a `Fault` that ends the program, and not at a validation error that a caller
could recover from. No resolve mode is selected for such a format: the function returns no
builder, so no `ResolveMode` is stored in any slot, and `D3D12EndingAccessResolveParameters`
returns no resolve parameters that would hold one. The fault is the same whether or not the
destination texture is a colour texture, so nothing that follows the selection (the subresource
parameters with their colour-aspect `ASSERT`) is run either. -/
theorem C2_depth_comparison_destination_is_a_logic_error
    (uninit : D3D12_RENDER_PASS_ENDING_ACCESS_RESOLVE_PARAMETERS) (self : RenderPassBuilder)
    (attachment : ColorAttachmentIndex) (storeOp : wgpu.StoreOp) (src dst : TextureView)
    (h : (dst.GetFormat.GetAspectInfo Aspect.Color).baseType
      = wgpu.TextureComponentType.DepthComparison) :
    SetRenderTargetEndingAccessResolve uninit self attachment storeOp src dst
        = .error Fault.unreachableResolveMode ∧
      D3D12EndingAccessResolveParameters uninit storeOp src dst
        = .error Fault.unreachableResolveMode ∧
      (∀ after : RenderPassBuilder,
        SetRenderTargetEndingAccessResolve uninit self attachment storeOp src dst ≠ .ok after) ∧
      (∀ parameters : D3D12_RENDER_PASS_ENDING_ACCESS_RESOLVE_PARAMETERS,
        D3D12EndingAccessResolveParameters uninit storeOp src dst ≠ .ok parameters) := by
  have hset : SetRenderTargetEndingAccessResolve uninit self attachment storeOp src dst
      = .error Fault.unreachableResolveMode := by
    rw [SetRenderTargetEndingAccessResolve_eq]
    simp [h]
  have hparams : D3D12EndingAccessResolveParameters uninit storeOp src dst
      = .error Fault.unreachableResolveMode := by
    rw [D3D12EndingAccessResolveParameters_eq]
    simp [h]
  refine ⟨hset, hparams, ?_, ?_⟩
  · intro after hafter
    rw [hset] at hafter
    cases hafter
  · intro parameters hparameters
    rw [hparams] at hparameters
    cases hparameters

/-- C2, witness: a destination view of component type `DepthComparison`, on a colour texture. -/
theorem C2_depth_comparison_destination_is_a_logic_error_witness :
    (((sampleView 200 wgpu.TextureComponentType.DepthComparison).GetFormat.GetAspectInfo
        Aspect.Color).baseType = wgpu.TextureComponentType.DepthComparison) ∧
      SetRenderTargetEndingAccessResolve sampleResolveStorage sampleBuilder 3
        wgpu.StoreOp.Discard (sampleView 100 wgpu.TextureComponentType.Float)
        (sampleView 200 wgpu.TextureComponentType.DepthComparison)
        = .error Fault.unreachableResolveMode ∧
      D3D12EndingAccessResolveParameters sampleResolveStorage wgpu.StoreOp.Discard
        (sampleView 100 wgpu.TextureComponentType.Float)
        (sampleView 200 wgpu.TextureComponentType.DepthComparison)
        = .error Fault.unreachableResolveMode ∧
      (∀ after : RenderPassBuilder,
        SetRenderTargetEndingAccessResolve sampleResolveStorage sampleBuilder 3
          wgpu.StoreOp.Discard (sampleView 100 wgpu.TextureComponentType.Float)
          (sampleView 200 wgpu.TextureComponentType.DepthComparison) ≠ .ok after) ∧
      (∀ parameters : D3D12_RENDER_PASS_ENDING_ACCESS_RESOLVE_PARAMETERS,
        D3D12EndingAccessResolveParameters sampleResolveStorage wgpu.StoreOp.Discard
          (sampleView 100 wgpu.TextureComponentType.Float)
          (sampleView 200 wgpu.TextureComponentType.DepthComparison) ≠ .ok parameters) :=
  ⟨rfl,
    C2_depth_comparison_destination_is_a_logic_error sampleResolveStorage sampleBuilder 3
      wgpu.StoreOp.Discard (sampleView 100 wgpu.TextureComponentType.Float)
      (sampleView 200 wgpu.TextureComponentType.DepthComparison) rfl⟩


/-- The calls of `calls ++ [c]` are those of `calls` followed by `c`. -/
theorem SetRenderTargetViews_concat (self : RenderPassBuilder)
    (calls : List SetRenderTargetViewCall) (c : SetRenderTargetViewCall) :
    self.SetRenderTargetViews (calls ++ [c]) =
      (self.SetRenderTargetViews calls).SetRenderTargetView c.attachmentIndex c.baseDescriptor
        c.isNullRTV := by
  simp [SetRenderTargetViews, List.foldl_append]

/-- The tracked index after one `SetRenderTargetView` call. -/
theorem SetRenderTargetView_highest (self : RenderPassBuilder)
    (attachmentIndex : ColorAttachmentIndex) (baseDescriptor : D3D12_CPU_DESCRIPTOR_HANDLE)
    (isNullRTV : Bool) :
    (self.SetRenderTargetView attachmentIndex baseDescriptor
        isNullRTV).mHighestColorAttachmentIndexPlusOne =
      if isNullRTV then self.mHighestColorAttachmentIndexPlusOne
      else max self.mHighestColorAttachmentIndexPlusOne ((attachmentIndex % 256 + 1) % 256) := by
  cases isNullRTV <;> simp [SetRenderTargetView, setRenderTargetDesc]

/-- The tracked index after a sequence of `SetRenderTargetView` calls with indices below 255,
started at tracked index 0. -/
theorem SetRenderTargetViews_highest (self : RenderPassBuilder)
    (h0 : self.mHighestColorAttachmentIndexPlusOne = 0)
    (calls : List SetRenderTargetViewCall) (hlt : ∀ c ∈ calls, c.attachmentIndex < 255) :
    ((∀ c ∈ calls, c.isNullRTV = true) ∧
        (self.SetRenderTargetViews calls).mHighestColorAttachmentIndexPlusOne = 0) ∨
      (∃ c ∈ calls, c.isNullRTV = false ∧
        (self.SetRenderTargetViews calls).mHighestColorAttachmentIndexPlusOne
          = c.attachmentIndex + 1 ∧
        ∀ d ∈ calls, d.isNullRTV = false → d.attachmentIndex ≤ c.attachmentIndex) := by
  induction calls using List.reverseRecOn with
  | nil => left; simp [SetRenderTargetViews, h0]
  | append_singleton calls c ih =>
    have hc : c.attachmentIndex < 255 := hlt c (by simp)
    have hmod : (c.attachmentIndex % 256 + 1) % 256 = c.attachmentIndex + 1 := by
      unfold ColorAttachmentIndex at *; omega
    have ih' := ih (fun d hd => hlt d (by simp [hd]))
    rw [SetRenderTargetViews_concat, SetRenderTargetView_highest, hmod]
    cases hn : c.isNullRTV
    · -- a real attachment
      right
      rcases ih' with ⟨hall, hz⟩ | ⟨m, hm, hmr, hmh, hmax⟩
      · refine ⟨c, by simp, hn, by simp [hz], ?_⟩
        intro d hd hdr
        rcases List.mem_append.1 hd with hd | hd
        · rw [hall d hd] at hdr; cases hdr
        · simp at hd; subst hd; exact le_refl _
      · by_cases hle : m.attachmentIndex ≤ c.attachmentIndex
        · refine ⟨c, by simp, hn, ?_, ?_⟩
          · simp only [Bool.false_eq_true, if_false, hmh]; unfold ColorAttachmentIndex at *; omega
          · intro d hd hdr
            rcases List.mem_append.1 hd with hd | hd
            · exact le_trans (hmax d hd hdr) hle
            · simp at hd; subst hd; exact le_refl _
        · refine ⟨m, by simp [hm], hmr, ?_, ?_⟩
          · simp only [Bool.false_eq_true, if_false, hmh]; unfold ColorAttachmentIndex at *; omega
          · intro d hd hdr
            rcases List.mem_append.1 hd with hd | hd
            · exact hmax d hd hdr
            · simp at hd; subst hd; unfold ColorAttachmentIndex at *; omega
    · -- a placeholder
      rcases ih' with ⟨hall, hz⟩ | ⟨m, hm, hmr, hmh, hmax⟩
      · left
        refine ⟨?_, by simp [hz]⟩
        intro d hd
        rcases List.mem_append.1 hd with hd | hd
        · exact hall d hd
        · simp at hd; subst hd; exact hn
      · right
        refine ⟨m, by simp [hm], hmr, by simp [hmh], ?_⟩
        intro d hd hdr
        rcases List.mem_append.1 hd with hd | hd
        · exact hmax d hd hdr
        · simp at hd; subst hd; rw [hn] at hdr; cases hdr

/-- C10: on a freshly constructed builder, after any sequence of `SetRenderTargetView` calls with
indices below 255, `GetHighestColorAttachmentIndexPlusOne()` is 0 if every call had
`isNullRTV = true`, and otherwise it is 1 + the largest index passed with `isNullRTV = false`;
`GetRenderPassRenderTargetDescriptors()` has exactly that many elements, and its element `k` is
the descriptor of slot `k`. -/
theorem C10_highest_index_after_SetRenderTargetView_calls
    (uninit : RenderPassBuilder) (hasUAV : Bool) (calls : List SetRenderTargetViewCall)
    (hlt : ∀ c ∈ calls, c.attachmentIndex < 255) :
    let after := (ctor uninit hasUAV).SetRenderTargetViews calls
    ((∀ c ∈ calls, c.isNullRTV = true) → after.GetHighestColorAttachmentIndexPlusOne = 0) ∧
    ((∃ c ∈ calls, c.isNullRTV = false) →
      ∃ c ∈ calls, c.isNullRTV = false ∧
        after.GetHighestColorAttachmentIndexPlusOne = c.attachmentIndex + 1 ∧
        ∀ d ∈ calls, d.isNullRTV = false → d.attachmentIndex ≤ c.attachmentIndex) ∧
    after.GetRenderPassRenderTargetDescriptors.length
      = after.GetHighestColorAttachmentIndexPlusOne ∧
    ∀ k, k < after.GetHighestColorAttachmentIndexPlusOne →
      after.GetRenderPassRenderTargetDescriptors[k]?
        = some (after.mRenderPassRenderTargetDescriptors k) := by
  intro after
  have h0 : (ctor uninit hasUAV).mHighestColorAttachmentIndexPlusOne = 0 := by
    cases hasUAV <;> simp [ctor, defaultMembers]
  have key := SetRenderTargetViews_highest (ctor uninit hasUAV) h0 calls hlt
  refine ⟨?_, ?_, ?_, ?_⟩
  · intro hall
    rcases key with ⟨_, hz⟩ | ⟨c, hc, hreal, _, _⟩
    · exact hz
    · rw [hall c hc] at hreal; cases hreal
  · rintro ⟨c, hc, hreal⟩
    rcases key with ⟨hall, _⟩ | hex
    · rw [hall c hc] at hreal; cases hreal
    · exact hex
  · simp [GetRenderPassRenderTargetDescriptors, GetHighestColorAttachmentIndexPlusOne]
  · intro k hk
    simp only [GetHighestColorAttachmentIndexPlusOne] at hk
    simp [GetRenderPassRenderTargetDescriptors, List.getElem?_map, List.getElem?_range hk]

/-- C10, witness: for the three calls of `sampleCalls` the tracked value is 2 = 1 + 1. -/
theorem C10_highest_index_after_SetRenderTargetView_calls_witness :
    (∀ c ∈ sampleCalls, c.attachmentIndex < 255) ∧
    (let after := (ctor sampleBuilderStorage true).SetRenderTargetViews sampleCalls
    ((∀ c ∈ sampleCalls, c.isNullRTV = true) → after.GetHighestColorAttachmentIndexPlusOne = 0) ∧
    ((∃ c ∈ sampleCalls, c.isNullRTV = false) →
      ∃ c ∈ sampleCalls, c.isNullRTV = false ∧
        after.GetHighestColorAttachmentIndexPlusOne = c.attachmentIndex + 1 ∧
        ∀ d ∈ sampleCalls, d.isNullRTV = false → d.attachmentIndex ≤ c.attachmentIndex) ∧
    after.GetRenderPassRenderTargetDescriptors.length
      = after.GetHighestColorAttachmentIndexPlusOne ∧
    ∀ k, k < after.GetHighestColorAttachmentIndexPlusOne →
      after.GetRenderPassRenderTargetDescriptors[k]?
        = some (after.mRenderPassRenderTargetDescriptors k)) :=
  ⟨by decide,
    C10_highest_index_after_SetRenderTargetView_calls sampleBuilderStorage true sampleCalls
      (by decide)⟩

/-- The tracked index after a sequence of `SetRenderTargetView` calls with `uint8_t` indices,
started at tracked index 0: it is 0, or it is 1 + the index of a call with a real attachment. -/
theorem SetRenderTargetViews_highest_attained (self : RenderPassBuilder)
    (h0 : self.mHighestColorAttachmentIndexPlusOne = 0)
    (calls : List SetRenderTargetViewCall) (hlt : ∀ c ∈ calls, c.attachmentIndex < 256) :
    (self.SetRenderTargetViews calls).mHighestColorAttachmentIndexPlusOne = 0 ∨
      ∃ c ∈ calls, c.isNullRTV = false ∧
        (self.SetRenderTargetViews calls).mHighestColorAttachmentIndexPlusOne
          = c.attachmentIndex + 1 := by
  induction calls using List.reverseRecOn with
  | nil => left; simp [SetRenderTargetViews, h0]
  | append_singleton calls c ih =>
    have hc : c.attachmentIndex < 256 := hlt c (by simp)
    have ih' := ih (fun d hd => hlt d (by simp [hd]))
    rw [SetRenderTargetViews_concat, SetRenderTargetView_highest]
    have keep : ((self.SetRenderTargetViews calls).mHighestColorAttachmentIndexPlusOne = 0 ∨
        ∃ d ∈ calls ++ [c], d.isNullRTV = false ∧
          (self.SetRenderTargetViews calls).mHighestColorAttachmentIndexPlusOne
            = d.attachmentIndex + 1) := by
      rcases ih' with hz | ⟨d, hd, hr, hh⟩
      · exact Or.inl hz
      · exact Or.inr ⟨d, by simp [hd], hr, hh⟩
    cases hn : c.isNullRTV
    · simp only [Bool.false_eq_true, if_false]
      by_cases hle : (c.attachmentIndex % 256 + 1) % 256
          ≤ (self.SetRenderTargetViews calls).mHighestColorAttachmentIndexPlusOne
      · rw [max_eq_left hle]; exact keep
      · rw [max_eq_right (le_of_not_le hle)]
        right
        refine ⟨c, by simp, hn, ?_⟩
        unfold ColorAttachmentIndex at *
        omega
    · simpa using keep

/-- C11, counterexample: on a fresh builder, a real attachment set in slot 3 and then
overwritten by a placeholder in the same slot leaves 4 slots exposed, although the most recent
`SetRenderTargetView` call for slot 3 had `isNullRTV = true`. -/
theorem C11_counterexample :
    (sampleBuilder.SetRenderTargetViews
        sampleOverwritingCalls).GetRenderPassRenderTargetDescriptors.length = 4 ∧
    ∃ d, lastCallFor sampleOverwritingCalls 3 = some d ∧ d.isNullRTV = true :=
  ⟨rfl, ⟨_, rfl, rfl⟩⟩

/-- C11, amended: after every sequence of `SetRenderTargetView` calls (with `uint8_t` indices) on
a fresh builder, if `GetRenderPassRenderTargetDescriptors()` exposes n > 0 slots then some call
for index n - 1 had `isNullRTV = false`; and when no index is passed twice, that call is the most
recent call for index n - 1. -/
theorem C11_last_exposed_slot_was_given_a_real_attachment
    (uninit : RenderPassBuilder) (hasUAV : Bool) (calls : List SetRenderTargetViewCall)
    (hlt : ∀ c ∈ calls, c.attachmentIndex < 256)
    (hpos : 0 < ((ctor uninit hasUAV).SetRenderTargetViews
      calls).GetRenderPassRenderTargetDescriptors.length) :
    (∃ c ∈ calls,
      c.attachmentIndex + 1 = ((ctor uninit hasUAV).SetRenderTargetViews
        calls).GetRenderPassRenderTargetDescriptors.length ∧
      c.isNullRTV = false) ∧
    ((calls.map fun c => c.attachmentIndex).Nodup →
      ∃ d, lastCallFor calls (((ctor uninit hasUAV).SetRenderTargetViews
          calls).GetRenderPassRenderTargetDescriptors.length - 1) = some d ∧
        d.isNullRTV = false) := by
  have h0 : (ctor uninit hasUAV).mHighestColorAttachmentIndexPlusOne = 0 := by
    cases hasUAV <;> simp [ctor, defaultMembers]
  have hlen : ((ctor uninit hasUAV).SetRenderTargetViews
      calls).GetRenderPassRenderTargetDescriptors.length
      = ((ctor uninit hasUAV).SetRenderTargetViews calls).mHighestColorAttachmentIndexPlusOne := by
    simp [GetRenderPassRenderTargetDescriptors]
  rw [hlen] at hpos ⊢
  rcases SetRenderTargetViews_highest_attained (ctor uninit hasUAV) h0 calls hlt with
    hz | ⟨c, hc, hreal, hh⟩
  · rw [hz] at hpos; exact absurd hpos (lt_irrefl 0)
  · refine ⟨⟨c, hc, hh.symm, hreal⟩, ?_⟩
    intro hnodup
    have hmem : c ∈ calls.filter fun d => d.attachmentIndex
        = ((ctor uninit hasUAV).SetRenderTargetViews
          calls).mHighestColorAttachmentIndexPlusOne - 1 := by
      rw [List.mem_filter]
      refine ⟨hc, ?_⟩
      rw [hh]
      simp
    cases hlast : lastCallFor calls
        (((ctor uninit hasUAV).SetRenderTargetViews
          calls).mHighestColorAttachmentIndexPlusOne - 1) with
    | none =>
      unfold lastCallFor at hlast
      rw [List.getLast?_eq_none_iff] at hlast
      rw [hlast] at hmem
      cases hmem
    | some d =>
      refine ⟨d, rfl, ?_⟩
      unfold lastCallFor at hlast
      have hd := List.mem_of_getLast?_eq_some hlast
      rw [List.mem_filter] at hd
      have hidx : d.attachmentIndex = c.attachmentIndex := by
        have := hd.2
        rw [hh] at this
        simpa using this
      have hdc : d = c := List.inj_on_of_nodup_map hnodup hd.1 hc hidx
      rw [hdc]; exact hreal

/-- C11, witness: the three calls of `sampleCalls` expose 2 slots, and the one call for slot 1
had a real attachment. -/
theorem C11_last_exposed_slot_was_given_a_real_attachment_witness :
    (∃ c ∈ sampleCalls,
      c.attachmentIndex + 1 = ((ctor sampleBuilderStorage false).SetRenderTargetViews
        sampleCalls).GetRenderPassRenderTargetDescriptors.length ∧
      c.isNullRTV = false) ∧
    ((sampleCalls.map fun c => c.attachmentIndex).Nodup →
      ∃ d, lastCallFor sampleCalls (((ctor sampleBuilderStorage false).SetRenderTargetViews
          sampleCalls).GetRenderPassRenderTargetDescriptors.length - 1) = some d ∧
        d.isNullRTV = false) :=
  C11_last_exposed_slot_was_given_a_real_attachment sampleBuilderStorage false sampleCalls
    (by decide) (by decide)

/-- C12: `SetDepthNoAccess` sets the depth beginning and ending access types to `NO_ACCESS` and
leaves the stencil beginning and ending access as they were; `SetStencilNoAccess` sets the
stencil beginning and ending access types to `NO_ACCESS` and leaves both depth accesses as they
were; `SetDepthStencilNoAccess` sets all four access types to `NO_ACCESS`. -/
theorem C12_no_access_setters (self : RenderPassBuilder) :
    (self.SetDepthNoAccess.mRenderPassDepthStencilDesc.DepthBeginningAccess.Type_
        = D3D12_RENDER_PASS_BEGINNING_ACCESS_TYPE.NO_ACCESS ∧
      self.SetDepthNoAccess.mRenderPassDepthStencilDesc.DepthEndingAccess.Type_
        = D3D12_RENDER_PASS_ENDING_ACCESS_TYPE.NO_ACCESS ∧
      self.SetDepthNoAccess.mRenderPassDepthStencilDesc.StencilBeginningAccess
        = self.mRenderPassDepthStencilDesc.StencilBeginningAccess ∧
      self.SetDepthNoAccess.mRenderPassDepthStencilDesc.StencilEndingAccess
        = self.mRenderPassDepthStencilDesc.StencilEndingAccess) ∧
    (self.SetStencilNoAccess.mRenderPassDepthStencilDesc.StencilBeginningAccess.Type_
        = D3D12_RENDER_PASS_BEGINNING_ACCESS_TYPE.NO_ACCESS ∧
      self.SetStencilNoAccess.mRenderPassDepthStencilDesc.StencilEndingAccess.Type_
        = D3D12_RENDER_PASS_ENDING_ACCESS_TYPE.NO_ACCESS ∧
      self.SetStencilNoAccess.mRenderPassDepthStencilDesc.DepthBeginningAccess
        = self.mRenderPassDepthStencilDesc.DepthBeginningAccess ∧
      self.SetStencilNoAccess.mRenderPassDepthStencilDesc.DepthEndingAccess
        = self.mRenderPassDepthStencilDesc.DepthEndingAccess) ∧
    (self.SetDepthStencilNoAccess.mRenderPassDepthStencilDesc.DepthBeginningAccess.Type_
        = D3D12_RENDER_PASS_BEGINNING_ACCESS_TYPE.NO_ACCESS ∧
      self.SetDepthStencilNoAccess.mRenderPassDepthStencilDesc.DepthEndingAccess.Type_
        = D3D12_RENDER_PASS_ENDING_ACCESS_TYPE.NO_ACCESS ∧
      self.SetDepthStencilNoAccess.mRenderPassDepthStencilDesc.StencilBeginningAccess.Type_
        = D3D12_RENDER_PASS_BEGINNING_ACCESS_TYPE.NO_ACCESS ∧
      self.SetDepthStencilNoAccess.mRenderPassDepthStencilDesc.StencilEndingAccess.Type_
        = D3D12_RENDER_PASS_ENDING_ACCESS_TYPE.NO_ACCESS) :=
  ⟨⟨rfl, rfl, rfl, rfl⟩, ⟨rfl, rfl, rfl, rfl⟩, ⟨rfl, rfl, rfl, rfl⟩⟩

/-- A call that returns leaves `mRenderPassFlags` as it was. -/
theorem call_mRenderPassFlags (self after : RenderPassBuilder) (c : RenderPassBuilderCall)
    (h : self.call c = .ok after) : after.mRenderPassFlags = self.mRenderPassFlags := by
  cases c with
  | SetRenderTargetView attachmentIndex baseDescriptor isNullRTV =>
    simp only [RenderPassBuilder.call, Except.ok.injEq] at h
    subst h
    cases isNullRTV <;> simp [SetRenderTargetView, setRenderTargetDesc]
  | SetDepthStencilView baseDescriptor =>
    simp only [RenderPassBuilder.call, Except.ok.injEq] at h
    subst h; rfl
  | SetRenderTargetBeginningAccess toFLOAT attachment loadOp clearColor format =>
    simp only [RenderPassBuilder.call] at h
    cases loadOp <;>
      simp [SetRenderTargetBeginningAccess, D3D12BeginningAccessType, bind, Except.bind, pure,
        Except.pure] at h <;>
      (subst h; rfl)
  | SetRenderTargetEndingAccess attachment storeOp =>
    simp only [RenderPassBuilder.call] at h
    cases storeOp <;>
      simp [SetRenderTargetEndingAccess, D3D12EndingAccessType, bind, Except.bind, pure,
        Except.pure] at h <;>
      (subst h; rfl)
  | SetRenderTargetEndingAccessResolve uninit attachment storeOp src dst =>
    simp only [RenderPassBuilder.call] at h
    rw [SetRenderTargetEndingAccessResolve_eq] at h
    split at h
    · cases h
    · split at h
      · simp only [Except.ok.injEq] at h
        subst h; rfl
      · cases h
  | SetDepthAccess loadOp storeOp clearDepth format =>
    simp only [RenderPassBuilder.call] at h
    cases loadOp <;> cases storeOp <;>
      simp [SetDepthAccess, D3D12BeginningAccessType, D3D12EndingAccessType, bind, Except.bind,
        pure, Except.pure] at h <;>
      (subst h; rfl)
  | SetStencilAccess loadOp storeOp clearStencil format =>
    simp only [RenderPassBuilder.call] at h
    cases loadOp <;> cases storeOp <;>
      simp [SetStencilAccess, D3D12BeginningAccessType, D3D12EndingAccessType, bind, Except.bind,
        pure, Except.pure] at h <;>
      (subst h; rfl)
  | SetDepthNoAccess =>
    simp only [RenderPassBuilder.call, Except.ok.injEq] at h
    subst h; rfl
  | SetDepthStencilNoAccess =>
    simp only [RenderPassBuilder.call, Except.ok.injEq] at h
    subst h; rfl
  | SetStencilNoAccess =>
    simp only [RenderPassBuilder.call, Except.ok.injEq] at h
    subst h; rfl

/-- A run of calls that returns leaves `mRenderPassFlags` as it was. -/
theorem calls_mRenderPassFlags (calls : List RenderPassBuilderCall) :
    ∀ self after : RenderPassBuilder, self.calls calls = .ok after →
      after.mRenderPassFlags = self.mRenderPassFlags := by
  induction calls with
  | nil =>
    intro self after h
    simp only [RenderPassBuilder.calls, Except.ok.injEq] at h
    subst h; rfl
  | cons c rest ih =>
    intro self after h
    simp only [RenderPassBuilder.calls] at h
    cases hc : self.call c with
    | error f => rw [hc] at h; cases h
    | ok next =>
      rw [hc] at h
      rw [ih next after h, call_mRenderPassFlags self next c hc]

/-- C13: the render-pass flags are fixed at construction. On a freshly constructed builder
`GetRenderPassFlags()` returns `D3D12_RENDER_PASS_FLAG_ALLOW_UAV_WRITES` if and only if the
builder was constructed with `hasUAV = true`; no call of a `Set*` member function changes the
value it returns; hence after every run of such calls on a fresh builder the value is still
`ALLOW_UAV_WRITES` exactly when `hasUAV` was true. -/
theorem C13_render_pass_flags_fixed_at_construction (uninit : RenderPassBuilder)
    (hasUAV : Bool) :
    ((ctor uninit hasUAV).GetRenderPassFlags = D3D12_RENDER_PASS_FLAG_ALLOW_UAV_WRITES ↔
      hasUAV = true) ∧
    (∀ (self after : RenderPassBuilder) (c : RenderPassBuilderCall), self.call c = .ok after →
      after.GetRenderPassFlags = self.GetRenderPassFlags) ∧
    (∀ (calls : List RenderPassBuilderCall) (after : RenderPassBuilder),
      (ctor uninit hasUAV).calls calls = .ok after →
      (after.GetRenderPassFlags = D3D12_RENDER_PASS_FLAG_ALLOW_UAV_WRITES ↔ hasUAV = true)) := by
  have hctor : ((ctor uninit hasUAV).GetRenderPassFlags
      = D3D12_RENDER_PASS_FLAG_ALLOW_UAV_WRITES ↔ hasUAV = true) := by
    cases hasUAV <;>
      simp [ctor, defaultMembers, GetRenderPassFlags, D3D12_RENDER_PASS_FLAG_ALLOW_UAV_WRITES,
        D3D12_RENDER_PASS_FLAG_NONE]
  refine ⟨hctor, ?_, ?_⟩
  · intro self after c h
    exact call_mRenderPassFlags self after c h
  · intro calls after h
    have := calls_mRenderPassFlags calls _ after h
    simp only [GetRenderPassFlags] at hctor ⊢
    rw [this]; exact hctor

/-- C13, witness: the run `sampleBuilderCalls` on a builder constructed with `hasUAV = true`
returns, and the flags are still `ALLOW_UAV_WRITES`. -/
theorem C13_render_pass_flags_fixed_at_construction_witness :
    ∃ after, (ctor sampleBuilderStorage true).calls sampleBuilderCalls = .ok after ∧
      after.GetRenderPassFlags = D3D12_RENDER_PASS_FLAG_ALLOW_UAV_WRITES := by
  have hrun : ∃ after, (ctor sampleBuilderStorage true).calls sampleBuilderCalls = .ok after := by
    simp [sampleBuilderCalls, RenderPassBuilder.calls, RenderPassBuilder.call,
      SetRenderTargetEndingAccessResolve_eq, SetRenderTargetBeginningAccess,
      SetRenderTargetEndingAccess, SetDepthAccess, SetStencilAccess, D3D12BeginningAccessType,
      D3D12EndingAccessType, bind, Except.bind, pure, Except.pure, sampleView, sampleFormat,
      sampleTexture]
  obtain ⟨after, h⟩ := hrun
  exact ⟨after, h,
    ((C13_render_pass_flags_fixed_at_construction sampleBuilderStorage true).2.2
      sampleBuilderCalls after h).2 rfl⟩

/-- The outcome of `SetRenderTargetBeginningAccess`, case by case. -/
theorem SetRenderTargetBeginningAccess_eq (toFLOAT : double → FLOAT) (self : RenderPassBuilder)
    (attachment : ColorAttachmentIndex) (loadOp : wgpu.LoadOp) (clearColor : Color)
    (format : DXGI_FORMAT) :
    SetRenderTargetBeginningAccess toFLOAT self attachment loadOp clearColor format =
      match loadOp with
      | .Undefined => .error Fault.unreachableLoadOp
      | .Load =>
        .ok
          { self with
            mRenderPassRenderTargetDescriptors :=
              Function.update self.mRenderPassRenderTargetDescriptors attachment
                { self.mRenderPassRenderTargetDescriptors attachment with
                  BeginningAccess :=
                    { (self.mRenderPassRenderTargetDescriptors attachment).BeginningAccess with
                      Type_ := D3D12_RENDER_PASS_BEGINNING_ACCESS_TYPE.PRESERVE } } }
      | .Clear =>
        .ok
          { self with
            mRenderPassRenderTargetDescriptors :=
              Function.update self.mRenderPassRenderTargetDescriptors attachment
                { self.mRenderPassRenderTargetDescriptors attachment with
                  BeginningAccess :=
                    { Type_ := D3D12_RENDER_PASS_BEGINNING_ACCESS_TYPE.CLEAR
                      Clear :=
                        { ClearValue :=
                            { Format := format
                              Color :=
                                Function.update
                                  (Function.update
                                    (Function.update
                                      (Function.update
                                        (self.mRenderPassRenderTargetDescriptors
                                          attachment).BeginningAccess.Clear.ClearValue.Color
                                        0 (toFLOAT clearColor.r))
                                      1 (toFLOAT clearColor.g))
                                    2 (toFLOAT clearColor.b))
                                  3 (toFLOAT clearColor.a)
                              DepthStencil :=
                                (self.mRenderPassRenderTargetDescriptors
                                  attachment).BeginningAccess.Clear.ClearValue.DepthStencil
                            } } } } } := by
  cases loadOp <;>
    simp [SetRenderTargetBeginningAccess, D3D12BeginningAccessType, bind, Except.bind, pure,
      Except.pure, setRenderTargetDesc]

/-- C14: `Clear` is mapped to the beginning-access type `CLEAR`, `Load` to `PRESERVE`, `Discard`
to the ending-access type `DISCARD` and `Store` to `PRESERVE`; for every load operation in
{Clear, Load} and store operation in {Discard, Store}, `SetRenderTargetBeginningAccess`,
`SetRenderTargetEndingAccess`, `SetDepthAccess` and `SetStencilAccess` return and store these
types in the colour slot, in the depth accesses and in the stencil accesses. -/
theorem C14_load_store_ops_map_to_access_types (toFLOAT : double → FLOAT)
    (self : RenderPassBuilder) (attachment : ColorAttachmentIndex) (loadOp : wgpu.LoadOp)
    (storeOp : wgpu.StoreOp) (clearColor : Color) (clearDepth : FLOAT) (clearStencil : Nat)
    (format : DXGI_FORMAT)
    (hl : loadOp = wgpu.LoadOp.Clear ∨ loadOp = wgpu.LoadOp.Load)
    (hs : storeOp = wgpu.StoreOp.Discard ∨ storeOp = wgpu.StoreOp.Store) :
    (D3D12BeginningAccessType wgpu.LoadOp.Clear
        = .ok D3D12_RENDER_PASS_BEGINNING_ACCESS_TYPE.CLEAR ∧
      D3D12BeginningAccessType wgpu.LoadOp.Load
        = .ok D3D12_RENDER_PASS_BEGINNING_ACCESS_TYPE.PRESERVE ∧
      D3D12EndingAccessType wgpu.StoreOp.Discard
        = .ok D3D12_RENDER_PASS_ENDING_ACCESS_TYPE.DISCARD ∧
      D3D12EndingAccessType wgpu.StoreOp.Store
        = .ok D3D12_RENDER_PASS_ENDING_ACCESS_TYPE.PRESERVE) ∧
    (∃ after,
      SetRenderTargetBeginningAccess toFLOAT self attachment loadOp clearColor format
        = .ok after ∧
      D3D12BeginningAccessType loadOp
        = .ok (after.mRenderPassRenderTargetDescriptors attachment).BeginningAccess.Type_) ∧
    (∃ after, SetRenderTargetEndingAccess self attachment storeOp = .ok after ∧
      D3D12EndingAccessType storeOp
        = .ok (after.mRenderPassRenderTargetDescriptors attachment).EndingAccess.Type_) ∧
    (∃ after, SetDepthAccess self loadOp storeOp clearDepth format = .ok after ∧
      D3D12BeginningAccessType loadOp
        = .ok after.mRenderPassDepthStencilDesc.DepthBeginningAccess.Type_ ∧
      D3D12EndingAccessType storeOp
        = .ok after.mRenderPassDepthStencilDesc.DepthEndingAccess.Type_) ∧
    (∃ after, SetStencilAccess self loadOp storeOp clearStencil format = .ok after ∧
      D3D12BeginningAccessType loadOp
        = .ok after.mRenderPassDepthStencilDesc.StencilBeginningAccess.Type_ ∧
      D3D12EndingAccessType storeOp
        = .ok after.mRenderPassDepthStencilDesc.StencilEndingAccess.Type_) := by
  refine ⟨⟨rfl, rfl, rfl, rfl⟩, ?_, ?_, ?_, ?_⟩
  · rw [SetRenderTargetBeginningAccess_eq]
    rcases hl with hl | hl <;> subst hl <;> simp [D3D12BeginningAccessType]
  · rcases hs with hs | hs <;> subst hs <;>
      simp [SetRenderTargetEndingAccess, D3D12EndingAccessType, bind, Except.bind, pure,
        Except.pure, setRenderTargetDesc]
  · rcases hl with hl | hl <;> rcases hs with hs | hs <;> subst hl <;> subst hs <;>
      simp [SetDepthAccess, D3D12BeginningAccessType, D3D12EndingAccessType, bind, Except.bind,
        pure, Except.pure]
  · rcases hl with hl | hl <;> rcases hs with hs | hs <;> subst hl <;> subst hs <;>
      simp [SetStencilAccess, D3D12BeginningAccessType, D3D12EndingAccessType, bind,
        Except.bind, pure, Except.pure]

/-- C14, witness: `Clear` with `Store` on `sampleBuilder`. -/
theorem C14_load_store_ops_map_to_access_types_witness :
    ∃ after, SetDepthAccess sampleBuilder wgpu.LoadOp.Clear wgpu.StoreOp.Store 5 40
        = .ok after ∧
      D3D12BeginningAccessType wgpu.LoadOp.Clear
        = .ok after.mRenderPassDepthStencilDesc.DepthBeginningAccess.Type_ ∧
      D3D12EndingAccessType wgpu.StoreOp.Store
        = .ok after.mRenderPassDepthStencilDesc.DepthEndingAccess.Type_ :=
  (C14_load_store_ops_map_to_access_types (fun x => x) sampleBuilder 0 wgpu.LoadOp.Clear
    wgpu.StoreOp.Store { r := 1, g := 2, b := 3, a := 4 } 5 7 40 (Or.inl rfl)
    (Or.inr rfl)).2.2.2.1

/-- C15: `SetRenderTargetBeginningAccess(slot, Clear, color, format)` returns with `color.r`,
`color.g`, `color.b`, `color.a`, converted to `FLOAT`, in components 0, 1, 2, 3 of the clear
colour of the slot, and with `format` as the format of the clear value; with `Load` it returns
with the access type written and the clear parameters of the slot (colour and format) as they
were. -/
theorem C15_clear_color_and_format_stored (toFLOAT : double → FLOAT) (self : RenderPassBuilder)
    (attachment : ColorAttachmentIndex) (clearColor : Color) (format : DXGI_FORMAT) :
    (∃ after,
      SetRenderTargetBeginningAccess toFLOAT self attachment wgpu.LoadOp.Clear clearColor format
        = .ok after ∧
      (after.mRenderPassRenderTargetDescriptors attachment).BeginningAccess.Clear.ClearValue.Color
        0 = toFLOAT clearColor.r ∧
      (after.mRenderPassRenderTargetDescriptors attachment).BeginningAccess.Clear.ClearValue.Color
        1 = toFLOAT clearColor.g ∧
      (after.mRenderPassRenderTargetDescriptors attachment).BeginningAccess.Clear.ClearValue.Color
        2 = toFLOAT clearColor.b ∧
      (after.mRenderPassRenderTargetDescriptors attachment).BeginningAccess.Clear.ClearValue.Color
        3 = toFLOAT clearColor.a ∧
      (after.mRenderPassRenderTargetDescriptors attachment).BeginningAccess.Clear.ClearValue.Format
        = format) ∧
    (∃ after,
      SetRenderTargetBeginningAccess toFLOAT self attachment wgpu.LoadOp.Load clearColor format
        = .ok after ∧
      (after.mRenderPassRenderTargetDescriptors attachment).BeginningAccess.Type_
        = D3D12_RENDER_PASS_BEGINNING_ACCESS_TYPE.PRESERVE ∧
      (after.mRenderPassRenderTargetDescriptors attachment).BeginningAccess.Clear
        = (self.mRenderPassRenderTargetDescriptors attachment).BeginningAccess.Clear ∧
      (after.mRenderPassRenderTargetDescriptors attachment).EndingAccess
        = (self.mRenderPassRenderTargetDescriptors attachment).EndingAccess ∧
      (after.mRenderPassRenderTargetDescriptors attachment).cpuDescriptor
        = (self.mRenderPassRenderTargetDescriptors attachment).cpuDescriptor) := by
  constructor
  · rw [SetRenderTargetBeginningAccess_eq]
    refine ⟨_, rfl, ?_, ?_, ?_, ?_, ?_⟩ <;> simp [Function.update]
  · rw [SetRenderTargetBeginningAccess_eq]
    refine ⟨_, rfl, ?_, ?_, ?_, ?_⟩ <;> simp

/-- C16: for a store operation in {Discard, Store}, `SetRenderTargetEndingAccessResolve(slot,
storeOp, src, dst)` sets the ending-access type of the slot to `RESOLVE`, the resolve format to
the format of the destination view, the source and destination resources to the native resources
of the textures of the two views, the subresource count to 1, and `PreserveResolveSource` to true
exactly when `storeOp` is `Store`. The call returns with these values on every colour destination
whose component type is not `DepthComparison`, and they hold whenever the call returns. -/
theorem C16_resolve_ending_access_parameters
    (uninit : D3D12_RENDER_PASS_ENDING_ACCESS_RESOLVE_PARAMETERS) (self : RenderPassBuilder)
    (attachment : ColorAttachmentIndex) (storeOp : wgpu.StoreOp) (src dst : TextureView)
    (hs : storeOp = wgpu.StoreOp.Discard ∨ storeOp = wgpu.StoreOp.Store) :
    ((dst.GetFormat.GetAspectInfo Aspect.Color).baseType
        ≠ wgpu.TextureComponentType.DepthComparison →
      dst.GetTexture.GetFormat.aspects = Aspect.Color →
      ∃ after, SetRenderTargetEndingAccessResolve uninit self attachment storeOp src dst
          = .ok after ∧
        (after.mRenderPassRenderTargetDescriptors attachment).EndingAccess.Type_
          = D3D12_RENDER_PASS_ENDING_ACCESS_TYPE.RESOLVE ∧
        (after.mRenderPassRenderTargetDescriptors attachment).EndingAccess.Resolve.Format
          = dst.GetD3D12Format ∧
        (after.mRenderPassRenderTargetDescriptors attachment).EndingAccess.Resolve.pSrcResource
          = src.GetTexture.GetD3D12Resource ∧
        (after.mRenderPassRenderTargetDescriptors attachment).EndingAccess.Resolve.pDstResource
          = dst.GetTexture.GetD3D12Resource ∧
        (after.mRenderPassRenderTargetDescriptors attachment).EndingAccess.Resolve.SubresourceCount
          = 1 ∧
        ((after.mRenderPassRenderTargetDescriptors
            attachment).EndingAccess.Resolve.PreserveResolveSource = true ↔
          storeOp = wgpu.StoreOp.Store)) ∧
    (∀ after, SetRenderTargetEndingAccessResolve uninit self attachment storeOp src dst
        = .ok after →
      (after.mRenderPassRenderTargetDescriptors attachment).EndingAccess.Type_
        = D3D12_RENDER_PASS_ENDING_ACCESS_TYPE.RESOLVE ∧
      (after.mRenderPassRenderTargetDescriptors attachment).EndingAccess.Resolve.Format
        = dst.GetD3D12Format ∧
      (after.mRenderPassRenderTargetDescriptors attachment).EndingAccess.Resolve.pSrcResource
        = src.GetTexture.GetD3D12Resource ∧
      (after.mRenderPassRenderTargetDescriptors attachment).EndingAccess.Resolve.pDstResource
        = dst.GetTexture.GetD3D12Resource ∧
      (after.mRenderPassRenderTargetDescriptors attachment).EndingAccess.Resolve.SubresourceCount
        = 1 ∧
      ((after.mRenderPassRenderTargetDescriptors
          attachment).EndingAccess.Resolve.PreserveResolveSource = true ↔
        storeOp = wgpu.StoreOp.Store)) := by
  rw [SetRenderTargetEndingAccessResolve_eq]
  constructor
  · intro ht ha
    simp only [ht, ha, if_false, if_true]
    refine ⟨_, rfl, ?_, ?_, ?_, ?_, ?_, ?_⟩
    all_goals simp
    rcases hs with hs | hs <;> subst hs <;> simp
  · intro after h
    split at h
    · cases h
    · split at h
      · simp only [Except.ok.injEq] at h
        subst h
        refine ⟨?_, ?_, ?_, ?_, ?_, ?_⟩
        all_goals simp
        rcases hs with hs | hs <;> subst hs <;> simp
      · cases h

/-- C16, witness: a `Store` resolve from resource 100 into a float view of resource 200. -/
theorem C16_resolve_ending_access_parameters_witness :
    ∃ after, SetRenderTargetEndingAccessResolve sampleResolveStorage sampleBuilder 2
        wgpu.StoreOp.Store (sampleView 100 wgpu.TextureComponentType.Float)
        (sampleView 200 wgpu.TextureComponentType.Float) = .ok after ∧
      (after.mRenderPassRenderTargetDescriptors 2).EndingAccess.Type_
        = D3D12_RENDER_PASS_ENDING_ACCESS_TYPE.RESOLVE ∧
      (after.mRenderPassRenderTargetDescriptors 2).EndingAccess.Resolve.Format
        = (sampleView 200 wgpu.TextureComponentType.Float).GetD3D12Format ∧
      (after.mRenderPassRenderTargetDescriptors 2).EndingAccess.Resolve.pSrcResource
        = (sampleView 100 wgpu.TextureComponentType.Float).GetTexture.GetD3D12Resource ∧
      (after.mRenderPassRenderTargetDescriptors 2).EndingAccess.Resolve.pDstResource
        = (sampleView 200 wgpu.TextureComponentType.Float).GetTexture.GetD3D12Resource ∧
      (after.mRenderPassRenderTargetDescriptors 2).EndingAccess.Resolve.SubresourceCount = 1 ∧
      ((after.mRenderPassRenderTargetDescriptors 2).EndingAccess.Resolve.PreserveResolveSource
          = true ↔
        wgpu.StoreOp.Store = wgpu.StoreOp.Store) :=
  (C16_resolve_ending_access_parameters sampleResolveStorage sampleBuilder 2 wgpu.StoreOp.Store
    (sampleView 100 wgpu.TextureComponentType.Float)
    (sampleView 200 wgpu.TextureComponentType.Float) (Or.inr rfl)).1 (by decide) rfl

/-- C17: for every resolve destination on a colour texture,
`D3D12EndingAccessResolveSubresourceParameters` returns the parameters of a whole-region resolve:
source rect {0, 0, 0, 0}, `DstX = DstY = 0`, source subresource 0, and as destination
subresource the subresource index of the destination texture for the base mip level and base
array layer of the view and the colour aspect. Whenever `SetRenderTargetEndingAccessResolve`
returns, for any builder, slot, store operation and source, these are the parameters stored for
the slot and the resolve parameters of the slot point at them. -/
theorem C17_resolve_subresource_parameters_cover_whole_region (dst : TextureView)
    (ha : dst.GetTexture.GetFormat.aspects = Aspect.Color) :
    D3D12EndingAccessResolveSubresourceParameters dst =
      .ok
        { SrcSubresource := 0
          DstSubresource :=
            dst.GetTexture.GetSubresourceIndex dst.GetBaseMipLevel dst.GetBaseArrayLayer
              Aspect.Color
          DstX := 0
          DstY := 0
          SrcRect := { left := 0, top := 0, right := 0, bottom := 0 } } ∧
    ∀ (uninit : D3D12_RENDER_PASS_ENDING_ACCESS_RESOLVE_PARAMETERS) (self : RenderPassBuilder)
      (attachment : ColorAttachmentIndex) (storeOp : wgpu.StoreOp) (src : TextureView)
      (after : RenderPassBuilder),
      SetRenderTargetEndingAccessResolve uninit self attachment storeOp src dst = .ok after →
      D3D12EndingAccessResolveSubresourceParameters dst
        = .ok (after.mSubresourceParams attachment) ∧
      (after.mRenderPassRenderTargetDescriptors
        attachment).EndingAccess.Resolve.pSubresourceParameters = some attachment := by
  have hsub : D3D12EndingAccessResolveSubresourceParameters dst =
      .ok
        { SrcSubresource := 0
          DstSubresource :=
            dst.GetTexture.GetSubresourceIndex dst.GetBaseMipLevel dst.GetBaseArrayLayer
              Aspect.Color
          DstX := 0
          DstY := 0
          SrcRect := { left := 0, top := 0, right := 0, bottom := 0 } } := by
    simp [D3D12EndingAccessResolveSubresourceParameters, ha]
  refine ⟨hsub, ?_⟩
  intro uninit self attachment storeOp src after h
  rw [SetRenderTargetEndingAccessResolve_eq] at h
  rw [hsub]
  split at h
  · cases h
  · simp only [ha, if_true, Except.ok.injEq] at h
    subst h
    simp

/-- C17, witness: a view of mip level 0 and array layer 0 on a colour texture. -/
theorem C17_resolve_subresource_parameters_cover_whole_region_witness :
    D3D12EndingAccessResolveSubresourceParameters
        (sampleView 200 wgpu.TextureComponentType.Uint) =
      .ok
        { SrcSubresource := 0
          DstSubresource := 0
          DstX := 0
          DstY := 0
          SrcRect := { left := 0, top := 0, right := 0, bottom := 0 } } :=
  (C17_resolve_subresource_parameters_cover_whole_region
    (sampleView 200 wgpu.TextureComponentType.Uint) rfl).1

/-- The outcome of `SetDepthAccess`, case by case. -/
theorem SetDepthAccess_eq (self : RenderPassBuilder) (loadOp : wgpu.LoadOp)
    (storeOp : wgpu.StoreOp) (clearDepth : FLOAT) (format : DXGI_FORMAT) :
    SetDepthAccess self loadOp storeOp clearDepth format =
      match D3D12BeginningAccessType loadOp, D3D12EndingAccessType storeOp with
      | .error f, _ => .error f
      | .ok _, .error f => .error f
      | .ok beginning, .ok ending =>
        .ok
          { self with
            mHasDepth := true
            mRenderPassDepthStencilDesc :=
              { self.mRenderPassDepthStencilDesc with
                DepthBeginningAccess :=
                  { Type_ := beginning
                    Clear :=
                      if loadOp = wgpu.LoadOp.Clear then
                        { ClearValue :=
                            { self.mRenderPassDepthStencilDesc.DepthBeginningAccess.Clear.ClearValue
                              with
                              DepthStencil :=
                                { self.mRenderPassDepthStencilDesc.DepthBeginningAccess.Clear.ClearValue.DepthStencil
                                  with Depth := clearDepth }
                              Format := format } }
                      else self.mRenderPassDepthStencilDesc.DepthBeginningAccess.Clear }
                DepthEndingAccess :=
                  { self.mRenderPassDepthStencilDesc.DepthEndingAccess with Type_ := ending } } } := by
  cases loadOp <;> cases storeOp <;>
    simp [SetDepthAccess, D3D12BeginningAccessType, D3D12EndingAccessType, bind, Except.bind,
      pure, Except.pure]

/-- The outcome of `SetStencilAccess`, case by case. -/
theorem SetStencilAccess_eq (self : RenderPassBuilder) (loadOp : wgpu.LoadOp)
    (storeOp : wgpu.StoreOp) (clearStencil : Nat) (format : DXGI_FORMAT) :
    SetStencilAccess self loadOp storeOp clearStencil format =
      match D3D12BeginningAccessType loadOp, D3D12EndingAccessType storeOp with
      | .error f, _ => .error f
      | .ok _, .error f => .error f
      | .ok beginning, .ok ending =>
        .ok
          { self with
            mRenderPassDepthStencilDesc :=
              { self.mRenderPassDepthStencilDesc with
                StencilBeginningAccess :=
                  { Type_ := beginning
                    Clear :=
                      if loadOp = wgpu.LoadOp.Clear then
                        { ClearValue :=
                            { self.mRenderPassDepthStencilDesc.StencilBeginningAccess.Clear.ClearValue
                              with
                              DepthStencil :=
                                { self.mRenderPassDepthStencilDesc.StencilBeginningAccess.Clear.ClearValue.DepthStencil
                                  with Stencil := clearStencil }
                              Format := format } }
                      else self.mRenderPassDepthStencilDesc.StencilBeginningAccess.Clear }
                StencilEndingAccess :=
                  { self.mRenderPassDepthStencilDesc.StencilEndingAccess with
                    Type_ := ending } } } := by
  cases loadOp <;> cases storeOp <;>
    simp [SetStencilAccess, D3D12BeginningAccessType, D3D12EndingAccessType, bind, Except.bind,
      pure, Except.pure]

/-- The outcome of `SetRenderTargetEndingAccess`, case by case. -/
theorem SetRenderTargetEndingAccess_eq (self : RenderPassBuilder)
    (attachment : ColorAttachmentIndex) (storeOp : wgpu.StoreOp) :
    SetRenderTargetEndingAccess self attachment storeOp =
      match D3D12EndingAccessType storeOp with
      | .error f => .error f
      | .ok ending =>
        .ok
          { self with
            mRenderPassRenderTargetDescriptors :=
              Function.update self.mRenderPassRenderTargetDescriptors attachment
                { self.mRenderPassRenderTargetDescriptors attachment with
                  EndingAccess :=
                    { (self.mRenderPassRenderTargetDescriptors attachment).EndingAccess with
                      Type_ := ending } } } := by
  cases storeOp <;>
    simp [SetRenderTargetEndingAccess, D3D12EndingAccessType, bind, Except.bind, pure,
      Except.pure, setRenderTargetDesc]

/-- C31: depth and stencil accesses are configured independently. For every load operation in
{Clear, Load} and store operation in {Discard, Store}, `SetDepthAccess` returns with the depth
beginning and ending access types written, with `clearDepth` and `format` in the depth clear
value when the load operation is `Clear` and the depth clear parameters as they were otherwise,
and with the stencil beginning access (type and clear value) and the stencil ending access
unchanged; besides the depth accesses it writes `mHasDepth` and nothing else. `SetStencilAccess`
returns with the stencil access types written, with `clearStencil` and `format` in the stencil
clear value when the load operation is `Clear` and the stencil clear parameters as they were
otherwise, and with the depth beginning access, the depth ending access and `mHasDepth`
unchanged; it writes nothing else. -/
theorem C31_depth_and_stencil_accesses_are_independent (self : RenderPassBuilder)
    (loadOp : wgpu.LoadOp) (storeOp : wgpu.StoreOp) (clearDepth : FLOAT) (clearStencil : Nat)
    (format : DXGI_FORMAT)
    (hl : loadOp = wgpu.LoadOp.Clear ∨ loadOp = wgpu.LoadOp.Load)
    (hs : storeOp = wgpu.StoreOp.Discard ∨ storeOp = wgpu.StoreOp.Store) :
    (∃ after, SetDepthAccess self loadOp storeOp clearDepth format = .ok after ∧
      D3D12BeginningAccessType loadOp =
        .ok after.mRenderPassDepthStencilDesc.DepthBeginningAccess.Type_ ∧
      D3D12EndingAccessType storeOp =
        .ok after.mRenderPassDepthStencilDesc.DepthEndingAccess.Type_ ∧
      (loadOp = wgpu.LoadOp.Clear →
        after.mRenderPassDepthStencilDesc.DepthBeginningAccess.Clear.ClearValue.DepthStencil.Depth
          = clearDepth ∧
        after.mRenderPassDepthStencilDesc.DepthBeginningAccess.Clear.ClearValue.Format
          = format ∧
        after.mRenderPassDepthStencilDesc.DepthBeginningAccess.Clear.ClearValue.DepthStencil.Stencil
          = self.mRenderPassDepthStencilDesc.DepthBeginningAccess.Clear.ClearValue.DepthStencil.Stencil
          ∧
        after.mRenderPassDepthStencilDesc.DepthBeginningAccess.Clear.ClearValue.Color
          = self.mRenderPassDepthStencilDesc.DepthBeginningAccess.Clear.ClearValue.Color) ∧
      (loadOp ≠ wgpu.LoadOp.Clear →
        after.mRenderPassDepthStencilDesc.DepthBeginningAccess.Clear
          = self.mRenderPassDepthStencilDesc.DepthBeginningAccess.Clear) ∧
      after.mRenderPassDepthStencilDesc.DepthEndingAccess.Resolve
        = self.mRenderPassDepthStencilDesc.DepthEndingAccess.Resolve ∧
      after.mRenderPassDepthStencilDesc.StencilBeginningAccess
        = self.mRenderPassDepthStencilDesc.StencilBeginningAccess ∧
      after.mRenderPassDepthStencilDesc.StencilEndingAccess
        = self.mRenderPassDepthStencilDesc.StencilEndingAccess ∧
      after.mRenderPassDepthStencilDesc.cpuDescriptor
        = self.mRenderPassDepthStencilDesc.cpuDescriptor ∧
      after.mHasDepth = true ∧
      after.mHighestColorAttachmentIndexPlusOne = self.mHighestColorAttachmentIndexPlusOne ∧
      after.mRenderPassFlags = self.mRenderPassFlags ∧
      after.mRenderPassRenderTargetDescriptors = self.mRenderPassRenderTargetDescriptors ∧
      after.mRenderTargetViews = self.mRenderTargetViews ∧
      after.mSubresourceParams = self.mSubresourceParams) ∧
    (∃ after, SetStencilAccess self loadOp storeOp clearStencil format = .ok after ∧
      D3D12BeginningAccessType loadOp =
        .ok after.mRenderPassDepthStencilDesc.StencilBeginningAccess.Type_ ∧
      D3D12EndingAccessType storeOp =
        .ok after.mRenderPassDepthStencilDesc.StencilEndingAccess.Type_ ∧
      (loadOp = wgpu.LoadOp.Clear →
        after.mRenderPassDepthStencilDesc.StencilBeginningAccess.Clear.ClearValue.DepthStencil.Stencil
          = clearStencil ∧
        after.mRenderPassDepthStencilDesc.StencilBeginningAccess.Clear.ClearValue.Format
          = format ∧
        after.mRenderPassDepthStencilDesc.StencilBeginningAccess.Clear.ClearValue.DepthStencil.Depth
          = self.mRenderPassDepthStencilDesc.StencilBeginningAccess.Clear.ClearValue.DepthStencil.Depth
          ∧
        after.mRenderPassDepthStencilDesc.StencilBeginningAccess.Clear.ClearValue.Color
          = self.mRenderPassDepthStencilDesc.StencilBeginningAccess.Clear.ClearValue.Color) ∧
      (loadOp ≠ wgpu.LoadOp.Clear →
        after.mRenderPassDepthStencilDesc.StencilBeginningAccess.Clear
          = self.mRenderPassDepthStencilDesc.StencilBeginningAccess.Clear) ∧
      after.mRenderPassDepthStencilDesc.StencilEndingAccess.Resolve
        = self.mRenderPassDepthStencilDesc.StencilEndingAccess.Resolve ∧
      after.mRenderPassDepthStencilDesc.DepthBeginningAccess
        = self.mRenderPassDepthStencilDesc.DepthBeginningAccess ∧
      after.mRenderPassDepthStencilDesc.DepthEndingAccess
        = self.mRenderPassDepthStencilDesc.DepthEndingAccess ∧
      after.mRenderPassDepthStencilDesc.cpuDescriptor
        = self.mRenderPassDepthStencilDesc.cpuDescriptor ∧
      after.mHasDepth = self.mHasDepth ∧
      after.mHighestColorAttachmentIndexPlusOne = self.mHighestColorAttachmentIndexPlusOne ∧
      after.mRenderPassFlags = self.mRenderPassFlags ∧
      after.mRenderPassRenderTargetDescriptors = self.mRenderPassRenderTargetDescriptors ∧
      after.mRenderTargetViews = self.mRenderTargetViews ∧
      after.mSubresourceParams = self.mSubresourceParams) := by
  constructor
  · rw [SetDepthAccess_eq]
    rcases hl with hl | hl <;> rcases hs with hs | hs <;> subst hl <;> subst hs <;>
      simp [D3D12BeginningAccessType, D3D12EndingAccessType]
  · rw [SetStencilAccess_eq]
    rcases hl with hl | hl <;> rcases hs with hs | hs <;> subst hl <;> subst hs <;>
      simp [D3D12BeginningAccessType, D3D12EndingAccessType]

/-- C31, witness: on `sampleBuilder`, `SetDepthAccess(Clear, Store, 5, 40)` stores the clear
depth and the format and leaves the stencil accesses as they were. -/
theorem C31_depth_and_stencil_accesses_are_independent_witness :
    ∃ after, SetDepthAccess sampleBuilder wgpu.LoadOp.Clear wgpu.StoreOp.Store 5 40 = .ok after ∧
      after.mRenderPassDepthStencilDesc.DepthBeginningAccess.Clear.ClearValue.DepthStencil.Depth
        = 5 ∧
      after.mRenderPassDepthStencilDesc.DepthBeginningAccess.Clear.ClearValue.Format = 40 ∧
      after.mRenderPassDepthStencilDesc.StencilBeginningAccess
        = sampleBuilder.mRenderPassDepthStencilDesc.StencilBeginningAccess ∧
      after.mRenderPassDepthStencilDesc.StencilEndingAccess
        = sampleBuilder.mRenderPassDepthStencilDesc.StencilEndingAccess := by
  obtain ⟨after, h, _, _, hclear, _, _, hsb, hse, _⟩ :=
    (C31_depth_and_stencil_accesses_are_independent sampleBuilder wgpu.LoadOp.Clear
      wgpu.StoreOp.Store 5 7 40 (Or.inl rfl) (Or.inr rfl)).1
  exact ⟨after, h, (hclear rfl).1, (hclear rfl).2.1, hsb, hse⟩

/-- C32: under the precondition no `UNREACHABLE` or `ASSERT` of the builder is reached. For
every load operation in {Clear, Load}, every store operation in {Discard, Store} and every
resolve destination whose texture has a colour format and whose view format has the component
type `Sint`, `Uint` or `Float`, the four helper functions and `SetRenderTargetBeginningAccess`,
`SetRenderTargetEndingAccess`, `SetRenderTargetEndingAccessResolve`, `SetDepthAccess` and
`SetStencilAccess` return; and what `SetRenderTargetEndingAccessResolve` returns does not
depend on the storage that its local variable was left with. -/
theorem C32_no_fault_under_the_precondition (toFLOAT : double → FLOAT)
    (uninit : D3D12_RENDER_PASS_ENDING_ACCESS_RESOLVE_PARAMETERS) (self : RenderPassBuilder)
    (attachment : ColorAttachmentIndex) (loadOp : wgpu.LoadOp) (storeOp : wgpu.StoreOp)
    (clearColor : Color) (clearDepth : FLOAT) (clearStencil : Nat) (format : DXGI_FORMAT)
    (src dst : TextureView)
    (hl : loadOp = wgpu.LoadOp.Clear ∨ loadOp = wgpu.LoadOp.Load)
    (hs : storeOp = wgpu.StoreOp.Discard ∨ storeOp = wgpu.StoreOp.Store)
    (ha : dst.GetTexture.GetFormat.aspects = Aspect.Color)
    (ht : (dst.GetFormat.GetAspectInfo Aspect.Color).baseType = wgpu.TextureComponentType.Sint ∨
      (dst.GetFormat.GetAspectInfo Aspect.Color).baseType = wgpu.TextureComponentType.Uint ∨
      (dst.GetFormat.GetAspectInfo Aspect.Color).baseType = wgpu.TextureComponentType.Float) :
    ((∃ t, D3D12BeginningAccessType loadOp = .ok t) ∧
      (∃ t, D3D12EndingAccessType storeOp = .ok t) ∧
      (∃ p, D3D12EndingAccessResolveParameters uninit storeOp src dst = .ok p) ∧
      (∃ p, D3D12EndingAccessResolveSubresourceParameters dst = .ok p)) ∧
    (∃ after,
      SetRenderTargetBeginningAccess toFLOAT self attachment loadOp clearColor format
        = .ok after) ∧
    (∃ after, SetRenderTargetEndingAccess self attachment storeOp = .ok after) ∧
    (∃ after,
      SetRenderTargetEndingAccessResolve uninit self attachment storeOp src dst = .ok after ∧
      ∀ uninit', SetRenderTargetEndingAccessResolve uninit' self attachment storeOp src dst
        = .ok after) ∧
    (∃ after, SetDepthAccess self loadOp storeOp clearDepth format = .ok after) ∧
    (∃ after, SetStencilAccess self loadOp storeOp clearStencil format = .ok after) := by
  have hnd : (dst.GetFormat.GetAspectInfo Aspect.Color).baseType
      ≠ wgpu.TextureComponentType.DepthComparison := by
    rcases ht with ht | ht | ht <;> rw [ht] <;> decide
  refine ⟨⟨?_, ?_, ?_, ?_⟩, ?_, ?_, ?_, ?_, ?_⟩
  · rcases hl with hl | hl <;> subst hl <;> exact ⟨_, rfl⟩
  · rcases hs with hs | hs <;> subst hs <;> exact ⟨_, rfl⟩
  · rw [D3D12EndingAccessResolveParameters_eq]
    rcases ht with ht | ht | ht <;> rw [ht] <;> exact ⟨_, rfl⟩
  · simp [D3D12EndingAccessResolveSubresourceParameters, ha]
  · rw [SetRenderTargetBeginningAccess_eq]
    rcases hl with hl | hl <;> subst hl <;> exact ⟨_, rfl⟩
  · rw [SetRenderTargetEndingAccess_eq]
    rcases hs with hs | hs <;> subst hs <;> exact ⟨_, rfl⟩
  · rw [SetRenderTargetEndingAccessResolve_eq, if_neg hnd, if_pos ha]
    refine ⟨_, rfl, ?_⟩
    intro uninit'
    rw [SetRenderTargetEndingAccessResolve_eq, if_neg hnd, if_pos ha]
    rcases hs with hs | hs <;> subst hs <;> rfl
  · rw [SetDepthAccess_eq]
    rcases hl with hl | hl <;> rcases hs with hs | hs <;> subst hl <;> subst hs <;>
      exact ⟨_, rfl⟩
  · rw [SetStencilAccess_eq]
    rcases hl with hl | hl <;> rcases hs with hs | hs <;> subst hl <;> subst hs <;>
      exact ⟨_, rfl⟩

/-- C32, witness: `Clear`, `Store` and a `Uint` colour destination on `sampleBuilder`: the
resolve call returns, whatever the local storage held. -/
theorem C32_no_fault_under_the_precondition_witness :
    ∃ after,
      SetRenderTargetEndingAccessResolve sampleResolveStorage sampleBuilder 1 wgpu.StoreOp.Store
        (sampleView 100 wgpu.TextureComponentType.Uint)
        (sampleView 200 wgpu.TextureComponentType.Uint) = .ok after ∧
      ∀ uninit', SetRenderTargetEndingAccessResolve uninit' sampleBuilder 1 wgpu.StoreOp.Store
        (sampleView 100 wgpu.TextureComponentType.Uint)
        (sampleView 200 wgpu.TextureComponentType.Uint) = .ok after :=
  (C32_no_fault_under_the_precondition (fun x => x) sampleResolveStorage sampleBuilder 1
    wgpu.LoadOp.Clear wgpu.StoreOp.Store { r := 1, g := 2, b := 3, a := 4 } 5 7 40
    (sampleView 100 wgpu.TextureComponentType.Uint)
    (sampleView 200 wgpu.TextureComponentType.Uint) (Or.inl rfl) (Or.inr rfl) rfl
    (Or.inr (Or.inl rfl))).2.2.2.1

/-- C33: the colour operations of a slot are local. For every slot `i` and every other slot `j`,
`SetRenderTargetView` on slot `i`, and `SetRenderTargetBeginningAccess`,
`SetRenderTargetEndingAccess` and `SetRenderTargetEndingAccessResolve` on slot `i` whenever they
return, leave the render-target descriptor, the render-target view handle and the resolve
subresource parameters of slot `j` unchanged, and leave the depth-stencil descriptor and
`HasDepth()` unchanged. -/
theorem C33_colour_operations_are_local_to_their_slot (self : RenderPassBuilder)
    (i j : ColorAttachmentIndex) (hij : j ≠ i) :
    (∀ (baseDescriptor : D3D12_CPU_DESCRIPTOR_HANDLE) (isNullRTV : Bool),
      (self.SetRenderTargetView i baseDescriptor isNullRTV).mRenderPassRenderTargetDescriptors j
        = self.mRenderPassRenderTargetDescriptors j ∧
      (self.SetRenderTargetView i baseDescriptor isNullRTV).GetRenderTargetViews j
        = self.GetRenderTargetViews j ∧
      (self.SetRenderTargetView i baseDescriptor isNullRTV).mSubresourceParams j
        = self.mSubresourceParams j ∧
      (self.SetRenderTargetView i baseDescriptor isNullRTV).GetRenderPassDepthStencilDescriptor
        = self.GetRenderPassDepthStencilDescriptor ∧
      (self.SetRenderTargetView i baseDescriptor isNullRTV).HasDepth = self.HasDepth) ∧
    (∀ (toFLOAT : double → FLOAT) (loadOp : wgpu.LoadOp) (clearColor : Color)
      (format : DXGI_FORMAT) (after : RenderPassBuilder),
      SetRenderTargetBeginningAccess toFLOAT self i loadOp clearColor format = .ok after →
      after.mRenderPassRenderTargetDescriptors j = self.mRenderPassRenderTargetDescriptors j ∧
      after.GetRenderTargetViews j = self.GetRenderTargetViews j ∧
      after.mSubresourceParams j = self.mSubresourceParams j ∧
      after.GetRenderPassDepthStencilDescriptor = self.GetRenderPassDepthStencilDescriptor ∧
      after.HasDepth = self.HasDepth) ∧
    (∀ (storeOp : wgpu.StoreOp) (after : RenderPassBuilder),
      SetRenderTargetEndingAccess self i storeOp = .ok after →
      after.mRenderPassRenderTargetDescriptors j = self.mRenderPassRenderTargetDescriptors j ∧
      after.GetRenderTargetViews j = self.GetRenderTargetViews j ∧
      after.mSubresourceParams j = self.mSubresourceParams j ∧
      after.GetRenderPassDepthStencilDescriptor = self.GetRenderPassDepthStencilDescriptor ∧
      after.HasDepth = self.HasDepth) ∧
    (∀ (uninit : D3D12_RENDER_PASS_ENDING_ACCESS_RESOLVE_PARAMETERS) (storeOp : wgpu.StoreOp)
      (src dst : TextureView) (after : RenderPassBuilder),
      SetRenderTargetEndingAccessResolve uninit self i storeOp src dst = .ok after →
      after.mRenderPassRenderTargetDescriptors j = self.mRenderPassRenderTargetDescriptors j ∧
      after.GetRenderTargetViews j = self.GetRenderTargetViews j ∧
      after.mSubresourceParams j = self.mSubresourceParams j ∧
      after.GetRenderPassDepthStencilDescriptor = self.GetRenderPassDepthStencilDescriptor ∧
      after.HasDepth = self.HasDepth) := by
  refine ⟨?_, ?_, ?_, ?_⟩
  · intro baseDescriptor isNullRTV
    cases isNullRTV <;>
      simp [SetRenderTargetView, setRenderTargetDesc, GetRenderTargetViews,
        GetRenderPassDepthStencilDescriptor, HasDepth, Function.update_noteq hij]
  · intro toFLOAT loadOp clearColor format after h
    rw [SetRenderTargetBeginningAccess_eq] at h
    cases loadOp <;>
      first
      | (simp only [Except.ok.injEq] at h
         subst h
         simp [GetRenderTargetViews, GetRenderPassDepthStencilDescriptor, HasDepth,
           Function.update_noteq hij])
      | cases h
  · intro storeOp after h
    rw [SetRenderTargetEndingAccess_eq] at h
    cases storeOp <;>
      first
      | (simp only [D3D12EndingAccessType, Except.ok.injEq] at h
         subst h
         simp [GetRenderTargetViews, GetRenderPassDepthStencilDescriptor, HasDepth,
           Function.update_noteq hij])
      | cases h
  · intro uninit storeOp src dst after h
    rw [SetRenderTargetEndingAccessResolve_eq] at h
    split at h
    · cases h
    · split at h
      · simp only [Except.ok.injEq] at h
        subst h
        simp [GetRenderTargetViews, GetRenderPassDepthStencilDescriptor, HasDepth,
          Function.update_noteq hij]
      · cases h

/-- C33, witness: on `sampleBuilder`, the resolve call on slot 1 returns and leaves slot 0 and
the depth-stencil descriptor as they were. -/
theorem C33_colour_operations_are_local_to_their_slot_witness :
    ∃ after,
      SetRenderTargetEndingAccessResolve sampleResolveStorage sampleBuilder 1 wgpu.StoreOp.Store
        (sampleView 100 wgpu.TextureComponentType.Float)
        (sampleView 200 wgpu.TextureComponentType.Float) = .ok after ∧
      after.mRenderPassRenderTargetDescriptors 0
        = sampleBuilder.mRenderPassRenderTargetDescriptors 0 ∧
      after.GetRenderTargetViews 0 = sampleBuilder.GetRenderTargetViews 0 ∧
      after.mSubresourceParams 0 = sampleBuilder.mSubresourceParams 0 ∧
      after.GetRenderPassDepthStencilDescriptor
        = sampleBuilder.GetRenderPassDepthStencilDescriptor ∧
      after.HasDepth = sampleBuilder.HasDepth := by
  obtain ⟨after, h⟩ : ∃ after,
      SetRenderTargetEndingAccessResolve sampleResolveStorage sampleBuilder 1 wgpu.StoreOp.Store
        (sampleView 100 wgpu.TextureComponentType.Float)
        (sampleView 200 wgpu.TextureComponentType.Float) = .ok after := by
    rw [SetRenderTargetEndingAccessResolve_eq]
    exact ⟨_, rfl⟩
  exact ⟨after, h,
    (C33_colour_operations_are_local_to_their_slot sampleBuilder 1 0 (by decide)).2.2.2
      sampleResolveStorage wgpu.StoreOp.Store (sampleView 100 wgpu.TextureComponentType.Float)
      (sampleView 200 wgpu.TextureComponentType.Float) after h⟩

/-- One call that returns leaves `mHasDepth` as it was, unless it is `SetDepthAccess`, which
sets it. -/
theorem call_mHasDepth (self after : RenderPassBuilder) (c : RenderPassBuilderCall)
    (h : self.call c = .ok after) :
    after.mHasDepth = (self.mHasDepth || c.isSetDepthAccess) := by
  cases c with
  | SetRenderTargetView attachmentIndex baseDescriptor isNullRTV =>
    simp only [RenderPassBuilder.call, Except.ok.injEq] at h
    subst h
    cases isNullRTV <;>
      simp [SetRenderTargetView, setRenderTargetDesc, RenderPassBuilderCall.isSetDepthAccess]
  | SetDepthStencilView baseDescriptor =>
    simp only [RenderPassBuilder.call, Except.ok.injEq] at h
    subst h
    simp [SetDepthStencilView, RenderPassBuilderCall.isSetDepthAccess]
  | SetRenderTargetBeginningAccess toFLOAT attachment loadOp clearColor format =>
    simp only [RenderPassBuilder.call] at h
    rw [SetRenderTargetBeginningAccess_eq] at h
    cases loadOp <;>
      first
      | (simp only [Except.ok.injEq] at h
         subst h
         simp [RenderPassBuilderCall.isSetDepthAccess])
      | cases h
  | SetRenderTargetEndingAccess attachment storeOp =>
    simp only [RenderPassBuilder.call] at h
    rw [SetRenderTargetEndingAccess_eq] at h
    cases storeOp <;>
      first
      | (simp only [D3D12EndingAccessType, Except.ok.injEq] at h
         subst h
         simp [RenderPassBuilderCall.isSetDepthAccess])
      | cases h
  | SetRenderTargetEndingAccessResolve uninit attachment storeOp src dst =>
    simp only [RenderPassBuilder.call] at h
    rw [SetRenderTargetEndingAccessResolve_eq] at h
    split at h
    · cases h
    · split at h
      · simp only [Except.ok.injEq] at h
        subst h
        simp [RenderPassBuilderCall.isSetDepthAccess]
      · cases h
  | SetDepthAccess loadOp storeOp clearDepth format =>
    simp only [RenderPassBuilder.call] at h
    rw [SetDepthAccess_eq] at h
    cases loadOp <;> cases storeOp <;>
      first
      | (simp only [D3D12BeginningAccessType, D3D12EndingAccessType, Except.ok.injEq] at h
         subst h
         simp [RenderPassBuilderCall.isSetDepthAccess])
      | cases h
  | SetStencilAccess loadOp storeOp clearStencil format =>
    simp only [RenderPassBuilder.call] at h
    rw [SetStencilAccess_eq] at h
    cases loadOp <;> cases storeOp <;>
      first
      | (simp only [D3D12BeginningAccessType, D3D12EndingAccessType, Except.ok.injEq] at h
         subst h
         simp [RenderPassBuilderCall.isSetDepthAccess])
      | cases h
  | SetDepthNoAccess =>
    simp only [RenderPassBuilder.call, Except.ok.injEq] at h
    subst h
    simp [SetDepthNoAccess, RenderPassBuilderCall.isSetDepthAccess]
  | SetDepthStencilNoAccess =>
    simp only [RenderPassBuilder.call, Except.ok.injEq] at h
    subst h
    simp [SetDepthStencilNoAccess, SetDepthNoAccess, SetStencilNoAccess,
      RenderPassBuilderCall.isSetDepthAccess]
  | SetStencilNoAccess =>
    simp only [RenderPassBuilder.call, Except.ok.injEq] at h
    subst h
    simp [SetStencilNoAccess, RenderPassBuilderCall.isSetDepthAccess]

/-- A run of calls that returns leaves `mHasDepth` true exactly when it was true before or one
of the calls is `SetDepthAccess`. -/
theorem calls_mHasDepth (calls : List RenderPassBuilderCall) :
    ∀ self after : RenderPassBuilder, self.calls calls = .ok after →
      (after.mHasDepth = true ↔
        self.mHasDepth = true ∨ ∃ c ∈ calls, c.isSetDepthAccess = true) := by
  induction calls with
  | nil =>
    intro self after h
    simp only [RenderPassBuilder.calls, Except.ok.injEq] at h
    subst h
    simp
  | cons c rest ih =>
    intro self after h
    simp only [RenderPassBuilder.calls] at h
    cases hc : self.call c with
    | error f => rw [hc] at h; cases h
    | ok next =>
      rw [hc] at h
      rw [ih next after h, call_mHasDepth self next c hc]
      simp only [Bool.or_eq_true, List.mem_cons, exists_eq_or_imp]
      tauto

/-- C34: `HasDepth()` tells whether `SetDepthAccess` has been called. After every run of calls
on a newly constructed builder that returns, `HasDepth()` is true if and only if one of the
calls was `SetDepthAccess`; every call that returns leaves `HasDepth()` as it was unless it is
`SetDepthAccess`, after which it is true: no call resets it, and `SetStencilAccess`,
`SetDepthNoAccess`, `SetStencilNoAccess`, `SetDepthStencilNoAccess` and `SetDepthStencilView`
do not set it. -/
theorem C34_HasDepth_iff_SetDepthAccess_was_called (uninit : RenderPassBuilder)
    (hasUAV : Bool) :
    (ctor uninit hasUAV).HasDepth = false ∧
    (∀ (calls : List RenderPassBuilderCall) (after : RenderPassBuilder),
      (ctor uninit hasUAV).calls calls = .ok after →
      (after.HasDepth = true ↔ ∃ c ∈ calls, c.isSetDepthAccess = true)) ∧
    (∀ (self after : RenderPassBuilder) (c : RenderPassBuilderCall),
      self.call c = .ok after →
      after.HasDepth = (self.HasDepth || c.isSetDepthAccess)) ∧
    (∀ (self : RenderPassBuilder) (loadOp : wgpu.LoadOp) (storeOp : wgpu.StoreOp)
      (clearStencil : Nat) (format : DXGI_FORMAT) (baseDescriptor : D3D12_CPU_DESCRIPTOR_HANDLE),
      (∀ after, self.SetStencilAccess loadOp storeOp clearStencil format = .ok after →
        after.HasDepth = self.HasDepth) ∧
      self.SetDepthNoAccess.HasDepth = self.HasDepth ∧
      self.SetStencilNoAccess.HasDepth = self.HasDepth ∧
      self.SetDepthStencilNoAccess.HasDepth = self.HasDepth ∧
      (self.SetDepthStencilView baseDescriptor).HasDepth = self.HasDepth) := by
  have h0 : (ctor uninit hasUAV).mHasDepth = false := by
    cases hasUAV <;> simp [ctor, defaultMembers]
  refine ⟨h0, ?_, ?_, ?_⟩
  · intro calls after h
    have := calls_mHasDepth calls _ after h
    simpa [HasDepth, h0] using this
  · intro self after c h
    exact call_mHasDepth self after c h
  · intro self loadOp storeOp clearStencil format baseDescriptor
    refine ⟨?_, rfl, rfl, rfl, rfl⟩
    intro after h
    have := call_mHasDepth self after (.SetStencilAccess loadOp storeOp clearStencil format) h
    simpa [HasDepth, RenderPassBuilderCall.isSetDepthAccess] using this

/-- C34, witness: the run `sampleBuilderCalls`, which calls `SetDepthAccess` and then
`SetDepthStencilNoAccess`, returns with `HasDepth()` true. -/
theorem C34_HasDepth_iff_SetDepthAccess_was_called_witness :
    ∃ after, (ctor sampleBuilderStorage false).calls sampleBuilderCalls = .ok after ∧
      after.HasDepth = true := by
  obtain ⟨after, h⟩ : ∃ after,
      (ctor sampleBuilderStorage false).calls sampleBuilderCalls = .ok after := by
    simp [sampleBuilderCalls, RenderPassBuilder.calls, RenderPassBuilder.call,
      SetRenderTargetBeginningAccess_eq, SetRenderTargetEndingAccessResolve_eq,
      SetRenderTargetEndingAccess_eq, SetDepthAccess_eq, SetStencilAccess_eq,
      D3D12BeginningAccessType, D3D12EndingAccessType, sampleView, sampleFormat, sampleTexture]
  exact ⟨after, h,
    ((C34_HasDepth_iff_SetDepthAccess_was_called sampleBuilderStorage false).2.1
      sampleBuilderCalls after h).2
      ⟨.SetDepthAccess wgpu.LoadOp.Load wgpu.StoreOp.Store 0 40, by simp [sampleBuilderCalls],
        rfl⟩⟩

/-- C35: the ending access of a colour slot is decided by the last writer. For every store
operation in {Discard, Store} of the plain call and every resolve call that returns (its
destination is a colour texture whose view format is no depth-comparison format): after
`SetRenderTargetEndingAccessResolve` followed by `SetRenderTargetEndingAccess(storeOp)` on the
same slot, the ending-access type of the slot is the plain type for `storeOp`, which is not
`RESOLVE`; after the two calls in the opposite order the type is `RESOLVE` and the ending access
and the resolve subresource parameters of the slot are those that the resolve call writes on
its own; and in both orders the beginning access of the slot is as it was. -/
theorem C35_ending_access_is_decided_by_the_last_writer
    (uninit : D3D12_RENDER_PASS_ENDING_ACCESS_RESOLVE_PARAMETERS) (self : RenderPassBuilder)
    (attachment : ColorAttachmentIndex) (storeOp resolveStoreOp : wgpu.StoreOp)
    (src dst : TextureView)
    (hs : storeOp = wgpu.StoreOp.Discard ∨ storeOp = wgpu.StoreOp.Store)
    (ha : dst.GetTexture.GetFormat.aspects = Aspect.Color)
    (ht : (dst.GetFormat.GetAspectInfo Aspect.Color).baseType
      ≠ wgpu.TextureComponentType.DepthComparison) :
    ∃ resolved,
      SetRenderTargetEndingAccessResolve uninit self attachment resolveStoreOp src dst
        = .ok resolved ∧
      (∃ after, SetRenderTargetEndingAccess resolved attachment storeOp = .ok after ∧
        D3D12EndingAccessType storeOp
          = .ok (after.mRenderPassRenderTargetDescriptors attachment).EndingAccess.Type_ ∧
        (after.mRenderPassRenderTargetDescriptors attachment).EndingAccess.Type_
          ≠ D3D12_RENDER_PASS_ENDING_ACCESS_TYPE.RESOLVE ∧
        (after.mRenderPassRenderTargetDescriptors attachment).BeginningAccess
          = (self.mRenderPassRenderTargetDescriptors attachment).BeginningAccess) ∧
      (∃ plain after, SetRenderTargetEndingAccess self attachment storeOp = .ok plain ∧
        SetRenderTargetEndingAccessResolve uninit plain attachment resolveStoreOp src dst
          = .ok after ∧
        (after.mRenderPassRenderTargetDescriptors attachment).EndingAccess.Type_
          = D3D12_RENDER_PASS_ENDING_ACCESS_TYPE.RESOLVE ∧
        (after.mRenderPassRenderTargetDescriptors attachment).EndingAccess
          = (resolved.mRenderPassRenderTargetDescriptors attachment).EndingAccess ∧
        after.mSubresourceParams attachment = resolved.mSubresourceParams attachment ∧
        (after.mRenderPassRenderTargetDescriptors attachment).BeginningAccess
          = (self.mRenderPassRenderTargetDescriptors attachment).BeginningAccess) := by
  refine ⟨_, by rw [SetRenderTargetEndingAccessResolve_eq, if_neg ht, if_pos ha], ?_, ?_⟩
  · rw [SetRenderTargetEndingAccess_eq]
    rcases hs with hs | hs <;> subst hs <;>
      simp [D3D12EndingAccessType]
  · rw [SetRenderTargetEndingAccess_eq]
    rcases hs with hs | hs <;> subst hs <;>
      simp [D3D12EndingAccessType, SetRenderTargetEndingAccessResolve_eq, ht, ha]

/-- C35, witness: slot 1 of `sampleBuilder`, a resolve into a `Float` colour destination and
the plain call with `Discard`. -/
theorem C35_ending_access_is_decided_by_the_last_writer_witness :
    ∃ resolved,
      SetRenderTargetEndingAccessResolve sampleResolveStorage sampleBuilder 1 wgpu.StoreOp.Store
        (sampleView 100 wgpu.TextureComponentType.Float)
        (sampleView 200 wgpu.TextureComponentType.Float) = .ok resolved ∧
      (∃ after, SetRenderTargetEndingAccess resolved 1 wgpu.StoreOp.Discard = .ok after ∧
        (after.mRenderPassRenderTargetDescriptors 1).EndingAccess.Type_
          = D3D12_RENDER_PASS_ENDING_ACCESS_TYPE.DISCARD) ∧
      (∃ plain after, SetRenderTargetEndingAccess sampleBuilder 1 wgpu.StoreOp.Discard
          = .ok plain ∧
        SetRenderTargetEndingAccessResolve sampleResolveStorage plain 1 wgpu.StoreOp.Store
          (sampleView 100 wgpu.TextureComponentType.Float)
          (sampleView 200 wgpu.TextureComponentType.Float) = .ok after ∧
        (after.mRenderPassRenderTargetDescriptors 1).EndingAccess.Type_
          = D3D12_RENDER_PASS_ENDING_ACCESS_TYPE.RESOLVE) := by
  obtain ⟨resolved, hr, ⟨after, ha, ht, _, _⟩, ⟨plain, after', hp, ha', ht', _⟩⟩ :=
    C35_ending_access_is_decided_by_the_last_writer sampleResolveStorage sampleBuilder 1
      wgpu.StoreOp.Discard wgpu.StoreOp.Store (sampleView 100 wgpu.TextureComponentType.Float)
      (sampleView 200 wgpu.TextureComponentType.Float) (Or.inl rfl) rfl (by decide)
  refine ⟨resolved, hr, ⟨after, ha, ?_⟩, ⟨plain, after', hp, ha', ht'⟩⟩
  simp only [D3D12EndingAccessType, Except.ok.injEq] at ht
  exact ht.symm

end dawn.native.d3d12

namespace dawn.native
open ExternalTextureBase

/-- The outcome of `ValidateExternalTexturePlane`: success exactly when all four checks pass,
a validation error otherwise. -/
theorem ValidateExternalTexturePlane_ok_iff (textureView : TextureViewBase) :
    ValidateExternalTexturePlane textureView = .ok () ↔
      (textureView.GetTexture.GetUsage &&& wgpu.TextureUsage.TextureBinding) ≠ 0 ∧
      textureView.GetDimension = wgpu.TextureViewDimension.e2D ∧
      textureView.GetLevelCount ≤ 1 ∧
      textureView.GetTexture.GetSampleCount = 1 := by
  unfold ValidateExternalTexturePlane DAWN_INVALID_IF
  by_cases h1 : (textureView.GetTexture.GetUsage &&& wgpu.TextureUsage.TextureBinding) = 0 <;>
    by_cases h2 : textureView.GetDimension = wgpu.TextureViewDimension.e2D <;>
    by_cases h3 : textureView.GetLevelCount > 1 <;>
    by_cases h4 : textureView.GetTexture.GetSampleCount = 1 <;>
    simp [h1, h2, h3, h4, bind, Except.bind, pure, Except.pure]
  all_goals omega

/-- Every error of `ValidateExternalTexturePlane` is a validation error. -/
theorem ValidateExternalTexturePlane_error (textureView : TextureViewBase) (e : ErrorData)
    (h : ValidateExternalTexturePlane textureView = .error e) :
    e.type = InternalErrorType.Validation := by
  unfold ValidateExternalTexturePlane DAWN_INVALID_IF at h
  by_cases h1 : (textureView.GetTexture.GetUsage &&& wgpu.TextureUsage.TextureBinding) = 0 <;>
    by_cases h2 : textureView.GetDimension = wgpu.TextureViewDimension.e2D <;>
    by_cases h3 : textureView.GetLevelCount > 1 <;>
    by_cases h4 : textureView.GetTexture.GetSampleCount = 1 <;>
    simp [h1, h2, h3, h4, bind, Except.bind, pure, Except.pure] at h <;>
    (subst h; rfl)

/-- The outcome of `ValidateExternalTextureDescriptor` on a descriptor with a single plane. -/
theorem ValidateExternalTextureDescriptor_single (device : DeviceBase)
    (descriptor : ExternalTextureDescriptor) (plane0 : TextureViewBase)
    (h0 : descriptor.plane0 = some plane0) (h1 : descriptor.plane1 = none) :
    ValidateExternalTextureDescriptor device descriptor =
      .ok (match device.ValidateObject plane0.toApiObjectBase with
        | .error e => .error e
        | .ok () =>
          if plane0.GetFormat.format = wgpu.TextureFormat.RGBA8Unorm ∨
              plane0.GetFormat.format = wgpu.TextureFormat.BGRA8Unorm ∨
              plane0.GetFormat.format = wgpu.TextureFormat.RGBA16Float then
            ValidateExternalTexturePlane plane0
          else
            .error (DAWN_FORMAT_VALIDATION_ERROR
              "The external texture plane (%s) format (%s) is not a supported format (%s, %s, %s).")) := by
  unfold ValidateExternalTextureDescriptor
  simp only [h0, h1]
  congr 1
  cases device.ValidateObject plane0.toApiObjectBase with
  | error e => rfl
  | ok u =>
    cases u
    cases hf : plane0.GetFormat.format <;>
      simp [hf, bind, Except.bind, pure, Except.pure] <;>
      cases ValidateExternalTexturePlane plane0 <;> rfl

/-- The outcome of `ValidateExternalTextureDescriptor` on a descriptor with two planes. -/
theorem ValidateExternalTextureDescriptor_biplanar (device : DeviceBase)
    (descriptor : ExternalTextureDescriptor) (plane0 plane1 : TextureViewBase)
    (h0 : descriptor.plane0 = some plane0) (h1 : descriptor.plane1 = some plane1) :
    ValidateExternalTextureDescriptor device descriptor =
      .ok (do
        device.ValidateObject plane0.toApiObjectBase
        DAWN_INVALID_IF (device.IsToggleEnabled Toggle.DisallowUnsafeAPIs = true)
          "Bi-planar external textures are disabled until the implementation is completed."
        DAWN_INVALID_IF (descriptor.colorSpace ≠ wgpu.PredefinedColorSpace.Srgb)
          "The specified color space (%s) is not %s."
        device.ValidateObject plane1.toApiObjectBase
        DAWN_INVALID_IF (plane0.GetFormat.format ≠ wgpu.TextureFormat.R8Unorm)
          "The bi-planar external texture plane (%s) format (%s) is not %s."
        DAWN_INVALID_IF (plane1.GetFormat.format ≠ wgpu.TextureFormat.RG8Unorm)
          "The bi-planar external texture plane (%s) format (%s) is not %s."
        ValidateExternalTexturePlane plane0
        ValidateExternalTexturePlane plane1) := by
  unfold ValidateExternalTextureDescriptor
  simp only [h0, h1]
  congr 1
  cases device.ValidateObject plane0.toApiObjectBase with
  | error e => rfl
  | ok u =>
    simp only [bind, Except.bind, pure, Except.pure]
    repeat' split
    all_goals first | rfl | simp_all

/-- What a successful `ValidateExternalTextureDescriptor` on two planes has checked. -/
theorem ValidateExternalTextureDescriptor_biplanar_ok (device : DeviceBase)
    (descriptor : ExternalTextureDescriptor) (plane0 plane1 : TextureViewBase)
    (h0 : descriptor.plane0 = some plane0) (h1 : descriptor.plane1 = some plane1)
    (h : ValidateExternalTextureDescriptor device descriptor = .ok (.ok ())) :
    device.ValidateObject plane0.toApiObjectBase = .ok () ∧
    device.IsToggleEnabled Toggle.DisallowUnsafeAPIs = false ∧
    descriptor.colorSpace = wgpu.PredefinedColorSpace.Srgb ∧
    device.ValidateObject plane1.toApiObjectBase = .ok () ∧
    plane0.GetFormat.format = wgpu.TextureFormat.R8Unorm ∧
    plane1.GetFormat.format = wgpu.TextureFormat.RG8Unorm ∧
    ValidateExternalTexturePlane plane0 = .ok () ∧
    ValidateExternalTexturePlane plane1 = .ok () := by
  rw [ValidateExternalTextureDescriptor_biplanar device descriptor plane0 plane1 h0 h1] at h
  simp only [Except.ok.injEq, bind, Except.bind, DAWN_INVALID_IF] at h
  cases hv0 : device.ValidateObject plane0.toApiObjectBase with
  | error e => simp [hv0] at h
  | ok u0 =>
    cases ht : device.IsToggleEnabled Toggle.DisallowUnsafeAPIs with
    | true => simp [hv0, ht] at h
    | false =>
      by_cases hc : descriptor.colorSpace = wgpu.PredefinedColorSpace.Srgb
      · cases hv1 : device.ValidateObject plane1.toApiObjectBase with
        | error e => simp [hv0, ht, hc, hv1] at h
        | ok u1 =>
          by_cases hf0 : plane0.GetFormat.format = wgpu.TextureFormat.R8Unorm
          · by_cases hf1 : plane1.GetFormat.format = wgpu.TextureFormat.RG8Unorm
            · cases hp0 : ValidateExternalTexturePlane plane0 with
              | error e => simp [hv0, ht, hc, hv1, hf0, hf1, hp0] at h
              | ok p0 =>
                simp [hv0, ht, hc, hv1, hf0, hf1, hp0] at h
                exact ⟨rfl, rfl, hc, rfl, hf0, hf1, rfl, h⟩
            · simp [hv0, ht, hc, hv1, hf0, hf1] at h
          · simp [hv0, ht, hc, hv1, hf0] at h
      · simp [hv0, ht, hc] at h

/-- The outcome of `ValidateCanUseInSubmitNow` on an object without the error tag. -/
theorem ValidateCanUseInSubmitNow_eq (self : ExternalTextureBase) (h : self.IsError = false) :
    self.ValidateCanUseInSubmitNow =
      .ok (match self.mState with
        | .Alive => .ok ()
        | .Destroyed =>
          .error (DAWN_FORMAT_VALIDATION_ERROR
            "Destroyed external texture %s is used in a submit.")) := by
  unfold ValidateCanUseInSubmitNow DAWN_INVALID_IF
  cases hs : self.mState <;> simp [h, bind, Except.bind, pure, Except.pure]

/-- C3: on every external texture without the error tag, `ValidateCanUseInSubmitNow` returns a
validation error if and only if the state is `Destroyed`; it succeeds whenever the state is
`Alive`; and the object after the call is the object before it. -/
theorem C3_validate_in_submit_fails_iff_destroyed (self : ExternalTextureBase)
    (h : self.IsError = false) :
    ((∃ e, self.ValidateCanUseInSubmitNow = .ok (.error e) ∧
        e.type = InternalErrorType.Validation) ↔
      self.mState = ExternalTextureState.Destroyed) ∧
    (self.mState = ExternalTextureState.Alive → self.ValidateCanUseInSubmitNow = .ok (.ok ())) ∧
    self.afterCall ExternalTextureCall.ValidateCanUseInSubmitNow = .ok self := by
  have key := ValidateCanUseInSubmitNow_eq self h
  refine ⟨?_, ?_, ?_⟩
  · cases hs : self.mState <;> simp [key, hs, DAWN_FORMAT_VALIDATION_ERROR]
  · intro hs
    simp [key, hs]
  · simp [afterCall, key]

/-- C3, witness: a freshly built external texture validates, and after `DestroyImpl` it is
rejected with a validation error. -/
theorem C3_validate_in_submit_fails_iff_destroyed_witness :
    (ctor sampleDevice sampleBiPlanar).IsError = false ∧
    (ctor sampleDevice sampleBiPlanar).ValidateCanUseInSubmitNow = .ok (.ok ()) ∧
    ∃ e, (ctor sampleDevice sampleBiPlanar).DestroyImpl.ValidateCanUseInSubmitNow
        = .ok (.error e) ∧
      e.type = InternalErrorType.Validation :=
  ⟨rfl,
    (C3_validate_in_submit_fails_iff_destroyed (ctor sampleDevice sampleBiPlanar) rfl).2.1 rfl,
    (C3_validate_in_submit_fails_iff_destroyed (ctor sampleDevice sampleBiPlanar).DestroyImpl
      rfl).1.2 rfl⟩

/-- C4: destroying is idempotent. For every external texture, whatever its state, `DestroyImpl`
run twice gives exactly the object that `DestroyImpl` run once gives, its state is `Destroyed`,
and the run of the two calls ends normally with that object: the second call raises nothing. -/
theorem C4_DestroyImpl_idempotent (self : ExternalTextureBase) :
    self.DestroyImpl.DestroyImpl = self.DestroyImpl ∧
    self.DestroyImpl.mState = ExternalTextureState.Destroyed ∧
    self.afterCalls [ExternalTextureCall.DestroyImpl, ExternalTextureCall.DestroyImpl]
      = .ok self.DestroyImpl ∧
    self.afterCalls [ExternalTextureCall.DestroyImpl] = .ok self.DestroyImpl := by
  refine ⟨rfl, rfl, rfl, rfl⟩

/-- The calls that do not destroy keep the state and the error tag, and end normally on an object
without the error tag. -/
theorem afterCall_of_not_destroys (self : ExternalTextureBase) (c : ExternalTextureCall)
    (he : self.IsError = false) (hc : c.destroys = false) :
    ∃ next, self.afterCall c = .ok next ∧ next.mState = self.mState ∧ next.IsError = false := by
  cases c with
  | Initialize device descriptor => exact ⟨_, rfl, rfl, he⟩
  | GetTextureViews => exact ⟨_, rfl, rfl, he⟩
  | ValidateCanUseInSubmitNow =>
    refine ⟨self, ?_, rfl, he⟩
    simp [afterCall, ValidateCanUseInSubmitNow_eq self he]
  | APIDestroy device => simp [ExternalTextureCall.destroys] at hc
  | DestroyImpl => simp [ExternalTextureCall.destroys] at hc

/-- A sequence of calls none of which destroys keeps the state and the error tag. -/
theorem afterCalls_of_not_destroys (calls : List ExternalTextureCall) :
    ∀ self : ExternalTextureBase, self.IsError = false → (∀ c ∈ calls, c.destroys = false) →
      ∃ last, self.afterCalls calls = .ok last ∧ last.mState = self.mState ∧
        last.IsError = false := by
  induction calls with
  | nil => intro self he _; exact ⟨self, rfl, rfl, he⟩
  | cons c calls ih =>
    intro self he hall
    obtain ⟨next, hn, hs, hne⟩ := afterCall_of_not_destroys self c he (hall c (by simp))
    obtain ⟨last, hl, hls, hle⟩ := ih next hne (fun d hd => hall d (by simp [hd]))
    exact ⟨last, by simp [afterCalls, hn, hl], by rw [hls, hs], hle⟩

/-- C5: every external texture that `ExternalTextureBase::Create` returns is in state `Alive`,
and `ValidateCanUseInSubmitNow` succeeds on it for as long as it has not been destroyed: right
after `Create`, and after every sequence of calls none of which is `APIDestroy` or
`DestroyImpl`. `Create` returns such an object for every device and descriptor. -/
theorem C5_created_external_texture_is_alive (device : DeviceBase)
    (descriptor : ExternalTextureDescriptor) :
    ∃ created, Create device descriptor = .ok created ∧
      created.mState = ExternalTextureState.Alive ∧
      created.ValidateCanUseInSubmitNow = .ok (.ok ()) ∧
      ∀ calls : List ExternalTextureCall, (∀ c ∈ calls, c.destroys = false) →
        ∃ last, created.afterCalls calls = .ok last ∧
          last.mState = ExternalTextureState.Alive ∧
          last.ValidateCanUseInSubmitNow = .ok (.ok ()) := by
  refine ⟨(ctor device descriptor |>.Initialize device descriptor).2, rfl, rfl, ?_, ?_⟩
  · rw [ValidateCanUseInSubmitNow_eq _ rfl]; rfl
  · intro calls hall
    obtain ⟨last, hl, hs, he⟩ :=
      afterCalls_of_not_destroys calls (ctor device descriptor |>.Initialize device descriptor).2
        rfl hall
    refine ⟨last, hl, hs, ?_⟩
    rw [ValidateCanUseInSubmitNow_eq _ he, hs]; rfl

/-- C5, witness: the texture created from `sampleBiPlanar`, after `Initialize`,
`GetTextureViews` and `ValidateCanUseInSubmitNow`. -/
theorem C5_created_external_texture_is_alive_witness :
    ∃ created, Create sampleDevice sampleBiPlanar = .ok created ∧
      created.mState = ExternalTextureState.Alive ∧
      created.ValidateCanUseInSubmitNow = .ok (.ok ()) ∧
      ∃ last,
        created.afterCalls
            [ExternalTextureCall.Initialize sampleDevice sampleBiPlanar,
              ExternalTextureCall.GetTextureViews,
              ExternalTextureCall.ValidateCanUseInSubmitNow] = .ok last ∧
          last.mState = ExternalTextureState.Alive ∧
          last.ValidateCanUseInSubmitNow = .ok (.ok ()) := by
  obtain ⟨created, h1, h2, h3, h4⟩ :=
    C5_created_external_texture_is_alive sampleDevice sampleBiPlanar
  exact ⟨created, h1, h2, h3, h4 _ (by decide)⟩

/-- C6: for every descriptor with a valid plane 0 and no plane 1,
`ValidateExternalTextureDescriptor` succeeds if and only if the format of plane 0 is one of
`RGBA8Unorm`, `BGRA8Unorm`, `RGBA16Float` and `ValidateExternalTexturePlane(plane0)` succeeds;
every other format of plane 0 is rejected with a validation error, and so is every other
failure. -/
theorem C6_single_plane_format_whitelist (device : DeviceBase)
    (descriptor : ExternalTextureDescriptor) (plane0 : TextureViewBase)
    (h0 : descriptor.plane0 = some plane0) (h1 : descriptor.plane1 = none)
    (hv : device.ValidateObject plane0.toApiObjectBase = .ok ()) :
    (ValidateExternalTextureDescriptor device descriptor = .ok (.ok ()) ↔
      (plane0.GetFormat.format = wgpu.TextureFormat.RGBA8Unorm ∨
          plane0.GetFormat.format = wgpu.TextureFormat.BGRA8Unorm ∨
          plane0.GetFormat.format = wgpu.TextureFormat.RGBA16Float) ∧
        ValidateExternalTexturePlane plane0 = .ok ()) ∧
    (¬ (plane0.GetFormat.format = wgpu.TextureFormat.RGBA8Unorm ∨
          plane0.GetFormat.format = wgpu.TextureFormat.BGRA8Unorm ∨
          plane0.GetFormat.format = wgpu.TextureFormat.RGBA16Float) →
      ∃ e, ValidateExternalTextureDescriptor device descriptor = .ok (.error e) ∧
        e.type = InternalErrorType.Validation) ∧
    (∀ e, ValidateExternalTextureDescriptor device descriptor = .ok (.error e) →
      e.type = InternalErrorType.Validation) := by
  rw [ValidateExternalTextureDescriptor_single device descriptor plane0 h0 h1, hv]
  by_cases hf : plane0.GetFormat.format = wgpu.TextureFormat.RGBA8Unorm ∨
      plane0.GetFormat.format = wgpu.TextureFormat.BGRA8Unorm ∨
      plane0.GetFormat.format = wgpu.TextureFormat.RGBA16Float
  · refine ⟨?_, ?_, ?_⟩
    · simp [hf]
    · intro hn
      exact absurd hf hn
    · intro e he
      simp only [hf, if_true, Except.ok.injEq] at he
      exact ValidateExternalTexturePlane_error plane0 e he
  · refine ⟨?_, ?_, ?_⟩
    · simp [hf]
    · intro _
      simp only [hf, if_false]
      exact ⟨_, rfl, rfl⟩
    · intro e he
      simp only [hf, if_false, Except.ok.injEq, Except.error.injEq] at he
      subst he
      rfl

/-- C6, witness: a single `BGRA8Unorm` plane that is valid on `sampleDevice`. -/
theorem C6_single_plane_format_whitelist_witness :
    ValidateExternalTextureDescriptor sampleDevice
        (sampleSinglePlane wgpu.TextureFormat.BGRA8Unorm 1) = .ok (.ok ()) ↔
      ((samplePlane wgpu.TextureFormat.BGRA8Unorm 1).GetFormat.format
            = wgpu.TextureFormat.RGBA8Unorm ∨
          (samplePlane wgpu.TextureFormat.BGRA8Unorm 1).GetFormat.format
            = wgpu.TextureFormat.BGRA8Unorm ∨
          (samplePlane wgpu.TextureFormat.BGRA8Unorm 1).GetFormat.format
            = wgpu.TextureFormat.RGBA16Float) ∧
        ValidateExternalTexturePlane (samplePlane wgpu.TextureFormat.BGRA8Unorm 1) = .ok () :=
  (C6_single_plane_format_whitelist sampleDevice
    (sampleSinglePlane wgpu.TextureFormat.BGRA8Unorm 1)
    (samplePlane wgpu.TextureFormat.BGRA8Unorm 1) rfl rfl rfl).1

/-- C7: for every descriptor with plane 1 present, if `ValidateExternalTextureDescriptor`
succeeds then the colour space is `Srgb`, plane 0 is present with format exactly `R8Unorm`, the
format of plane 1 is exactly `RG8Unorm`, and both planes pass `ValidateExternalTexturePlane`. -/
theorem C7_biplanar_requires_srgb_and_format_pair (device : DeviceBase)
    (descriptor : ExternalTextureDescriptor) (plane1 : TextureViewBase)
    (h1 : descriptor.plane1 = some plane1)
    (h : ValidateExternalTextureDescriptor device descriptor = .ok (.ok ())) :
    descriptor.colorSpace = wgpu.PredefinedColorSpace.Srgb ∧
    ∃ plane0, descriptor.plane0 = some plane0 ∧
      plane0.GetFormat.format = wgpu.TextureFormat.R8Unorm ∧
      plane1.GetFormat.format = wgpu.TextureFormat.RG8Unorm ∧
      ValidateExternalTexturePlane plane0 = .ok () ∧
      ValidateExternalTexturePlane plane1 = .ok () := by
  cases h0 : descriptor.plane0 with
  | none => simp [ValidateExternalTextureDescriptor, h0] at h
  | some plane0 =>
    obtain ⟨_, _, hc, _, hf0, hf1, hp0, hp1⟩ :=
      ValidateExternalTextureDescriptor_biplanar_ok device descriptor plane0 plane1 h0 h1 h
    exact ⟨hc, plane0, rfl, hf0, hf1, hp0, hp1⟩

/-- C7, witness: the descriptor `sampleBiPlanar` passes the validation. -/
theorem C7_biplanar_requires_srgb_and_format_pair_witness :
    ValidateExternalTextureDescriptor sampleDevice sampleBiPlanar = .ok (.ok ()) ∧
    sampleBiPlanar.colorSpace = wgpu.PredefinedColorSpace.Srgb ∧
    ∃ plane0, sampleBiPlanar.plane0 = some plane0 ∧
      plane0.GetFormat.format = wgpu.TextureFormat.R8Unorm ∧
      (samplePlane wgpu.TextureFormat.RG8Unorm 1).GetFormat.format
        = wgpu.TextureFormat.RG8Unorm ∧
      ValidateExternalTexturePlane plane0 = .ok () ∧
      ValidateExternalTexturePlane (samplePlane wgpu.TextureFormat.RG8Unorm 1) = .ok () :=
  ⟨rfl,
    C7_biplanar_requires_srgb_and_format_pair sampleDevice sampleBiPlanar
      (samplePlane wgpu.TextureFormat.RG8Unorm 1) rfl rfl⟩

/-- C8: if `ValidateExternalTextureDescriptor` succeeds, then every plane view present in the
descriptor has dimension 2D, a mip level count of exactly 1, and a texture sample count of
exactly 1. A texture view covers at least one mip level; the embedding keeps the level count as
a natural number, which does not carry that, so it is the hypothesis `hlevel`. -/
theorem C8_validated_planes_are_2D_single_level_single_sampled (device : DeviceBase)
    (descriptor : ExternalTextureDescriptor)
    (h : ValidateExternalTextureDescriptor device descriptor = .ok (.ok ()))
    (plane : TextureViewBase)
    (hp : descriptor.plane0 = some plane ∨ descriptor.plane1 = some plane)
    (hlevel : 0 < plane.GetLevelCount) :
    plane.GetDimension = wgpu.TextureViewDimension.e2D ∧
    plane.GetLevelCount = 1 ∧
    plane.GetTexture.GetSampleCount = 1 := by
  have hplane : ValidateExternalTexturePlane plane = .ok () := by
    cases h0 : descriptor.plane0 with
    | none => simp [ValidateExternalTextureDescriptor, h0] at h
    | some plane0 =>
      cases h1 : descriptor.plane1 with
      | some plane1 =>
        obtain ⟨_, _, _, _, _, _, hp0, hp1⟩ :=
          ValidateExternalTextureDescriptor_biplanar_ok device descriptor plane0 plane1 h0 h1 h
        rcases hp with hp | hp
        · rw [h0] at hp; cases hp; exact hp0
        · rw [h1] at hp; cases hp; exact hp1
      | none =>
        rcases hp with hp | hp
        · rw [h0] at hp; cases hp
          rw [ValidateExternalTextureDescriptor_single device descriptor plane h0 h1] at h
          cases hv : device.ValidateObject plane.toApiObjectBase with
          | error e => simp [hv] at h
          | ok u =>
            simp only [hv, Except.ok.injEq] at h
            split at h
            · exact h
            · cases h
        · rw [h1] at hp; cases hp
  obtain ⟨_, hd, hl, hs⟩ := (ValidateExternalTexturePlane_ok_iff plane).1 hplane
  exact ⟨hd, by omega, hs⟩

/-- C8, witness: plane 1 of `sampleBiPlanar`, which passes the validation. -/
theorem C8_validated_planes_are_2D_single_level_single_sampled_witness :
    ValidateExternalTextureDescriptor sampleDevice sampleBiPlanar = .ok (.ok ()) ∧
    sampleBiPlanar.plane1 = some (samplePlane wgpu.TextureFormat.RG8Unorm 1) ∧
    0 < (samplePlane wgpu.TextureFormat.RG8Unorm 1).GetLevelCount ∧
    (samplePlane wgpu.TextureFormat.RG8Unorm 1).GetDimension = wgpu.TextureViewDimension.e2D ∧
    (samplePlane wgpu.TextureFormat.RG8Unorm 1).GetLevelCount = 1 ∧
    (samplePlane wgpu.TextureFormat.RG8Unorm 1).GetTexture.GetSampleCount = 1 :=
  ⟨rfl, rfl, by decide,
    C8_validated_planes_are_2D_single_level_single_sampled sampleDevice sampleBiPlanar rfl
      (samplePlane wgpu.TextureFormat.RG8Unorm 1) (Or.inr rfl) (by decide)⟩

/-- C9, counterexample: a single plane of the unsupported format `R8Unorm` fails
`ValidateExternalTextureDescriptor` with a validation error, and yet
`ExternalTextureBase::Create` returns an `Alive` external texture for it, on which
`ValidateCanUseInSubmitNow` succeeds. -/
theorem C9_counterexample :
    (∃ e, ValidateExternalTextureDescriptor sampleDevice
          (sampleSinglePlane wgpu.TextureFormat.R8Unorm 1) = .ok (.error e) ∧
        e.type = InternalErrorType.Validation) ∧
    ∃ created, Create sampleDevice (sampleSinglePlane wgpu.TextureFormat.R8Unorm 1)
        = .ok created ∧
      created.mState = ExternalTextureState.Alive ∧
      created.ValidateCanUseInSubmitNow = .ok (.ok ()) :=
  ⟨⟨_, rfl, rfl⟩, ⟨_, rfl, rfl, rfl⟩⟩

/-- C9, amended: `ExternalTextureBase::Create` does not validate the descriptor. For every device
and every descriptor, also one on which `ValidateExternalTextureDescriptor` fails, it returns an
`Alive` external texture without the error tag that holds the two planes of the descriptor; and
`ValidateCanUseInSubmitNow` depends on the error tag and the state only, never on the planes, so
no check of the descriptor is deferred to it. -/
theorem C9_Create_does_not_validate (device : DeviceBase)
    (descriptor : ExternalTextureDescriptor) :
    ∃ created, Create device descriptor = .ok created ∧
      created.mState = ExternalTextureState.Alive ∧
      created.IsError = false ∧
      created.GetTextureViews 0 = descriptor.plane0 ∧
      created.GetTextureViews 1 = descriptor.plane1 ∧
      created.ValidateCanUseInSubmitNow = .ok (.ok ()) ∧
      ∀ other : ExternalTextureBase, other.IsError = created.IsError →
        other.mState = created.mState →
        other.ValidateCanUseInSubmitNow = created.ValidateCanUseInSubmitNow := by
  refine ⟨(ctor device descriptor |>.Initialize device descriptor).2, rfl, rfl, rfl, ?_, ?_, ?_,
    ?_⟩
  · simp [GetTextureViews, Initialize]
  · simp [GetTextureViews, Initialize]
  · rw [ValidateCanUseInSubmitNow_eq _ rfl]; rfl
  · intro other he hs
    unfold ValidateCanUseInSubmitNow
    rw [he, hs]

/-- C9, witness: the texture created from a single plane of the unsupported format `R8Unorm`,
compared with the one created from `sampleBiPlanar`. -/
theorem C9_Create_does_not_validate_witness :
    ∃ created, Create sampleDevice (sampleSinglePlane wgpu.TextureFormat.R8Unorm 1)
        = .ok created ∧
      created.mState = ExternalTextureState.Alive ∧
      (ctor sampleDevice sampleBiPlanar).ValidateCanUseInSubmitNow
        = created.ValidateCanUseInSubmitNow := by
  obtain ⟨created, h1, h2, h3, _, _, _, h7⟩ :=
    C9_Create_does_not_validate sampleDevice (sampleSinglePlane wgpu.TextureFormat.R8Unorm 1)
  exact ⟨created, h1, h2, h7 (ctor sampleDevice sampleBiPlanar) (by rw [h3]; rfl)
    (by rw [h2]; rfl)⟩

/-- One call on a destroyed external texture leaves it destroyed, if the call returns. -/
theorem afterCall_of_destroyed (self next : ExternalTextureBase) (c : ExternalTextureCall)
    (hs : self.mState = ExternalTextureState.Destroyed) (h : self.afterCall c = .ok next) :
    next.mState = ExternalTextureState.Destroyed ∧ next.IsError = self.IsError := by
  cases c with
  | Initialize device descriptor =>
    simp only [afterCall, Except.ok.injEq] at h
    subst h; exact ⟨hs, rfl⟩
  | GetTextureViews =>
    simp only [afterCall, Except.ok.injEq] at h
    subst h; exact ⟨hs, rfl⟩
  | ValidateCanUseInSubmitNow =>
    simp only [afterCall] at h
    split at h
    · cases h
    · simp only [Except.ok.injEq] at h
      subst h; exact ⟨hs, rfl⟩
  | APIDestroy device =>
    simp only [afterCall, APIDestroy, Except.ok.injEq] at h
    subst h
    split
    · exact ⟨hs, rfl⟩
    · exact ⟨rfl, rfl⟩
  | DestroyImpl =>
    simp only [afterCall, Except.ok.injEq] at h
    subst h; exact ⟨rfl, rfl⟩

/-- One call on an external texture without the error tag returns. -/
theorem afterCall_returns (self : ExternalTextureBase) (c : ExternalTextureCall)
    (he : self.IsError = false) : ∃ next, self.afterCall c = .ok next := by
  cases c with
  | Initialize device descriptor => exact ⟨_, rfl⟩
  | GetTextureViews => exact ⟨_, rfl⟩
  | ValidateCanUseInSubmitNow =>
    refine ⟨self, ?_⟩
    simp [afterCall, ValidateCanUseInSubmitNow_eq self he]
  | APIDestroy device => exact ⟨_, rfl⟩
  | DestroyImpl => exact ⟨_, rfl⟩

/-- A run of calls on a destroyed external texture leaves it destroyed, if the run returns. -/
theorem afterCalls_of_destroyed (calls : List ExternalTextureCall) :
    ∀ self last : ExternalTextureBase, self.mState = ExternalTextureState.Destroyed →
      self.afterCalls calls = .ok last →
      last.mState = ExternalTextureState.Destroyed ∧ last.IsError = self.IsError := by
  induction calls with
  | nil =>
    intro self last hs h
    simp only [afterCalls, Except.ok.injEq] at h
    subst h; exact ⟨hs, rfl⟩
  | cons c calls ih =>
    intro self last hs h
    simp only [afterCalls] at h
    cases hc : self.afterCall c with
    | error f => rw [hc] at h; cases h
    | ok next =>
      rw [hc] at h
      obtain ⟨hn, hne⟩ := afterCall_of_destroyed self next c hs hc
      obtain ⟨hl, hle⟩ := ih next last hn h
      exact ⟨hl, by rw [hle, hne]⟩

/-- A run of calls on an external texture without the error tag returns. -/
theorem afterCalls_returns (calls : List ExternalTextureCall) :
    ∀ self : ExternalTextureBase, self.IsError = false →
      self.mState = ExternalTextureState.Destroyed → ∃ last, self.afterCalls calls = .ok last := by
  induction calls with
  | nil => intro self _ _; exact ⟨self, rfl⟩
  | cons c calls ih =>
    intro self he hs
    obtain ⟨next, hn⟩ := afterCall_returns self c he
    obtain ⟨hns, hne⟩ := afterCall_of_destroyed self next c hs hn
    obtain ⟨last, hl⟩ := ih next (by rw [hne, he]) hns
    exact ⟨last, by simp [afterCalls, hn, hl]⟩

/-- C18: `Destroyed` is terminal and there are only two states. Every state is `Alive` or
`Destroyed`; once the state of an external texture is `Destroyed`, it is `Destroyed` after every
run of `Initialize`, `GetTextureViews`, `ValidateCanUseInSubmitNow`, `APIDestroy` and
`DestroyImpl` calls that returns; and on an object without the error tag every such run returns
and `ValidateCanUseInSubmitNow` then fails with a validation error. -/
theorem C18_destroyed_is_terminal (self : ExternalTextureBase)
    (hs : self.mState = ExternalTextureState.Destroyed) (calls : List ExternalTextureCall) :
    (∀ s : ExternalTextureState,
      s = ExternalTextureState.Alive ∨ s = ExternalTextureState.Destroyed) ∧
    (∀ last, self.afterCalls calls = .ok last →
      last.mState = ExternalTextureState.Destroyed) ∧
    (self.IsError = false →
      ∃ last, self.afterCalls calls = .ok last ∧
        last.mState = ExternalTextureState.Destroyed ∧
        ∃ e, last.ValidateCanUseInSubmitNow = .ok (.error e) ∧
          e.type = InternalErrorType.Validation) := by
  refine ⟨?_, ?_, ?_⟩
  · intro s
    cases s
    · exact Or.inl rfl
    · exact Or.inr rfl
  · intro last h
    exact (afterCalls_of_destroyed calls self last hs h).1
  · intro he
    obtain ⟨last, hl⟩ := afterCalls_returns calls self he hs
    obtain ⟨hls, hle⟩ := afterCalls_of_destroyed calls self last hs hl
    refine ⟨last, hl, hls, ?_⟩
    rw [ValidateCanUseInSubmitNow_eq last (by rw [hle, he]), hls]
    exact ⟨_, rfl, rfl⟩

/-- C18, witness: a destroyed external texture, after `Initialize`, `APIDestroy`, `DestroyImpl`
and `ValidateCanUseInSubmitNow`. -/
theorem C18_destroyed_is_terminal_witness :
    ∃ last,
      (ctor sampleDevice sampleBiPlanar).DestroyImpl.afterCalls
          [ExternalTextureCall.Initialize sampleDevice sampleBiPlanar,
            ExternalTextureCall.APIDestroy sampleDevice,
            ExternalTextureCall.DestroyImpl,
            ExternalTextureCall.ValidateCanUseInSubmitNow] = .ok last ∧
        last.mState = ExternalTextureState.Destroyed ∧
        ∃ e, last.ValidateCanUseInSubmitNow = .ok (.error e) ∧
          e.type = InternalErrorType.Validation :=
  (C18_destroyed_is_terminal (ctor sampleDevice sampleBiPlanar).DestroyImpl rfl
    [ExternalTextureCall.Initialize sampleDevice sampleBiPlanar,
      ExternalTextureCall.APIDestroy sampleDevice,
      ExternalTextureCall.DestroyImpl,
      ExternalTextureCall.ValidateCanUseInSubmitNow]).2.2 rfl

/-- C36: `ValidateExternalTexturePlane` succeeds exactly when its four checks pass. Every plane
view whose texture usage does not include `TextureBinding` is rejected, with a validation error;
the function succeeds if and only if the usage includes `TextureBinding`, the view dimension is
2D, the level count of the view is not greater than 1 and the sample count of the texture is 1;
and whenever it does not succeed it returns a validation error. -/
theorem C36_plane_validation_succeeds_iff_four_checks (textureView : TextureViewBase) :
    ((textureView.GetTexture.GetUsage &&& wgpu.TextureUsage.TextureBinding) = 0 →
      ValidateExternalTexturePlane textureView =
        .error (DAWN_FORMAT_VALIDATION_ERROR
          "The external texture plane (%s) usage (%s) doesn't include the required usage (%s)")) ∧
    (ValidateExternalTexturePlane textureView = .ok () ↔
      (textureView.GetTexture.GetUsage &&& wgpu.TextureUsage.TextureBinding) ≠ 0 ∧
      textureView.GetDimension = wgpu.TextureViewDimension.e2D ∧
      ¬ textureView.GetLevelCount > 1 ∧
      textureView.GetTexture.GetSampleCount = 1) ∧
    (∀ e, ValidateExternalTexturePlane textureView = .error e →
      e.type = InternalErrorType.Validation) ∧
    ((textureView.GetTexture.GetUsage &&& wgpu.TextureUsage.TextureBinding) ≠ 0 ↔
      textureView.GetTexture.GetUsage.testBit 2 = true) := by
  refine ⟨?_, ?_, fun e h => ValidateExternalTexturePlane_error textureView e h, ?_⟩
  · intro h
    simp [ValidateExternalTexturePlane, DAWN_INVALID_IF, h, bind, Except.bind]
  · rw [ValidateExternalTexturePlane_ok_iff]
    simp only [gt_iff_lt, not_lt]
  · have h4 : wgpu.TextureUsage.TextureBinding = 2 ^ 2 := rfl
    rw [h4, Nat.and_two_pow]
    cases textureView.GetTexture.GetUsage.testBit 2 <;> simp

/-- C36, witness: a plane whose texture usage is `CopySrc` only (the bit 1) is rejected, and
the plane `samplePlane RGBA8Unorm 1`, whose usage is `TextureBinding`, passes. -/
theorem C36_plane_validation_succeeds_iff_four_checks_witness :
    ValidateExternalTexturePlane
        { samplePlane wgpu.TextureFormat.RGBA8Unorm 1 with
          GetTexture := { GetUsage := 1, GetSampleCount := 1 } } =
      .error (DAWN_FORMAT_VALIDATION_ERROR
        "The external texture plane (%s) usage (%s) doesn't include the required usage (%s)") ∧
    ValidateExternalTexturePlane (samplePlane wgpu.TextureFormat.RGBA8Unorm 1) = .ok () :=
  ⟨(C36_plane_validation_succeeds_iff_four_checks
      { samplePlane wgpu.TextureFormat.RGBA8Unorm 1 with
        GetTexture := { GetUsage := 1, GetSampleCount := 1 } }).1 (by decide),
    (C36_plane_validation_succeeds_iff_four_checks
      (samplePlane wgpu.TextureFormat.RGBA8Unorm 1)).2.1.2
      ⟨by decide, rfl, by decide, rfl⟩⟩

/-- C37: while `DisallowUnsafeAPIs` is enabled every descriptor with a `plane1` is rejected.
For every device on which the toggle is enabled and every descriptor with a `plane1`, whatever
its colour space and the formats of its planes, `ValidateExternalTextureDescriptor` does not
succeed: with a `plane0` it returns an error, the error of `ValidateObject(plane0)` if there is
one and otherwise the validation error that bi-planar external textures are disabled; without a
`plane0` the run ends at `ASSERT(descriptor->plane0)`. For a descriptor without `plane1` the
outcome is the same on every device that validates objects alike, whatever its toggles, and for
every value of the colour space field. -/
theorem C37_biplanar_rejected_while_unsafe_apis_disallowed (device : DeviceBase)
    (descriptor : ExternalTextureDescriptor) (plane1 : TextureViewBase)
    (h1 : descriptor.plane1 = some plane1)
    (ht : device.IsToggleEnabled Toggle.DisallowUnsafeAPIs = true) :
    ValidateExternalTextureDescriptor device descriptor ≠ .ok (.ok ()) ∧
    (∀ plane0, descriptor.plane0 = some plane0 →
      (∃ e, ValidateExternalTextureDescriptor device descriptor = .ok (.error e)) ∧
      (∀ e, device.ValidateObject plane0.toApiObjectBase = .error e →
        ValidateExternalTextureDescriptor device descriptor = .ok (.error e)) ∧
      (device.ValidateObject plane0.toApiObjectBase = .ok () →
        ValidateExternalTextureDescriptor device descriptor =
          .ok (.error (DAWN_FORMAT_VALIDATION_ERROR
            "Bi-planar external textures are disabled until the implementation is completed.")))) ∧
    (descriptor.plane0 = none →
      ValidateExternalTextureDescriptor device descriptor = .error Fault.assertPlane0) ∧
    (∀ (reference other : DeviceBase) (single : ExternalTextureDescriptor)
      (colorSpace : wgpu.PredefinedColorSpace),
      single.plane1 = none → other.ValidateObject = reference.ValidateObject →
      ValidateExternalTextureDescriptor other { single with colorSpace := colorSpace } =
        ValidateExternalTextureDescriptor reference single) := by
  have hsome : ∀ plane0, descriptor.plane0 = some plane0 →
      (∃ e, ValidateExternalTextureDescriptor device descriptor = .ok (.error e)) ∧
      (∀ e, device.ValidateObject plane0.toApiObjectBase = .error e →
        ValidateExternalTextureDescriptor device descriptor = .ok (.error e)) ∧
      (device.ValidateObject plane0.toApiObjectBase = .ok () →
        ValidateExternalTextureDescriptor device descriptor =
          .ok (.error (DAWN_FORMAT_VALIDATION_ERROR
            "Bi-planar external textures are disabled until the implementation is completed."))) := by
    intro plane0 h0
    have hbi := ValidateExternalTextureDescriptor_biplanar device descriptor plane0 plane1 h0 h1
    have herr : ∀ e, device.ValidateObject plane0.toApiObjectBase = .error e →
        ValidateExternalTextureDescriptor device descriptor = .ok (.error e) := by
      intro e he
      rw [hbi, he]
      rfl
    have hok : device.ValidateObject plane0.toApiObjectBase = .ok () →
        ValidateExternalTextureDescriptor device descriptor =
          .ok (.error (DAWN_FORMAT_VALIDATION_ERROR
            "Bi-planar external textures are disabled until the implementation is completed.")) := by
      intro hv
      rw [hbi, hv]
      simp [DAWN_INVALID_IF, ht, bind, Except.bind]
    refine ⟨?_, herr, hok⟩
    cases hv : device.ValidateObject plane0.toApiObjectBase with
    | error e => exact ⟨e, herr e hv⟩
    | ok u => exact ⟨_, hok hv⟩
  have hnone : descriptor.plane0 = none →
      ValidateExternalTextureDescriptor device descriptor = .error Fault.assertPlane0 := by
    intro h0
    unfold ValidateExternalTextureDescriptor
    simp only [h0]
  refine ⟨?_, hsome, hnone, ?_⟩
  · cases h0 : descriptor.plane0 with
    | none =>
      rw [hnone h0]
      intro h
      cases h
    | some plane0 =>
      obtain ⟨e, he⟩ := (hsome plane0 h0).1
      rw [he]
      intro h
      cases h
  · intro reference other single colorSpace hs hv
    unfold ValidateExternalTextureDescriptor
    simp only [hs, hv]

/-- C37, witness: the descriptor `sampleBiPlanar` is rejected on the device with
`DisallowUnsafeAPIs` on and accepted on the device with the toggle off; a single-plane
descriptor, also with another colour space, has the same outcome on both: it is accepted. -/
theorem C37_biplanar_rejected_while_unsafe_apis_disallowed_witness :
    ValidateExternalTextureDescriptor sampleSafeDevice sampleBiPlanar =
      .ok (.error (DAWN_FORMAT_VALIDATION_ERROR
        "Bi-planar external textures are disabled until the implementation is completed.")) ∧
    ValidateExternalTextureDescriptor sampleDevice sampleBiPlanar = .ok (.ok ()) ∧
    ValidateExternalTextureDescriptor sampleSafeDevice
        { sampleSinglePlane wgpu.TextureFormat.RGBA8Unorm 1 with
          colorSpace := wgpu.PredefinedColorSpace.other 7 } =
      ValidateExternalTextureDescriptor sampleDevice
        (sampleSinglePlane wgpu.TextureFormat.RGBA8Unorm 1) ∧
    ValidateExternalTextureDescriptor sampleDevice
        (sampleSinglePlane wgpu.TextureFormat.RGBA8Unorm 1) = .ok (.ok ()) :=
  ⟨((C37_biplanar_rejected_while_unsafe_apis_disallowed sampleSafeDevice sampleBiPlanar
      (samplePlane wgpu.TextureFormat.RG8Unorm 1) rfl rfl).2.1
      (samplePlane wgpu.TextureFormat.R8Unorm 1) rfl).2.2 rfl,
    rfl,
    (C37_biplanar_rejected_while_unsafe_apis_disallowed sampleSafeDevice sampleBiPlanar
      (samplePlane wgpu.TextureFormat.RG8Unorm 1) rfl rfl).2.2.2 sampleDevice sampleSafeDevice
      (sampleSinglePlane wgpu.TextureFormat.RGBA8Unorm 1) (wgpu.PredefinedColorSpace.other 7) rfl
      rfl,
    rfl⟩

end dawn.native

namespace dawn.recording

/-- Nothing is bound in the empty binding state. -/
theorem boundBy_empty (commands : List RenderCommand) : boundBy commands BindingState.empty := by
  refine ⟨?_, ?_, ?_⟩
  · intro p h; cases h
  · intro s g h; cases h
  · intro s b h; cases h

/-- What was bound by some calls was bound by any larger list of calls. -/
theorem boundBy_mono {commands more : List RenderCommand} {bindings : BindingState}
    (hsub : ∀ c ∈ commands, c ∈ more) (h : boundBy commands bindings) :
    boundBy more bindings :=
  ⟨fun p hp => hsub _ (h.1 p hp), fun s g hg => hsub _ (h.2.1 s g hg),
    fun s b hb => hsub _ (h.2.2 s b hb)⟩

/-- A shared recording method binds nothing but what its own command sets. -/
theorem record_boundBy {Cmd : Type} (embed : RenderCommand → Cmd) (ctx : RecordingContext Cmd)
    (command : RenderCommand) (commands : List RenderCommand)
    (h : boundBy commands ctx.bindings) :
    boundBy (commands ++ [command]) (RecordingContext.record embed ctx command).bindings := by
  have hsub : ∀ c ∈ commands, c ∈ commands ++ [command] := fun c hc => by simp [hc]
  cases ctx with
  | Error e => exact boundBy_empty _
  | Finished o => exact boundBy_empty _
  | Open key bindings usages recorded =>
    simp only [RecordingContext.bindings] at h
    cases command with
    | SetPipeline pipeline =>
      simp only [RecordingContext.record]
      split
      · exact boundBy_empty _
      · refine ⟨?_, ?_, ?_⟩
        · intro p hp
          simp only [RecordingContext.bindings, Option.some.injEq] at hp
          subst hp; simp
        · intro s g hg; exact hsub _ (h.2.1 s g hg)
        · intro s b hb; exact hsub _ (h.2.2 s b hb)
    | SetBindGroup slot group =>
      simp only [RecordingContext.record, RecordingContext.bindings]
      refine ⟨fun p hp => hsub _ (h.1 p hp), ?_, fun s b hb => hsub _ (h.2.2 s b hb)⟩
      intro s g hg
      by_cases hs : s = slot
      · subst hs
        simp only [Function.update_same, Option.some.injEq] at hg
        subst hg; simp
      · simp only [Function.update_noteq hs] at hg
        exact hsub _ (h.2.1 s g hg)
    | SetVertexBuffer slot buffer =>
      simp only [RecordingContext.record, RecordingContext.bindings]
      refine ⟨fun p hp => hsub _ (h.1 p hp), fun s g hg => hsub _ (h.2.1 s g hg), ?_⟩
      intro s b hb
      by_cases hs : s = slot
      · subst hs
        simp only [Function.update_same, Option.some.injEq] at hb
        subst hb; simp
      · simp only [Function.update_noteq hs] at hb
        exact hsub _ (h.2.2 s b hb)
    | SetIndexBuffer buffer =>
      simp only [RecordingContext.record, RecordingContext.bindings]
      exact boundBy_mono hsub h
    | Draw =>
      simp only [RecordingContext.record]
      split
      · exact boundBy_empty _
      · exact boundBy_mono hsub h
    | DrawIndexed =>
      simp only [RecordingContext.record]
      split
      · exact boundBy_empty _
      · exact boundBy_mono hsub h

/-- A shared recording method neither finishes a context nor reopens a finished one. -/
theorem record_isFinished {Cmd : Type} (embed : RenderCommand → Cmd)
    (ctx : RecordingContext Cmd) (command : RenderCommand) :
    (RecordingContext.record embed ctx command).isFinished = ctx.isFinished := by
  cases ctx with
  | Error e => rfl
  | Finished o => rfl
  | Open key bindings usages recorded =>
    cases command <;> simp only [RecordingContext.record] <;> (try split) <;> rfl

/-- A draw validated against bindings that lack what it needs fails. -/
theorem validateDraw_of_leavesUnbound (commands : List RenderCommand) (bindings : BindingState)
    (indexed : Bool) (hb : boundBy commands bindings) (hu : leavesUnbound commands) :
    ∃ e, validateDraw bindings indexed = some e := by
  unfold validateDraw
  cases hp : bindings.pipeline with
  | none => exact ⟨_, rfl⟩
  | some pipeline =>
    have hset := hb.1 pipeline hp
    rcases hu with hu | ⟨slot, hno, hreq⟩ | ⟨slot, hno, hreq⟩
    · exact absurd hset (hu pipeline)
    · have hnone : bindings.bindGroups slot = none := by
        cases hg : bindings.bindGroups slot with
        | none => rfl
        | some group => exact absurd (hb.2.1 slot group hg) (hno group)
      cases hm : missingBindGroup pipeline bindings with
      | some e => exact ⟨e, by simp [hm]⟩
      | none =>
        unfold missingBindGroup at hm
        rw [List.findSome?_eq_none_iff] at hm
        have := hm slot (List.mem_range.2 (hreq pipeline hset))
        simp [hnone] at this
    · have hnone : bindings.vertexBuffers slot = none := by
        cases hv : bindings.vertexBuffers slot with
        | none => rfl
        | some buffer => exact absurd (hb.2.2 slot buffer hv) (hno buffer)
      cases hm : missingBindGroup pipeline bindings with
      | some e => exact ⟨e, by simp [hm]⟩
      | none =>
        cases hv : missingVertexBuffer pipeline bindings with
        | some e => exact ⟨e, by simp [hm, hv]⟩
        | none =>
          unfold missingVertexBuffer at hv
          rw [List.findSome?_eq_none_iff] at hv
          have := hv slot (hreq pipeline hset)
          simp [hnone] at this

/-- A draw recorded on a context that has not finished and lacks a binding it needs latches an
error, or finds one latched. -/
theorem record_draw_latches {Cmd : Type} (embed : RenderCommand → Cmd)
    (ctx : RecordingContext Cmd) (commands : List RenderCommand) (draw : RenderCommand)
    (hd : draw = RenderCommand.Draw ∨ draw = RenderCommand.DrawIndexed)
    (hf : ctx.isFinished = false) (hb : boundBy commands ctx.bindings)
    (hu : leavesUnbound commands) :
    ∃ e, RecordingContext.record embed ctx draw = .Error e := by
  cases ctx with
  | Error e => exact ⟨e, rfl⟩
  | Finished o => simp [RecordingContext.isFinished] at hf
  | Open key bindings usages recorded =>
    simp only [RecordingContext.bindings] at hb
    rcases hd with hd | hd <;> subst hd
    · obtain ⟨e, he⟩ := validateDraw_of_leavesUnbound commands bindings false hb hu
      exact ⟨e, by simp [RecordingContext.record, he]⟩
    · obtain ⟨e, he⟩ := validateDraw_of_leavesUnbound commands bindings true hb hu
      exact ⟨e, by simp [RecordingContext.record, he]⟩

/-- The recording calls of a bundle bind nothing but what their commands set. -/
theorem bundle_recordAll_boundBy (commands : List RenderCommand) :
    ∀ (ctx : BundleContext) (earlier : List RenderCommand), boundBy earlier ctx.bindings →
      boundBy (earlier ++ commands) (BundleContext.recordAll ctx commands).bindings := by
  induction commands with
  | nil => intro ctx earlier h; simpa [BundleContext.recordAll] using h
  | cons c rest ih =>
    intro ctx earlier h
    have := ih (BundleContext.record ctx c) (earlier ++ [c]) (record_boundBy id ctx c earlier h)
    simpa [BundleContext.recordAll] using this

/-- The recording calls of a bundle neither finish the context nor reopen it. -/
theorem bundle_recordAll_isFinished (commands : List RenderCommand) :
    ∀ ctx : BundleContext,
      (BundleContext.recordAll ctx commands).isFinished = ctx.isFinished := by
  induction commands with
  | nil => intro ctx; rfl
  | cons c rest ih =>
    intro ctx
    have := ih (BundleContext.record ctx c)
    rw [BundleContext.record, record_isFinished] at this
    simpa [BundleContext.recordAll] using this

/-- The recording calls of a bundle are no-ops once an error is latched. -/
theorem bundle_recordAll_Error (commands : List RenderCommand) (e : RecordingError) :
    BundleContext.recordAll (.Error e) commands = .Error e := by
  induction commands with
  | nil => rfl
  | cons c rest ih => simpa [BundleContext.recordAll] using ih

/-- The call `ExecuteBundles` neither finishes a context nor reopens a finished one. -/
theorem ExecuteBundles_isFinished (ctx : PassContext) (bundles : List (Option Bundle)) :
    (PassContext.ExecuteBundles ctx bundles).isFinished = ctx.isFinished := by
  cases ctx with
  | Error e => rfl
  | Finished o => rfl
  | Open key bindings usages recorded =>
    cases bundles with
    | nil => rfl
    | cons b rest =>
      simp only [PassContext.ExecuteBundles]
      split
      · rfl
      · split <;> rfl

/-- The call `ExecuteBundles` binds nothing. -/
theorem ExecuteBundles_boundBy (ctx : PassContext) (bundles : List (Option Bundle))
    (commands : List RenderCommand) (h : boundBy commands ctx.bindings) :
    boundBy commands (PassContext.ExecuteBundles ctx bundles).bindings := by
  cases ctx with
  | Error e => exact boundBy_empty _
  | Finished o => exact boundBy_empty _
  | Open key bindings usages recorded =>
    cases bundles with
    | nil => exact h
    | cons b rest =>
      simp only [PassContext.ExecuteBundles]
      split
      · exact boundBy_empty _
      · split <;> exact boundBy_empty _

/-- After `ExecuteBundles` with at least one bundle nothing is bound. -/
theorem ExecuteBundles_bindings (ctx : PassContext) (bundles : List (Option Bundle))
    (hn : bundles ≠ []) :
    (PassContext.ExecuteBundles ctx bundles).bindings = BindingState.empty := by
  cases ctx with
  | Error e => rfl
  | Finished o => rfl
  | Open key bindings usages recorded =>
    cases bundles with
    | nil => exact absurd rfl hn
    | cons b rest =>
      simp only [PassContext.ExecuteBundles]
      split
      · rfl
      · split <;> rfl

/-- The recording calls of a pass bind nothing but what their shared commands set. -/
theorem pass_recordAll_boundBy (commands : List PassCommand) :
    ∀ (ctx : PassContext) (earlier : List RenderCommand), boundBy earlier ctx.bindings →
      boundBy (earlier ++ renderCommands commands)
        (PassContext.recordAll ctx commands).bindings := by
  induction commands with
  | nil => intro ctx earlier h; simpa [PassContext.recordAll, renderCommands] using h
  | cons c rest ih =>
    intro ctx earlier h
    cases c with
    | render command =>
      have := ih (PassContext.record ctx (.render command)) (earlier ++ [command])
        (record_boundBy PassCommand.render ctx command earlier h)
      simpa [PassContext.recordAll, renderCommands] using this
    | ExecuteBundles bundles =>
      have := ih (PassContext.record ctx (.ExecuteBundles bundles)) earlier
        (ExecuteBundles_boundBy ctx bundles earlier h)
      simpa [PassContext.recordAll, renderCommands] using this

/-- The recording calls of a pass neither finish the context nor reopen it. -/
theorem pass_recordAll_isFinished (commands : List PassCommand) :
    ∀ ctx : PassContext, (PassContext.recordAll ctx commands).isFinished = ctx.isFinished := by
  induction commands with
  | nil => intro ctx; rfl
  | cons c rest ih =>
    intro ctx
    have := ih (PassContext.record ctx c)
    cases c with
    | render command =>
      rw [PassContext.record, record_isFinished] at this
      simpa [PassContext.recordAll] using this
    | ExecuteBundles bundles =>
      rw [PassContext.record, ExecuteBundles_isFinished] at this
      simpa [PassContext.recordAll] using this

/-- The recording calls of a pass are no-ops once an error is latched. -/
theorem pass_recordAll_Error (commands : List PassCommand) (e : RecordingError) :
    PassContext.recordAll (.Error e) commands = .Error e := by
  induction commands with
  | nil => rfl
  | cons c rest ih =>
    cases c <;> simpa [PassContext.recordAll] using ih

/-- The command encoder fails to finish when one of its passes carries a deferred error. -/
theorem CommandEncoderFinish_of_deferredError (before after : List PassContext)
    (pass : PassContext) (e : RecordingError) (h : pass.deferredError = some e) :
    ∃ e', CommandEncoderFinish (before ++ pass :: after) = .error e' := by
  unfold CommandEncoderFinish
  cases hf : (before ++ pass :: after).findSome? RecordingContext.deferredError with
  | some e' => exact ⟨e', rfl⟩
  | none =>
    rw [List.findSome?_eq_none_iff] at hf
    have := hf pass (by simp)
    rw [h] at this
    cases this

/-- A list of bundles that holds an unusable bundle does not pass the validation of
`ExecuteBundles`. -/
theorem invalidBundle_of_unusable (key : CompatibilityKey) (bundles : List (Option Bundle)) :
    ∀ index : Nat, none ∈ bundles → ∃ e, invalidBundle key bundles index = some e := by
  induction bundles with
  | nil => intro index h; cases h
  | cons b rest ih =>
    intro index h
    cases b with
    | none => exact ⟨_, rfl⟩
    | some bundle =>
      simp only [invalidBundle]
      split
      · exact ⟨_, rfl⟩
      · exact ih (index + 1) (by simpa using h)

/-- A pass that has not finished and executes a list of bundles holding an unusable bundle
carries a deferred error once it has ended, whatever was recorded on it before and after. -/
theorem End_of_unusable_bundle (pass : PassContext) (before after : List PassCommand)
    (bundles : List (Option Bundle)) (hf : pass.isFinished = false) (hb : none ∈ bundles) :
    ∃ e, (PassContext.End (PassContext.recordAll pass
      (before ++ PassCommand.ExecuteBundles bundles :: after))).deferredError = some e := by
  have hsplit : PassContext.recordAll pass
      (before ++ PassCommand.ExecuteBundles bundles :: after) =
      PassContext.recordAll
        (PassContext.ExecuteBundles (PassContext.recordAll pass before) bundles) after := by
    simp [PassContext.recordAll, List.foldl_append, PassContext.record]
  rw [hsplit]
  have hlatched : ∃ e, PassContext.ExecuteBundles (PassContext.recordAll pass before) bundles
      = .Error e := by
    have hnf := pass_recordAll_isFinished before pass
    rw [hf] at hnf
    cases hctx : PassContext.recordAll pass before with
    | Error e => exact ⟨e, rfl⟩
    | Finished o => rw [hctx] at hnf; simp [RecordingContext.isFinished] at hnf
    | Open key bindings usages recorded =>
      cases bundles with
      | nil => cases hb
      | cons b rest =>
        obtain ⟨e, he⟩ := invalidBundle_of_unusable key (b :: rest) 0 hb
        exact ⟨e, by simp [PassContext.ExecuteBundles, he]⟩
  obtain ⟨e, he⟩ := hlatched
  rw [he, pass_recordAll_Error]
  exact ⟨e, rfl⟩

/-! ### The model on the scenarios of `RenderBundleValidationTests.cpp` -/

section ModelOnTests

open RenderCommand

/-- The model on the tests `Empty`, `ZeroBundles` and `SimpleSuccess`: every `Finish()`
succeeds. -/
theorem model_on_Empty_ZeroBundles_SimpleSuccess :
    (finishBundle sampleKey []).toBool = true ∧
    (finishPass sampleKey [executeOutcomes [finishBundle sampleKey []]]).toBool = true ∧
    (finishPass sampleKey [PassCommand.ExecuteBundles []]).toBool = true ∧
    (finishBundle sampleKey sampleCompleteCommands).toBool = true ∧
    (finishPass sampleKey
      [executeOutcomes [finishBundle sampleKey sampleCompleteCommands]]).toBool = true := by
  decide

/-- The model on the test `StateInheritance`: in each of the four cases `Finish()` on the bundle
fails and so does `Finish()` on the command encoder of the pass that executes the outcome. -/
theorem model_on_StateInheritance :
    (finishBundle sampleKey
      [SetBindGroup 0 sampleBindGroup0, SetBindGroup 1 sampleBindGroup1,
        SetVertexBuffer 0 sampleVertexBuffer, Draw]).toBool = false ∧
    (finishPass sampleKey
      [.render (SetPipeline samplePipeline),
        executeOutcomes [finishBundle sampleKey
          [SetBindGroup 0 sampleBindGroup0, SetBindGroup 1 sampleBindGroup1,
            SetVertexBuffer 0 sampleVertexBuffer, Draw]]]).toBool = false ∧
    (finishBundle sampleKey
      [SetPipeline samplePipeline, SetVertexBuffer 0 sampleVertexBuffer, Draw]).toBool = false ∧
    (finishPass sampleKey
      [.render (SetBindGroup 0 sampleBindGroup0), .render (SetBindGroup 1 sampleBindGroup1),
        executeOutcomes [finishBundle sampleKey
          [SetPipeline samplePipeline, SetVertexBuffer 0 sampleVertexBuffer,
            Draw]]]).toBool = false ∧
    (finishBundle sampleKey [SetVertexBuffer 0 sampleVertexBuffer, Draw]).toBool = false ∧
    (finishPass sampleKey
      [.render (SetPipeline samplePipeline), .render (SetBindGroup 0 sampleBindGroup0),
        .render (SetBindGroup 1 sampleBindGroup1),
        executeOutcomes [finishBundle sampleKey
          [SetVertexBuffer 0 sampleVertexBuffer, Draw]]]).toBool = false ∧
    (finishBundle sampleKey
      [SetPipeline samplePipeline, SetBindGroup 0 sampleBindGroup0,
        SetBindGroup 1 sampleBindGroup1, Draw]).toBool = false ∧
    (finishPass sampleKey
      [.render (SetVertexBuffer 0 sampleVertexBuffer),
        executeOutcomes [finishBundle sampleKey
          [SetPipeline samplePipeline, SetBindGroup 0 sampleBindGroup0,
            SetBindGroup 1 sampleBindGroup1, Draw]]]).toBool = false := by
  decide

/-- The model on the test `StatePersistence`: the bundles finish, and in each of the four cases
`Finish()` on the command encoder fails. -/
theorem model_on_StatePersistence :
    (finishPass sampleKey
      [executeOutcomes [finishBundle sampleKey [SetPipeline samplePipeline]],
        .render (SetBindGroup 0 sampleBindGroup0), .render (SetBindGroup 1 sampleBindGroup1),
        .render (SetVertexBuffer 0 sampleVertexBuffer), .render Draw]).toBool = false ∧
    (finishPass sampleKey
      [executeOutcomes [finishBundle sampleKey
          [SetBindGroup 0 sampleBindGroup0, SetBindGroup 1 sampleBindGroup1]],
        .render (SetPipeline samplePipeline), .render (SetVertexBuffer 0 sampleVertexBuffer),
        .render Draw]).toBool = false ∧
    (finishPass sampleKey
      [executeOutcomes [finishBundle sampleKey
          [SetPipeline samplePipeline, SetBindGroup 0 sampleBindGroup0,
            SetBindGroup 1 sampleBindGroup1]],
        .render (SetVertexBuffer 0 sampleVertexBuffer), .render Draw]).toBool = false ∧
    (finishPass sampleKey
      [executeOutcomes [finishBundle sampleKey [SetVertexBuffer 0 sampleVertexBuffer]],
        .render (SetPipeline samplePipeline), .render (SetBindGroup 0 sampleBindGroup0),
        .render (SetBindGroup 1 sampleBindGroup1), .render Draw]).toBool = false ∧
    (finishBundle sampleKey [SetPipeline samplePipeline]).toBool = true ∧
    (finishBundle sampleKey
      [SetBindGroup 0 sampleBindGroup0, SetBindGroup 1 sampleBindGroup1]).toBool = true ∧
    (finishBundle sampleKey [SetVertexBuffer 0 sampleVertexBuffer]).toBool = true := by
  decide

/-- The model on the test `ClearsState`: after `ExecuteBundles` of the empty bundle a draw
without full rebinding makes `Finish()` on the command encoder fail in each of the four cases,
and after `ExecuteBundles` of zero bundles the draw is valid. -/
theorem model_on_ClearsState :
    (finishPass sampleKey
      [.render (SetPipeline samplePipeline), .ExecuteBundles [some sampleEmptyBundle],
        .render (SetBindGroup 0 sampleBindGroup0), .render (SetBindGroup 1 sampleBindGroup1),
        .render (SetVertexBuffer 0 sampleVertexBuffer), .render Draw]).toBool = false ∧
    (finishPass sampleKey
      [.render (SetBindGroup 0 sampleBindGroup0), .render (SetBindGroup 1 sampleBindGroup1),
        .ExecuteBundles [some sampleEmptyBundle], .render (SetPipeline samplePipeline),
        .render (SetVertexBuffer 0 sampleVertexBuffer), .render Draw]).toBool = false ∧
    (finishPass sampleKey
      [.render (SetPipeline samplePipeline), .render (SetBindGroup 0 sampleBindGroup0),
        .render (SetBindGroup 1 sampleBindGroup1), .ExecuteBundles [some sampleEmptyBundle],
        .render (SetVertexBuffer 0 sampleVertexBuffer), .render Draw]).toBool = false ∧
    (finishPass sampleKey
      [.render (SetVertexBuffer 0 sampleVertexBuffer), .ExecuteBundles [some sampleEmptyBundle],
        .render (SetPipeline samplePipeline), .render (SetBindGroup 0 sampleBindGroup0),
        .render (SetBindGroup 1 sampleBindGroup1), .render Draw]).toBool = false ∧
    (finishPass sampleKey
      [.render (SetPipeline samplePipeline), .render (SetBindGroup 0 sampleBindGroup0),
        .render (SetBindGroup 1 sampleBindGroup1),
        .render (SetVertexBuffer 0 sampleVertexBuffer), .ExecuteBundles [],
        .render Draw]).toBool = true ∧
    finishBundle sampleKey [] = .ok sampleEmptyBundle := by
  refine ⟨by decide, by decide, by decide, by decide, by decide, rfl⟩

/-- The model on the tests `MultipleBundles` and `ExecuteMultipleTimes`: two equal bundles in one
call, and one bundle executed three times, are valid. -/
theorem model_on_MultipleBundles_ExecuteMultipleTimes :
    (finishPass sampleKey
      [executeOutcomes [finishBundle sampleKey sampleCompleteCommands,
        finishBundle sampleKey sampleCompleteCommands]]).toBool = true ∧
    (finishPass sampleKey
      [executeOutcomes [finishBundle sampleKey sampleCompleteCommands],
        executeOutcomes [finishBundle sampleKey sampleCompleteCommands],
        executeOutcomes [finishBundle sampleKey sampleCompleteCommands]]).toBool = true := by
  decide

/-- The model on the tests `FinishTwice` and `RequiresAtLeastOneTextureFormat`: the second
`Finish()` fails; an encoder without any format is rejected, one with a colour format or with a
depth-stencil format only is accepted. -/
theorem model_on_FinishTwice_RequiresAtLeastOneTextureFormat :
    (BundleContext.Finish (RecordingContext.Open sampleKey BindingState.empty [] [])).2.toBool
      = true ∧
    (BundleContext.Finish
      (BundleContext.Finish
        (RecordingContext.Open sampleKey BindingState.empty [] [])).1).2.toBool = false ∧
    (CreateBundleEncoder
      { colorFormats := [], depthStencilFormat := none, sampleCount := 1 }).toBool = false ∧
    (CreateBundleEncoder sampleKey).toBool = true ∧
    (CreateBundleEncoder
      { colorFormats := [], depthStencilFormat := some (wgpu.TextureFormat.other 40),
        sampleCount := 1 }).toBool = true := by
  decide

/-- The model on the test `UsageTracking`: each of the two bundles is valid alone and in a pass
of its own; one bundle that uses the buffer as storage and as vertex buffer fails to finish; and
the command encoder fails to finish when the two usages meet in one pass, through two bundles or
through a bundle and the pass itself, in either order. -/
theorem model_on_UsageTracking :
    (finishBundle sampleKey sampleStorageCommands).toBool = true ∧
    (finishBundle sampleKey sampleVertexCommands).toBool = true ∧
    (finishBundle sampleKey
      [SetPipeline samplePipeline, SetBindGroup 0 sampleBindGroup0,
        SetBindGroup 1 sampleBindGroup1Vertex, SetVertexBuffer 0 sampleVertexStorageBuffer,
        Draw]).toBool = false ∧
    (finishPass sampleKey
      [executeOutcomes [finishBundle sampleKey sampleStorageCommands],
        executeOutcomes [finishBundle sampleKey sampleVertexCommands]]).toBool = false ∧
    (finishPass sampleKey
      (sampleStorageCommands.map PassCommand.render ++
        [executeOutcomes [finishBundle sampleKey sampleVertexCommands]])).toBool = false ∧
    (finishPass sampleKey
      (executeOutcomes [finishBundle sampleKey sampleStorageCommands] ::
        sampleVertexCommands.map PassCommand.render)).toBool = false ∧
    (finishPass sampleKey
      [executeOutcomes [finishBundle sampleKey sampleStorageCommands]]).toBool = true ∧
    (finishPass sampleKey
      [executeOutcomes [finishBundle sampleKey sampleVertexCommands]]).toBool = true := by
  decide

/-- The model on the tests `PipelineColorFormatMismatch`, `PipelineDepthStencilFormatMismatch`
and `PipelineSampleCountMismatch`: a pipeline with the key of the encoder is accepted; a
different format in a slot, a missing slot, a different or missing depth-stencil format and a
different sample count each make `Finish()` fail. -/
theorem model_on_pipeline_mismatch_tests :
    (finishBundle sampleKey3
      [SetPipeline { samplePipeline with key := sampleKey3 }]).toBool = true ∧
    (finishBundle sampleKey3
      [SetPipeline { samplePipeline with
        key := { sampleKey3 with
          colorFormats :=
            [wgpu.TextureFormat.RGBA8Unorm, wgpu.TextureFormat.RGBA8Unorm,
              wgpu.TextureFormat.other 3] } }]).toBool = false ∧
    (finishBundle sampleKey3
      [SetPipeline { samplePipeline with
        key := { sampleKey3 with
          colorFormats :=
            [wgpu.TextureFormat.RGBA8Unorm, wgpu.TextureFormat.other 2] } }]).toBool = false ∧
    (finishBundle sampleKeyDepth
      [SetPipeline { samplePipeline with key := sampleKeyDepth }]).toBool = true ∧
    (finishBundle sampleKeyDepth
      [SetPipeline { samplePipeline with
        key := { sampleKeyDepth with
          depthStencilFormat := some (wgpu.TextureFormat.other 41) } }]).toBool = false ∧
    (finishBundle sampleKeyDepth
      [SetPipeline { samplePipeline with
        key := { sampleKeyDepth with depthStencilFormat := none } }]).toBool = false ∧
    (finishBundle { sampleKey with sampleCount := 4 }
      [SetPipeline { samplePipeline with
        key := { sampleKey with sampleCount := 4 } }]).toBool = true ∧
    (finishBundle { sampleKey with sampleCount := 4 }
      [SetPipeline samplePipeline]).toBool = false := by
  decide

/-- The model on the tests `RenderPassColorFormatMismatch`,
`RenderPassDepthStencilFormatMismatch` and `RenderPassSampleCountMismatch`: a bundle executes in
a pass with its own key; a pass with a different format in a slot, with fewer colour
attachments, with a different or no depth-stencil attachment, or with a different sample count
makes `Finish()` on the command encoder fail. -/
theorem model_on_render_pass_mismatch_tests :
    (finishPass sampleKey3 [executeOutcomes [finishBundle sampleKey3 []]]).toBool = true ∧
    (finishPass
      { sampleKey3 with
        colorFormats :=
          [wgpu.TextureFormat.RGBA8Unorm, wgpu.TextureFormat.other 2,
            wgpu.TextureFormat.RGBA8Unorm] }
      [executeOutcomes [finishBundle sampleKey3 []]]).toBool = false ∧
    (finishPass
      { sampleKey3 with
        colorFormats := [wgpu.TextureFormat.RGBA8Unorm, wgpu.TextureFormat.other 2] }
      [executeOutcomes [finishBundle sampleKey3 []]]).toBool = false ∧
    (finishPass sampleKeyDepth
      [executeOutcomes [finishBundle sampleKeyDepth []]]).toBool = true ∧
    (finishPass { sampleKeyDepth with depthStencilFormat := some (wgpu.TextureFormat.other 41) }
      [executeOutcomes [finishBundle sampleKeyDepth []]]).toBool = false ∧
    (finishPass sampleKey [executeOutcomes [finishBundle sampleKeyDepth []]]).toBool = false ∧
    (finishPass sampleKey [executeOutcomes [finishBundle sampleKey []]]).toBool = true ∧
    (finishPass { sampleKey with sampleCount := 4 }
      [executeOutcomes [finishBundle sampleKey []]]).toBool = false := by
  decide

end ModelOnTests

/-- C19: state isolation. A bundle encoder starts with no pipeline, no bind group, no vertex
buffer and no index buffer; if the calls recorded on it leave a binding unset that a draw needs
(no pipeline, or no bind group in a required slot, or no vertex buffer in a slot that is read),
then a draw recorded after them makes `Finish()` on the bundle fail, whatever is recorded later;
and every pass that has not finished and executes the outcome of that `Finish()`, whatever is
bound and recorded on the pass before and after, makes `Finish()` of its command encoder
fail. -/
theorem C19_bundle_state_isolation (attachmentConfig : CompatibilityKey)
    (encoder : BundleContext) (hc : CreateBundleEncoder attachmentConfig = .ok encoder) :
    (encoder.bindings.pipeline = none ∧
      (∀ slot, encoder.bindings.bindGroups slot = none) ∧
      (∀ slot, encoder.bindings.vertexBuffers slot = none) ∧
      encoder.bindings.indexBuffer = none) ∧
    ∀ (commands later : List RenderCommand) (draw : RenderCommand),
      draw = RenderCommand.Draw ∨ draw = RenderCommand.DrawIndexed →
      leavesUnbound commands →
      (∃ e, (BundleContext.Finish
        (BundleContext.recordAll encoder (commands ++ draw :: later))).2 = .error e) ∧
      ∀ (pass : PassContext) (before after : List PassCommand)
        (bundles₁ bundles₂ : List (Option Bundle)) (passes₁ passes₂ : List PassContext),
        pass.isFinished = false →
        ∃ e, CommandEncoderFinish
          (passes₁ ++
            PassContext.End (PassContext.recordAll pass
              (before ++
                PassCommand.ExecuteBundles
                  (bundles₁ ++
                    (BundleContext.Finish
                      (BundleContext.recordAll encoder
                        (commands ++ draw :: later))).2.toOption :: bundles₂) :: after)) ::
            passes₂) = .error e := by
  have hopen : encoder = .Open attachmentConfig BindingState.empty [] [] := by
    unfold CreateBundleEncoder at hc
    split at hc
    · cases hc
    · simp only [Except.ok.injEq] at hc
      exact hc.symm
  subst hopen
  refine ⟨⟨rfl, fun _ => rfl, fun _ => rfl, rfl⟩, ?_⟩
  intro commands later draw hd hu
  have hsplit : BundleContext.recordAll (.Open attachmentConfig BindingState.empty [] [])
      (commands ++ draw :: later) =
      BundleContext.recordAll
        (BundleContext.record
          (BundleContext.recordAll (.Open attachmentConfig BindingState.empty [] []) commands)
          draw) later := by
    simp [BundleContext.recordAll, List.foldl_append]
  have hb := bundle_recordAll_boundBy commands
    (.Open attachmentConfig BindingState.empty [] []) [] (boundBy_empty [])
  rw [List.nil_append] at hb
  have hnf := bundle_recordAll_isFinished commands
    (.Open attachmentConfig BindingState.empty [] [])
  obtain ⟨e, he⟩ := record_draw_latches id _ commands draw hd hnf hb hu
  have hfin : (BundleContext.Finish
      (BundleContext.recordAll (.Open attachmentConfig BindingState.empty [] [])
        (commands ++ draw :: later))).2 = .error e := by
    rw [hsplit, BundleContext.record, he, bundle_recordAll_Error]
    rfl
  refine ⟨⟨e, hfin⟩, ?_⟩
  intro pass before after bundles₁ bundles₂ passes₁ passes₂ hf
  rw [hfin]
  obtain ⟨e', he'⟩ := End_of_unusable_bundle pass before after
    (bundles₁ ++ (Except.error e : Except RecordingError Bundle).toOption :: bundles₂) hf
    (by simp [Except.toOption])
  exact CommandEncoderFinish_of_deferredError passes₁ passes₂ _ e' he'

/-- C19, witness: the first case of the test `StateInheritance`: the pipeline is set on the pass
only, the bundle sets both bind groups and the vertex buffer and draws. -/
theorem C19_bundle_state_isolation_witness :
    (∃ e, (BundleContext.Finish
      (BundleContext.recordAll (.Open sampleKey BindingState.empty [] [])
        (sampleCommandsWithoutPipeline ++ RenderCommand.Draw :: []))).2 = .error e) ∧
    ∃ e, CommandEncoderFinish
      ([] ++
        PassContext.End (PassContext.recordAll (BeginPass sampleKey)
          ([PassCommand.render (RenderCommand.SetPipeline samplePipeline)] ++
            PassCommand.ExecuteBundles
              ([] ++
                (BundleContext.Finish
                  (BundleContext.recordAll (.Open sampleKey BindingState.empty [] [])
                    (sampleCommandsWithoutPipeline ++
                      RenderCommand.Draw :: []))).2.toOption :: []) :: [])) ::
        []) = .error e :=
  ⟨((C19_bundle_state_isolation sampleKey (.Open sampleKey BindingState.empty [] []) rfl).2
      sampleCommandsWithoutPipeline [] RenderCommand.Draw (Or.inl rfl)
      (Or.inl (by intro p h; simp [sampleCommandsWithoutPipeline] at h))).1,
    ((C19_bundle_state_isolation sampleKey (.Open sampleKey BindingState.empty [] []) rfl).2
      sampleCommandsWithoutPipeline [] RenderCommand.Draw (Or.inl rfl)
      (Or.inl (by intro p h; simp [sampleCommandsWithoutPipeline] at h))).2
      (BeginPass sampleKey)
      [PassCommand.render (RenderCommand.SetPipeline samplePipeline)] [] [] [] [] [] rfl⟩

/-- C20: executing at least one bundle clears the pass state. For every pass context and every
list of at least one bundle, after `ExecuteBundles` the pass has no pipeline, no bind group, no
vertex buffer and no index buffer bound; and on a pass that has not finished, if the calls
recorded after `ExecuteBundles` leave a binding unset that a draw needs, a draw recorded after
them makes `Finish()` of the command encoder fail, whatever was bound before the call. -/
theorem C20_ExecuteBundles_clears_pass_state (pass : PassContext)
    (bundles : List (Option Bundle)) (hn : bundles ≠ []) :
    ((PassContext.ExecuteBundles pass bundles).bindings.pipeline = none ∧
      (∀ slot, (PassContext.ExecuteBundles pass bundles).bindings.bindGroups slot = none) ∧
      (∀ slot, (PassContext.ExecuteBundles pass bundles).bindings.vertexBuffers slot = none) ∧
      (PassContext.ExecuteBundles pass bundles).bindings.indexBuffer = none) ∧
    (pass.isFinished = false →
      ∀ (commands after : List PassCommand) (draw : RenderCommand)
        (passes₁ passes₂ : List PassContext),
        draw = RenderCommand.Draw ∨ draw = RenderCommand.DrawIndexed →
        leavesUnbound (renderCommands commands) →
        ∃ e, CommandEncoderFinish
          (passes₁ ++
            PassContext.End (PassContext.recordAll (PassContext.ExecuteBundles pass bundles)
              (commands ++ PassCommand.render draw :: after)) ::
            passes₂) = .error e) := by
  have hempty := ExecuteBundles_bindings pass bundles hn
  refine ⟨by rw [hempty]; exact ⟨rfl, fun _ => rfl, fun _ => rfl, rfl⟩, ?_⟩
  intro hf commands after draw passes₁ passes₂ hd hu
  have hsplit : PassContext.recordAll (PassContext.ExecuteBundles pass bundles)
      (commands ++ PassCommand.render draw :: after) =
      PassContext.recordAll
        (RecordingContext.record PassCommand.render
          (PassContext.recordAll (PassContext.ExecuteBundles pass bundles) commands) draw)
        after := by
    simp [PassContext.recordAll, List.foldl_append, PassContext.record]
  have hb := pass_recordAll_boundBy commands (PassContext.ExecuteBundles pass bundles) []
    (by rw [hempty]; exact boundBy_empty [])
  rw [List.nil_append] at hb
  have hnf := pass_recordAll_isFinished commands (PassContext.ExecuteBundles pass bundles)
  rw [ExecuteBundles_isFinished, hf] at hnf
  obtain ⟨e, he⟩ :=
    record_draw_latches PassCommand.render _ (renderCommands commands) draw hd hnf hb hu
  apply CommandEncoderFinish_of_deferredError passes₁ passes₂ _ e
  rw [hsplit, he, pass_recordAll_Error]
  rfl

/-- C20, witness: the first case of the test `ClearsState`: the pipeline is set before
`ExecuteBundles`, the bind groups and the vertex buffer after it, and then the pass draws. -/
theorem C20_ExecuteBundles_clears_pass_state_witness :
    ∃ e, CommandEncoderFinish
      ([] ++
        PassContext.End
          (PassContext.recordAll
            (PassContext.ExecuteBundles
              (PassContext.record (BeginPass sampleKey)
                (PassCommand.render (RenderCommand.SetPipeline samplePipeline)))
              [some sampleEmptyBundle])
            (sampleCommandsWithoutPipeline.map PassCommand.render ++
              PassCommand.render RenderCommand.Draw :: [])) ::
        []) = .error e :=
  (C20_ExecuteBundles_clears_pass_state
    (PassContext.record (BeginPass sampleKey)
      (PassCommand.render (RenderCommand.SetPipeline samplePipeline)))
    [some sampleEmptyBundle] (by simp)).2 rfl
    (sampleCommandsWithoutPipeline.map PassCommand.render) [] RenderCommand.Draw [] []
    (Or.inl rfl)
    (Or.inl (by
      intro p h
      simp [sampleCommandsWithoutPipeline, renderCommands] at h))

/-! ### Usage sets, compatibility keys and the validation outcome -/

/-- What `AddUsage` leaves in the usage set: the record and what was there. -/
theorem mem_AddUsage (usages : List UsageRecord) (record r : UsageRecord) :
    r ∈ AddUsage usages record ↔ r ∈ usages ∨ r = record := by
  unfold AddUsage
  split
  · constructor
    · exact Or.inl
    · rintro (h | h)
      · exact h
      · subst h; assumption
  · simp

/-- What a merge leaves in the usage set: what was there and the records of the summary. -/
theorem mem_mergeUsages (summary : List UsageRecord) :
    ∀ (usages : List UsageRecord) (r : UsageRecord),
      r ∈ mergeUsages usages summary ↔ r ∈ usages ∨ r ∈ summary := by
  induction summary with
  | nil => intro usages r; simp [mergeUsages]
  | cons s rest ih =>
    intro usages r
    have := ih (AddUsage usages s) r
    simp only [mergeUsages, List.foldl_cons] at this ⊢
    rw [this, mem_AddUsage]
    simp only [List.mem_cons]
    tauto

/-- Merging a summary whose records the usage set already holds changes nothing. -/
theorem mergeUsages_of_subset (summary : List UsageRecord) :
    ∀ usages : List UsageRecord, (∀ r ∈ summary, r ∈ usages) →
      mergeUsages usages summary = usages := by
  induction summary with
  | nil => intro usages _; rfl
  | cons s rest ih =>
    intro usages h
    have hs : s ∈ usages := h s (by simp)
    have : AddUsage usages s = usages := by simp [AddUsage, hs]
    simp only [mergeUsages, List.foldl_cons, this]
    exact ih usages (fun r hr => h r (by simp [hr]))

/-- Merging a summary a second time changes nothing. -/
theorem mergeUsages_idempotent (usages summary : List UsageRecord) :
    mergeUsages (mergeUsages usages summary) summary = mergeUsages usages summary :=
  mergeUsages_of_subset summary _ (fun r hr => (mem_mergeUsages summary usages r).2 (Or.inr hr))

/-- A usage set has no hazard exactly when no two of its records conflict. -/
theorem firstHazard_eq_none_iff (usages : List UsageRecord) :
    firstHazard usages = none ↔ ∀ a ∈ usages, ∀ b ∈ usages, a.conflicts b = false := by
  unfold firstHazard
  rw [List.findSome?_eq_none_iff]
  constructor
  · intro h a ha b hb
    have := h a ha
    simp only [Option.map_eq_none', List.find?_eq_none] at this
    simpa using this b hb
  · intro h a ha
    simp only [Option.map_eq_none', List.find?_eq_none]
    intro b hb
    simp [h a ha b hb]

/-- A usage set that holds two conflicting records has a hazard. -/
theorem firstHazard_of_conflict (usages : List UsageRecord) (a b : UsageRecord)
    (ha : a ∈ usages) (hb : b ∈ usages) (hc : a.conflicts b = true) :
    ∃ p, firstHazard usages = some p := by
  cases h : firstHazard usages with
  | some p => exact ⟨p, rfl⟩
  | none =>
    rw [firstHazard_eq_none_iff] at h
    rw [h a ha b hb] at hc
    cases hc

/-- Whether a usage set has a hazard depends on the records it holds only. -/
theorem firstHazard_congr (usages usages' : List UsageRecord)
    (h : ∀ r, r ∈ usages ↔ r ∈ usages') :
    firstHazard usages = none ↔ firstHazard usages' = none := by
  rw [firstHazard_eq_none_iff, firstHazard_eq_none_iff]
  constructor
  · intro hh a ha b hb; exact hh a ((h a).2 ha) b ((h b).2 hb)
  · intro hh a ha b hb; exact hh a ((h a).1 ha) b ((h b).1 hb)

/-- What the merge of a list of bundles leaves in the usage set: what was there and the
records of the usable bundles. -/
theorem mem_mergeBundles (bundles : List (Option Bundle)) :
    ∀ (usages : List UsageRecord) (r : UsageRecord),
      r ∈ mergeBundles usages bundles ↔ r ∈ usages ∨ r ∈ bundleUsages bundles := by
  induction bundles with
  | nil => intro usages r; simp [mergeBundles, bundleUsages]
  | cons b rest ih =>
    intro usages r
    cases b with
    | none =>
      have := ih usages r
      simpa [mergeBundles, bundleUsages] using this
    | some bundle =>
      have := ih (mergeUsages usages bundle.usages) r
      simp only [mergeBundles, List.foldl_cons, bundleUsages, List.mem_append] at this ⊢
      rw [this, mem_mergeUsages]
      tauto

/-- Two lists of colour formats have no mismatching slot exactly when they are equal. -/
theorem firstColorMismatch_eq_none_iff (formats : List wgpu.TextureFormat) :
    ∀ (others : List wgpu.TextureFormat) (slot : Nat),
      firstColorMismatch formats others slot = none ↔ formats = others := by
  induction formats with
  | nil =>
    intro others slot
    cases others <;> simp [firstColorMismatch]
  | cons a rest ih =>
    intro others slot
    cases others with
    | nil => simp [firstColorMismatch]
    | cons b bs =>
      simp only [firstColorMismatch]
      by_cases hab : a = b
      · simp [hab, ih bs (slot + 1)]
      · simp [hab]

/-- Two keys have no mismatch exactly when they are equal. -/
theorem firstMismatch_eq_none_iff (scope candidate : CompatibilityKey) :
    scope.firstMismatch candidate = none ↔ candidate = scope := by
  unfold CompatibilityKey.firstMismatch
  cases hc : firstColorMismatch scope.colorFormats candidate.colorFormats 0 with
  | some slot =>
    have : scope.colorFormats ≠ candidate.colorFormats := by
      intro heq
      rw [(firstColorMismatch_eq_none_iff _ _ 0).2 heq] at hc
      cases hc
    constructor
    · intro h; cases h
    · intro h; subst h; exact absurd rfl this
  | none =>
    have hcol := (firstColorMismatch_eq_none_iff _ _ 0).1 hc
    cases scope; cases candidate
    simp only at hcol
    subst hcol
    simp only [CompatibilityKey.mk.injEq, true_and]
    constructor
    · intro h
      split at h
      · cases h
      · split at h
        · cases h
        · rename_i h1 h2
          exact ⟨(not_not.1 h1).symm, (not_not.1 h2).symm⟩
    · rintro ⟨h1, h2⟩
      simp [h1, h2]

/-- A shared recording method reads the context without its recorded commands. -/
theorem record_withoutCommands {Cmd : Type} (embed : RenderCommand → Cmd)
    (ctx ctx' : RecordingContext Cmd) (command : RenderCommand)
    (h : ctx.withoutCommands = ctx'.withoutCommands) :
    (RecordingContext.record embed ctx command).withoutCommands =
      (RecordingContext.record embed ctx' command).withoutCommands := by
  cases ctx with
  | Error e =>
    cases ctx' <;> simp only [RecordingContext.withoutCommands] at h <;> cases h
    rfl
  | Finished o =>
    cases ctx' <;> simp only [RecordingContext.withoutCommands] at h <;> cases h
    rfl
  | Open key bindings usages recorded =>
    cases ctx' with
    | Error e => simp [RecordingContext.withoutCommands] at h
    | Finished o => simp [RecordingContext.withoutCommands] at h
    | Open key' bindings' usages' recorded' =>
      simp only [RecordingContext.withoutCommands, RecordingContext.Open.injEq, and_true] at h
      obtain ⟨hk, hb, hu⟩ := h
      subst hk; subst hb; subst hu
      cases command <;> simp only [RecordingContext.record] <;> (try split) <;> rfl

/-- The call `ExecuteBundles` reads the context without its recorded commands. -/
theorem ExecuteBundles_withoutCommands (ctx ctx' : PassContext) (bundles : List (Option Bundle))
    (h : ctx.withoutCommands = ctx'.withoutCommands) :
    (PassContext.ExecuteBundles ctx bundles).withoutCommands =
      (PassContext.ExecuteBundles ctx' bundles).withoutCommands := by
  cases ctx with
  | Error e =>
    cases ctx' <;> simp only [RecordingContext.withoutCommands] at h <;> cases h
    rfl
  | Finished o =>
    cases ctx' <;> simp only [RecordingContext.withoutCommands] at h <;> cases h
    rfl
  | Open key bindings usages recorded =>
    cases ctx' with
    | Error e => simp [RecordingContext.withoutCommands] at h
    | Finished o => simp [RecordingContext.withoutCommands] at h
    | Open key' bindings' usages' recorded' =>
      simp only [RecordingContext.withoutCommands, RecordingContext.Open.injEq, and_true] at h
      obtain ⟨hk, hb, hu⟩ := h
      subst hk; subst hb; subst hu
      cases bundles with
      | nil => rfl
      | cons b rest =>
        simp only [PassContext.ExecuteBundles]
        split
        · rfl
        · split <;> rfl

/-- The recording calls of a pass read the context without its recorded commands. -/
theorem pass_recordAll_withoutCommands (commands : List PassCommand) :
    ∀ ctx ctx' : PassContext, ctx.withoutCommands = ctx'.withoutCommands →
      (PassContext.recordAll ctx commands).withoutCommands =
        (PassContext.recordAll ctx' commands).withoutCommands := by
  induction commands with
  | nil => intro ctx ctx' h; exact h
  | cons c rest ih =>
    intro ctx ctx' h
    have hstep : (PassContext.record ctx c).withoutCommands =
        (PassContext.record ctx' c).withoutCommands := by
      cases c with
      | render command => exact record_withoutCommands PassCommand.render ctx ctx' command h
      | ExecuteBundles bundles => exact ExecuteBundles_withoutCommands ctx ctx' bundles h
    have := ih _ _ hstep
    simpa [PassContext.recordAll] using this

/-- The outcome with which a pass ends does not depend on its recorded commands. -/
theorem End_withoutCommands (ctx ctx' : PassContext)
    (h : ctx.withoutCommands = ctx'.withoutCommands) :
    PassContext.End ctx = PassContext.End ctx' := by
  cases ctx <;> cases ctx' <;> simp only [RecordingContext.withoutCommands] at h <;>
    cases h <;> rfl

/-- C21: `ExecuteBundles` with zero bundles is a no-op for pass state. For every pass context,
what is bound after the call is what was bound before it; apart from the recorded command the
context is the one before the call, so whatever is recorded afterwards the pass ends with the
same outcome as without the call; and a draw that was valid immediately before the call (it is
recorded on the open context without latching an error) is valid immediately after it. -/
theorem C21_ExecuteBundles_of_zero_bundles_keeps_pass_state (pass : PassContext) :
    ((PassContext.ExecuteBundles pass []).bindings.pipeline = pass.bindings.pipeline ∧
      (PassContext.ExecuteBundles pass []).bindings.bindGroups = pass.bindings.bindGroups ∧
      (PassContext.ExecuteBundles pass []).bindings.vertexBuffers =
        pass.bindings.vertexBuffers ∧
      (PassContext.ExecuteBundles pass []).bindings.indexBuffer = pass.bindings.indexBuffer) ∧
    (PassContext.ExecuteBundles pass []).withoutCommands = pass.withoutCommands ∧
    (∀ after : List PassCommand,
      PassContext.End (PassContext.recordAll (PassContext.ExecuteBundles pass []) after) =
        PassContext.End (PassContext.recordAll pass after)) ∧
    ∀ (key : CompatibilityKey) (bindings : BindingState) (usages : List UsageRecord)
      (commands : List PassCommand) (draw : RenderCommand),
      draw = RenderCommand.Draw ∨ draw = RenderCommand.DrawIndexed →
      pass = .Open key bindings usages commands →
      PassContext.record pass (.render draw) =
        .Open key bindings usages (commands ++ [.render draw]) →
      PassContext.record (PassContext.ExecuteBundles pass []) (.render draw) =
        .Open key bindings usages
          (commands ++ [PassCommand.ExecuteBundles []] ++ [.render draw]) := by
  have hsame : (PassContext.ExecuteBundles pass []).withoutCommands = pass.withoutCommands := by
    cases pass <;> rfl
  refine ⟨?_, hsame, ?_, ?_⟩
  · cases pass <;> exact ⟨rfl, rfl, rfl, rfl⟩
  · intro after
    exact End_withoutCommands _ _ (pass_recordAll_withoutCommands after _ _ hsame)
  · intro key bindings usages commands draw hd hp hv
    subst hp
    rcases hd with hd | hd <;> subst hd
    · simp only [PassContext.record, RecordingContext.record, PassContext.ExecuteBundles] at hv ⊢
      split at hv
      · cases hv
      · rename_i hnone
        simp [hnone]
    · simp only [PassContext.record, RecordingContext.record, PassContext.ExecuteBundles] at hv ⊢
      split at hv
      · cases hv
      · rename_i hnone
        simp [hnone]

/-- C21, witness: the zero-bundle case of the test `ClearsState`: with the pipeline, both bind
groups and the vertex buffer set, the draw is valid before `ExecuteBundles` with zero bundles and
after it. -/
theorem C21_ExecuteBundles_of_zero_bundles_keeps_pass_state_witness :
    PassContext.record (PassContext.ExecuteBundles sampleBoundPass []) (.render .Draw) =
      .Open sampleKey sampleBoundPass.bindings sampleBoundPass.usages
        ([ PassCommand.render (.SetPipeline samplePipeline),
            .render (.SetBindGroup 0 sampleBindGroup0),
            .render (.SetBindGroup 1 sampleBindGroup1),
            .render (.SetVertexBuffer 0 sampleVertexBuffer) ] ++
          [PassCommand.ExecuteBundles []] ++ [.render .Draw]) :=
  (C21_ExecuteBundles_of_zero_bundles_keeps_pass_state sampleBoundPass).2.2.2
    sampleKey sampleBoundPass.bindings sampleBoundPass.usages _ .Draw (Or.inl rfl) rfl rfl

/-- A shared recording method on an open context latches an error or adds the usage records of
its command to the usage set. -/
theorem record_usages {Cmd : Type} (embed : RenderCommand → Cmd) (key : CompatibilityKey)
    (bindings : BindingState) (usages : List UsageRecord) (recorded : List Cmd)
    (command : RenderCommand) :
    (∃ e, RecordingContext.record embed (.Open key bindings usages recorded) command =
      .Error e) ∨
    ∃ bindings' usages' recorded',
      RecordingContext.record embed (.Open key bindings usages recorded) command =
        .Open key bindings' usages' recorded' ∧
      ∀ r, r ∈ usages' ↔ r ∈ usages ∨ r ∈ command.usages := by
  cases command with
  | SetPipeline pipeline =>
    simp only [RecordingContext.record]
    split
    · exact Or.inl ⟨_, rfl⟩
    · exact Or.inr ⟨_, _, _, rfl, by simp [RenderCommand.usages]⟩
  | SetBindGroup slot group =>
    exact Or.inr ⟨_, _, _, rfl, fun r => by
      simpa [RenderCommand.usages] using mem_mergeUsages group.usages usages r⟩
  | SetVertexBuffer slot buffer =>
    exact Or.inr ⟨_, _, _, rfl, fun r => by
      simpa [RenderCommand.usages] using mem_AddUsage usages _ r⟩
  | SetIndexBuffer buffer =>
    exact Or.inr ⟨_, _, _, rfl, fun r => by
      simpa [RenderCommand.usages] using mem_AddUsage usages _ r⟩
  | Draw =>
    simp only [RecordingContext.record]
    split
    · exact Or.inl ⟨_, rfl⟩
    · exact Or.inr ⟨_, _, _, rfl, by simp [RenderCommand.usages]⟩
  | DrawIndexed =>
    simp only [RecordingContext.record]
    split
    · exact Or.inl ⟨_, rfl⟩
    · exact Or.inr ⟨_, _, _, rfl, by simp [RenderCommand.usages]⟩

/-- The call `ExecuteBundles` on an open context latches an error or adds the usage records of
the bundles to the usage set. -/
theorem ExecuteBundles_usages (key : CompatibilityKey) (bindings : BindingState)
    (usages : List UsageRecord) (recorded : List PassCommand) (bundles : List (Option Bundle)) :
    (∃ e, PassContext.ExecuteBundles (.Open key bindings usages recorded) bundles = .Error e) ∨
    ∃ bindings' usages' recorded',
      PassContext.ExecuteBundles (.Open key bindings usages recorded) bundles =
        .Open key bindings' usages' recorded' ∧
      ∀ r, r ∈ usages' ↔ r ∈ usages ∨ r ∈ bundleUsages bundles := by
  cases bundles with
  | nil => exact Or.inr ⟨_, _, _, rfl, by simp [bundleUsages]⟩
  | cons b rest =>
    simp only [PassContext.ExecuteBundles]
    split
    · exact Or.inl ⟨_, rfl⟩
    · split
      · exact Or.inl ⟨_, rfl⟩
      · exact Or.inr ⟨_, _, _, rfl, fun r => mem_mergeBundles (b :: rest) usages r⟩

/-- The recording calls of a bundle on an open context latch an error or leave the context open
with the usage records of all the calls in its usage set. -/
theorem bundle_recordAll_usages (commands : List RenderCommand) :
    ∀ (key : CompatibilityKey) (bindings : BindingState) (usages : List UsageRecord)
      (recorded : List RenderCommand),
      (∃ e, BundleContext.recordAll (.Open key bindings usages recorded) commands = .Error e) ∨
      ∃ bindings' usages' recorded',
        BundleContext.recordAll (.Open key bindings usages recorded) commands =
          .Open key bindings' usages' recorded' ∧
        ∀ r, r ∈ usages' ↔ r ∈ usages ∨ ∃ c ∈ commands, r ∈ c.usages := by
  induction commands with
  | nil =>
    intro key bindings usages recorded
    exact Or.inr ⟨_, _, _, rfl, by simp⟩
  | cons c rest ih =>
    intro key bindings usages recorded
    have hcons : BundleContext.recordAll (.Open key bindings usages recorded) (c :: rest) =
        BundleContext.recordAll
          (RecordingContext.record id (.Open key bindings usages recorded) c) rest := rfl
    rw [hcons]
    rcases record_usages id key bindings usages recorded c with ⟨e, he⟩ | ⟨b', u', r', he, hu⟩
    · rw [he, bundle_recordAll_Error]
      exact Or.inl ⟨e, rfl⟩
    · rw [he]
      rcases ih key b' u' r' with ⟨e, he'⟩ | ⟨b'', u'', r'', he', hu'⟩
      · exact Or.inl ⟨e, he'⟩
      · refine Or.inr ⟨b'', u'', r'', he', fun r => ?_⟩
        rw [hu' r, hu r]
        simp only [List.mem_cons, exists_eq_or_imp]
        tauto

/-- The recording calls of a pass on an open context latch an error or leave the context open
with the usage records of all the calls in its usage set. -/
theorem pass_recordAll_usages (commands : List PassCommand) :
    ∀ (key : CompatibilityKey) (bindings : BindingState) (usages : List UsageRecord)
      (recorded : List PassCommand),
      (∃ e, PassContext.recordAll (.Open key bindings usages recorded) commands = .Error e) ∨
      ∃ bindings' usages' recorded',
        PassContext.recordAll (.Open key bindings usages recorded) commands =
          .Open key bindings' usages' recorded' ∧
        ∀ r, r ∈ usages' ↔ r ∈ usages ∨ ∃ c ∈ commands, r ∈ c.usages := by
  induction commands with
  | nil =>
    intro key bindings usages recorded
    exact Or.inr ⟨_, _, _, rfl, by simp⟩
  | cons c rest ih =>
    intro key bindings usages recorded
    have hcons : PassContext.recordAll (.Open key bindings usages recorded) (c :: rest) =
        PassContext.recordAll
          (PassContext.record (.Open key bindings usages recorded) c) rest := rfl
    rw [hcons]
    have hstep : (∃ e, PassContext.record (.Open key bindings usages recorded) c = .Error e) ∨
        ∃ bindings' usages' recorded',
          PassContext.record (.Open key bindings usages recorded) c =
            .Open key bindings' usages' recorded' ∧
          ∀ r, r ∈ usages' ↔ r ∈ usages ∨ r ∈ c.usages := by
      cases c with
      | render command => exact record_usages PassCommand.render key bindings usages recorded command
      | ExecuteBundles bundles => exact ExecuteBundles_usages key bindings usages recorded bundles
    rcases hstep with ⟨e, he⟩ | ⟨b', u', r', he, hu⟩
    · rw [he, pass_recordAll_Error]
      exact Or.inl ⟨e, rfl⟩
    · rw [he]
      rcases ih key b' u' r' with ⟨e, he'⟩ | ⟨b'', u'', r'', he', hu'⟩
      · exact Or.inl ⟨e, he'⟩
      · refine Or.inr ⟨b'', u'', r'', he', fun r => ?_⟩
        rw [hu' r, hu r]
        simp only [List.mem_cons, exists_eq_or_imp]
        tauto

/-- A storage-write use and a vertex-buffer use of one buffer are in hazard. -/
theorem storageWrite_conflicts_vertexInput (buffer : Nat) :
    UsageRecord.conflicts
      { resource := ResourceHandle.buffer buffer, kind := UsageKind.storageWrite }
      { resource := ResourceHandle.buffer buffer, kind := UsageKind.vertexInput } = true := by
  simp [UsageRecord.conflicts, ResourceHandle.overlaps, ResourceHandle.buffer,
    UsageKind.isWrite]

/-- Ending a pass keeps its deferred error. -/
theorem End_deferredError (ctx : PassContext) :
    (PassContext.End ctx).deferredError = ctx.deferredError := by
  cases ctx <;> rfl

/-- The command encoder of one pass finishes with the deferred error of the pass. -/
theorem finishPass_eq (key : CompatibilityKey) (commands : List PassCommand) :
    finishPass key commands =
      match (PassContext.recordAll (BeginPass key) commands).deferredError with
      | some e => .error e
      | none => .ok () := by
  unfold finishPass CommandEncoderFinish
  simp only [List.findSome?, End_deferredError]
  cases (PassContext.recordAll (BeginPass key) commands).deferredError <;> rfl

/-- A bundle that `Finish()` returned has the key of its encoder and a usage summary without
hazard. -/
theorem finishBundle_ok (key : CompatibilityKey) (commands : List RenderCommand)
    (bundle : Bundle) (h : finishBundle key commands = .ok bundle) :
    bundle.key = key ∧ firstHazard bundle.usages = none := by
  unfold finishBundle CreateBundleEncoder at h
  split at h
  · cases h
  · rename_i encoder henc
    split at henc
    · cases henc
    · simp only [Except.ok.injEq] at henc
      subst henc
      rcases bundle_recordAll_usages commands key BindingState.empty [] [] with
        ⟨e, he⟩ | ⟨b', u', r', he, _⟩
      · rw [he] at h
        cases h
      · rw [he] at h
        simp only [BundleContext.Finish] at h
        split at h
        · cases h
        · rename_i hnone
          simp only [Except.ok.injEq] at h
          subst h
          exact ⟨rfl, hnone⟩

/-- The usage summary of a bundle merged into an empty usage set has a hazard exactly when the
summary has one. -/
theorem firstHazard_mergeUsages_nil (summary : List UsageRecord) :
    firstHazard (mergeUsages [] summary) = none ↔ firstHazard summary = none :=
  firstHazard_congr _ _ (fun r => by simp [mem_mergeUsages])

/-- Executing one bundle without hazard in a fresh pass is valid exactly when the key of the
bundle is the key of the pass. -/
theorem finishPass_ExecuteBundles_one (key : CompatibilityKey) (bundle : Bundle)
    (hh : firstHazard bundle.usages = none) :
    finishPass key [PassCommand.ExecuteBundles [some bundle]] = .ok () ↔ bundle.key = key := by
  have hm : firstHazard (mergeBundles [] [some bundle]) = none := by
    simpa [mergeBundles] using (firstHazard_mergeUsages_nil bundle.usages).2 hh
  rw [finishPass_eq]
  simp only [PassContext.recordAll, List.foldl_cons, List.foldl_nil, PassContext.record,
    BeginPass, PassContext.ExecuteBundles, invalidBundle]
  cases hk : key.firstMismatch bundle.key with
  | some mismatch =>
    have hne : bundle.key ≠ key := by
      intro heq
      rw [(firstMismatch_eq_none_iff key bundle.key).2 heq] at hk
      cases hk
    simp [RecordingContext.deferredError, hne]
  | none =>
    have heq := (firstMismatch_eq_none_iff key bundle.key).1 hk
    simp [RecordingContext.deferredError, hm, heq]

/-- C22: hazard detection across bundles and pass. Whenever, within one render pass, a recording
call of the pass or a bundle it executes uses a buffer as a storage-write binding and another
one (a `SetVertexBuffer` of the pass, or an executed bundle) uses the same buffer as a vertex
buffer, in either order, `Finish()` of the command encoder fails; a bundle encoder on which the
buffer is recorded both ways fails at its own `Finish()`; every bundle that `Finish()` returned
executes successfully alone in a pass with its attachment configuration; and the two bundles
of the test `UsageTracking` are each valid. -/
theorem C22_storage_write_and_vertex_use_of_one_buffer_is_a_hazard
    (key : CompatibilityKey) (buffer : Nat) :
    (∀ commands : List PassCommand,
      (∃ c ∈ commands,
        { resource := ResourceHandle.buffer buffer, kind := UsageKind.storageWrite } ∈
          c.usages) →
      (∃ c ∈ commands,
        { resource := ResourceHandle.buffer buffer, kind := UsageKind.vertexInput } ∈
          c.usages) →
      ∃ e, finishPass key commands = .error e) ∧
    (∀ commands : List RenderCommand,
      (∃ c ∈ commands,
        { resource := ResourceHandle.buffer buffer, kind := UsageKind.storageWrite } ∈
          c.usages) →
      (∃ c ∈ commands,
        { resource := ResourceHandle.buffer buffer, kind := UsageKind.vertexInput } ∈
          c.usages) →
      ∃ e, finishBundle key commands = .error e) ∧
    (∀ (commands : List RenderCommand) (bundle : Bundle),
      finishBundle key commands = .ok bundle →
      finishPass key [PassCommand.ExecuteBundles [some bundle]] = .ok ()) ∧
    (finishBundle sampleKey sampleStorageCommands).toBool = true ∧
    (finishBundle sampleKey sampleVertexCommands).toBool = true := by
  refine ⟨?_, ?_, ?_, by decide, by decide⟩
  · intro commands hw hv
    rw [finishPass_eq]
    rcases pass_recordAll_usages commands key BindingState.empty [] [] with
      ⟨e, he⟩ | ⟨b', u', r', he, hu⟩
    · simp only [BeginPass, he, RecordingContext.deferredError]
      exact ⟨e, rfl⟩
    · obtain ⟨p, hp⟩ := firstHazard_of_conflict u' _ _
        ((hu _).2 (Or.inr hw)) ((hu _).2 (Or.inr hv))
        (storageWrite_conflicts_vertexInput buffer)
      simp only [BeginPass, he, RecordingContext.deferredError, hp, Option.map_some']
      exact ⟨_, rfl⟩
  · intro commands hw hv
    unfold finishBundle CreateBundleEncoder
    split
    · rename_i e _
      exact ⟨e, rfl⟩
    · rename_i encoder henc
      split at henc
      · cases henc
      · simp only [Except.ok.injEq] at henc
        subst henc
        rcases bundle_recordAll_usages commands key BindingState.empty [] [] with
          ⟨e, he⟩ | ⟨b', u', r', he, hu⟩
        · rw [he]
          exact ⟨e, rfl⟩
        · obtain ⟨p, hp⟩ := firstHazard_of_conflict u' _ _
            ((hu _).2 (Or.inr hw)) ((hu _).2 (Or.inr hv))
            (storageWrite_conflicts_vertexInput buffer)
          rw [he]
          simp only [BundleContext.Finish, hp]
          exact ⟨_, rfl⟩
  · intro commands bundle h
    obtain ⟨hk, hh⟩ := finishBundle_ok key commands bundle h
    exact (finishPass_ExecuteBundles_one key bundle hh).2 hk

/-- C22, witness: the cases of the test `UsageTracking`: the two bundles executed in one pass;
one bundle on which the buffer is recorded both ways; and the first bundle alone in a pass of
its own. -/
theorem C22_storage_write_and_vertex_use_of_one_buffer_is_a_hazard_witness :
    (∃ e, finishPass sampleKey
      [executeOutcomes [finishBundle sampleKey sampleStorageCommands],
        executeOutcomes [finishBundle sampleKey sampleVertexCommands]] = .error e) ∧
    (∃ e, finishBundle sampleKey
      [.SetPipeline samplePipeline, .SetBindGroup 0 sampleBindGroup0,
        .SetBindGroup 1 sampleBindGroup1Vertex, .SetVertexBuffer 0 sampleVertexStorageBuffer,
        .Draw] = .error e) ∧
    finishPass sampleKey
      [PassCommand.ExecuteBundles
        [some
          { key := sampleKey
            commands := sampleStorageCommands
            usages :=
              [ { resource := ResourceHandle.buffer 1, kind := UsageKind.readOnlyUniform },
                { resource := ResourceHandle.buffer 4, kind := UsageKind.storageWrite },
                { resource := ResourceHandle.buffer 2, kind := UsageKind.vertexInput } ] }]]
      = .ok () :=
  ⟨(C22_storage_write_and_vertex_use_of_one_buffer_is_a_hazard sampleKey 4).1 _
      ⟨executeOutcomes [finishBundle sampleKey sampleStorageCommands], by simp, by decide⟩
      ⟨executeOutcomes [finishBundle sampleKey sampleVertexCommands], by simp, by decide⟩,
    (C22_storage_write_and_vertex_use_of_one_buffer_is_a_hazard sampleKey 4).2.1 _
      ⟨.SetBindGroup 1 sampleBindGroup1Vertex, by simp, by decide⟩
      ⟨.SetVertexBuffer 0 sampleVertexStorageBuffer, by simp, by decide⟩,
    (C22_storage_write_and_vertex_use_of_one_buffer_is_a_hazard sampleKey 4).2.2.1
      sampleStorageCommands _ rfl⟩

/-- C23: pipeline and bundle compatibility. On a bundle encoder whose `Finish()` would succeed,
`Finish()` after a recorded `SetPipeline` succeeds if and only if the key of the pipeline equals
the key of the encoder, that is, the lists of colour formats are equal (in order and in count),
the optional depth-stencil formats are equal and the sample counts are equal; so a differing
list of colour formats, a differing or missing depth-stencil format, or a differing sample
count each make `Finish()` fail. -/
theorem C23_SetPipeline_requires_the_key_of_the_bundle_encoder
    (key : CompatibilityKey) (bindings : BindingState) (usages : List UsageRecord)
    (commands : List RenderCommand) (pipeline : Pipeline)
    (hvalid : (BundleContext.Finish (.Open key bindings usages commands)).2.toBool = true) :
    ((BundleContext.Finish
        (BundleContext.record (.Open key bindings usages commands)
          (.SetPipeline pipeline))).2.toBool = true ↔ pipeline.key = key) ∧
    (pipeline.key = key ↔
      pipeline.key.colorFormats = key.colorFormats ∧
      pipeline.key.depthStencilFormat = key.depthStencilFormat ∧
      pipeline.key.sampleCount = key.sampleCount) ∧
    (pipeline.key.colorFormats ≠ key.colorFormats ∨
      pipeline.key.depthStencilFormat ≠ key.depthStencilFormat ∨
      pipeline.key.sampleCount ≠ key.sampleCount →
      ∃ mismatch,
        (BundleContext.Finish
          (BundleContext.record (.Open key bindings usages commands)
            (.SetPipeline pipeline))).2 =
          .error (RecordingError.incompatiblePipeline mismatch)) := by
  have hh : firstHazard usages = none := by
    simp only [BundleContext.Finish] at hvalid
    split at hvalid
    · simp [Except.toBool] at hvalid
    · assumption
  have hkey : pipeline.key = key ↔
      pipeline.key.colorFormats = key.colorFormats ∧
      pipeline.key.depthStencilFormat = key.depthStencilFormat ∧
      pipeline.key.sampleCount = key.sampleCount := by
    constructor
    · intro h; rw [h]; exact ⟨rfl, rfl, rfl⟩
    · rintro ⟨h1, h2, h3⟩
      cases hp : pipeline.key
      cases key
      rw [hp] at h1 h2 h3
      simp only at h1 h2 h3
      subst h1; subst h2; subst h3
      rfl
  refine ⟨?_, hkey, ?_⟩
  · simp only [BundleContext.record, RecordingContext.record]
    cases hk : key.firstMismatch pipeline.key with
    | some mismatch =>
      have hne : pipeline.key ≠ key := by
        intro heq
        rw [(firstMismatch_eq_none_iff key pipeline.key).2 heq] at hk
        cases hk
      simp [BundleContext.Finish, Except.toBool, hne]
    | none =>
      have heq := (firstMismatch_eq_none_iff key pipeline.key).1 hk
      simp [BundleContext.Finish, Except.toBool, hh, heq]
  · intro hdiff
    have hne : pipeline.key ≠ key := by
      intro heq
      have := hkey.1 heq
      rcases hdiff with h | h | h
      · exact h this.1
      · exact h this.2.1
      · exact h this.2.2
    simp only [BundleContext.record, RecordingContext.record]
    cases hk : key.firstMismatch pipeline.key with
    | some mismatch => exact ⟨mismatch, rfl⟩
    | none => exact absurd ((firstMismatch_eq_none_iff key pipeline.key).1 hk) hne

/-- C23, witness: the test `PipelineColorFormatMismatch`: on the encoder with three colour
formats, the pipeline with the same three formats is accepted. -/
theorem C23_SetPipeline_requires_the_key_of_the_bundle_encoder_witness :
    (BundleContext.Finish
      (BundleContext.record (.Open sampleKey3 BindingState.empty [] [])
        (.SetPipeline { samplePipeline with key := sampleKey3 }))).2.toBool = true :=
  ((C23_SetPipeline_requires_the_key_of_the_bundle_encoder sampleKey3 BindingState.empty [] []
    { samplePipeline with key := sampleKey3 } (by decide)).1).2 rfl

/-- C24: bundle and pass compatibility. For every bundle that `Finish()` returned on an encoder
created for a key, executing it in a pass is valid if and only if the key of the bundle equals
the key of the pass, that is, the lists of colour formats are equal (in order and in count), the
optional depth-stencil formats are equal and the sample counts are equal; so a pass with a
different list of colour attachments, with a different or no depth-stencil format, or with a
different sample count makes `Finish()` of the command encoder fail, with an error that names
the bundle and the mismatch, whatever is bound and recorded on the pass before and after. -/
theorem C24_ExecuteBundles_requires_the_key_of_the_pass
    (bundleKey : CompatibilityKey) (commands : List RenderCommand) (bundle : Bundle)
    (hfinished : finishBundle bundleKey commands = .ok bundle) (passKey : CompatibilityKey) :
    bundle.key = bundleKey ∧
    (finishPass passKey [PassCommand.ExecuteBundles [some bundle]] = .ok () ↔
      bundleKey = passKey) ∧
    (bundleKey = passKey ↔
      bundleKey.colorFormats = passKey.colorFormats ∧
      bundleKey.depthStencilFormat = passKey.depthStencilFormat ∧
      bundleKey.sampleCount = passKey.sampleCount) ∧
    (bundleKey.colorFormats ≠ passKey.colorFormats ∨
      bundleKey.depthStencilFormat ≠ passKey.depthStencilFormat ∨
      bundleKey.sampleCount ≠ passKey.sampleCount →
      ∃ mismatch,
        finishPass passKey [PassCommand.ExecuteBundles [some bundle]] =
          .error (RecordingError.incompatibleBundle 0 mismatch)) ∧
    (bundleKey ≠ passKey →
      ∀ (bindings : BindingState) (usages : List UsageRecord)
        (recorded after : List PassCommand),
        ∃ mismatch,
          CommandEncoderFinish
            [PassContext.End (PassContext.recordAll
              (PassContext.ExecuteBundles (.Open passKey bindings usages recorded)
                [some bundle]) after)] =
            .error (RecordingError.incompatibleBundle 0 mismatch)) := by
  obtain ⟨hk, hh⟩ := finishBundle_ok bundleKey commands bundle hfinished
  have hkey : bundleKey = passKey ↔
      bundleKey.colorFormats = passKey.colorFormats ∧
      bundleKey.depthStencilFormat = passKey.depthStencilFormat ∧
      bundleKey.sampleCount = passKey.sampleCount := by
    constructor
    · intro h; rw [h]; exact ⟨rfl, rfl, rfl⟩
    · rintro ⟨h1, h2, h3⟩
      cases bundleKey
      cases passKey
      simp only at h1 h2 h3
      subst h1; subst h2; subst h3
      rfl
  refine ⟨hk, ?_, hkey, ?_, ?_⟩
  · rw [← hk]
    exact finishPass_ExecuteBundles_one passKey bundle hh
  · intro hdiff
    have hne : bundle.key ≠ passKey := by
      rw [hk]
      intro heq
      have := hkey.1 heq
      rcases hdiff with h | h | h
      · exact h this.1
      · exact h this.2.1
      · exact h this.2.2
    rw [finishPass_eq]
    simp only [PassContext.recordAll, List.foldl_cons, List.foldl_nil, PassContext.record,
      BeginPass, PassContext.ExecuteBundles, invalidBundle]
    cases hm : passKey.firstMismatch bundle.key with
    | some mismatch => exact ⟨mismatch, rfl⟩
    | none => exact absurd ((firstMismatch_eq_none_iff passKey bundle.key).1 hm) hne
  · intro hne bindings usages recorded after
    rw [← hk] at hne
    cases hm : passKey.firstMismatch bundle.key with
    | none => exact absurd ((firstMismatch_eq_none_iff passKey bundle.key).1 hm) hne
    | some mismatch =>
      refine ⟨mismatch, ?_⟩
      simp only [PassContext.ExecuteBundles, invalidBundle, hm, pass_recordAll_Error]
      rfl

/-- C24, witness: the test `RenderPassColorFormatMismatch`: the empty bundle recorded for three
colour formats executes in the pass with the same three formats, and fails in a pass whose third
format differs. -/
theorem C24_ExecuteBundles_requires_the_key_of_the_pass_witness :
    finishPass sampleKey3
      [PassCommand.ExecuteBundles [some { key := sampleKey3, commands := [], usages := [] }]]
      = .ok () ∧
    ∃ mismatch,
      finishPass
        { sampleKey3 with
          colorFormats :=
            [wgpu.TextureFormat.RGBA8Unorm, wgpu.TextureFormat.other 2,
              wgpu.TextureFormat.RGBA8Unorm] }
        [PassCommand.ExecuteBundles [some { key := sampleKey3, commands := [], usages := [] }]]
        = .error (RecordingError.incompatibleBundle 0 mismatch) :=
  ⟨((C24_ExecuteBundles_requires_the_key_of_the_pass sampleKey3 [] _ rfl sampleKey3).2.1).2 rfl,
    (C24_ExecuteBundles_requires_the_key_of_the_pass sampleKey3 [] _ rfl
      { sampleKey3 with
        colorFormats :=
          [wgpu.TextureFormat.RGBA8Unorm, wgpu.TextureFormat.other 2,
            wgpu.TextureFormat.RGBA8Unorm] }).2.2.2.1 (Or.inl (by decide))⟩

/-- The deferred error of a context does not depend on its recorded commands. -/
theorem deferredError_withoutCommands {Cmd : Type} (ctx ctx' : RecordingContext Cmd)
    (h : ctx.withoutCommands = ctx'.withoutCommands) :
    ctx.deferredError = ctx'.deferredError := by
  cases ctx <;> cases ctx' <;> simp only [RecordingContext.withoutCommands] at h <;>
    cases h <;> rfl

/-- A list of copies of one bundle is validated like the bundle alone. -/
theorem invalidBundle_replicate (key : CompatibilityKey) (bundle : Bundle) (count : Nat) :
    invalidBundle key (List.replicate (count + 1) (some bundle)) 0 =
      invalidBundle key [some bundle] 0 := by
  cases hk : key.firstMismatch bundle.key with
  | some mismatch => simp [List.replicate, invalidBundle, hk]
  | none =>
    have : ∀ (n index : Nat), invalidBundle key (List.replicate n (some bundle)) index = none := by
      intro n
      induction n with
      | zero => intro index; rfl
      | succ n ih => intro index; simp [List.replicate, invalidBundle, hk, ih]
    rw [this]
    simp [invalidBundle, hk]

/-- Merging the usage summary of one bundle several times is merging it once. -/
theorem mergeBundles_replicate (usages : List UsageRecord) (bundle : Bundle) (count : Nat) :
    mergeBundles usages (List.replicate (count + 1) (some bundle)) =
      mergeUsages usages bundle.usages := by
  induction count with
  | zero => rfl
  | succ n ih =>
    have : mergeBundles usages (List.replicate (n + 1 + 1) (some bundle)) =
        mergeUsages (mergeBundles usages (List.replicate (n + 1) (some bundle)))
          bundle.usages := by
      rw [List.replicate_succ']
      simp [mergeBundles, List.foldl_append]
    rw [this, ih, mergeUsages_idempotent]

/-- Executing copies of one bundle in one call leaves the pass as executing it once does. -/
theorem ExecuteBundles_replicate (ctx : PassContext) (bundle : Bundle) (count : Nat)
    (hpos : 1 ≤ count) :
    (PassContext.ExecuteBundles ctx (List.replicate count (some bundle))).withoutCommands =
      (PassContext.ExecuteBundles ctx [some bundle]).withoutCommands := by
  obtain ⟨n, rfl⟩ : ∃ n, count = n + 1 := ⟨count - 1, by omega⟩
  cases ctx with
  | Error e => rfl
  | Finished o => rfl
  | Open key bindings usages recorded =>
    have hi := invalidBundle_replicate key bundle n
    have hm := mergeBundles_replicate usages bundle n
    have hm1 : mergeBundles usages [some bundle] = mergeUsages usages bundle.usages := rfl
    rw [List.replicate_succ] at hi hm ⊢
    simp only [PassContext.ExecuteBundles, hi, hm, hm1]
    cases invalidBundle key [some bundle] 0 with
    | some e => rfl
    | none =>
      cases firstHazard (mergeUsages usages bundle.usages) with
      | some p => rfl
      | none => rfl

/-- Executing a bundle once more leaves the pass as it is after the first execution. -/
theorem ExecuteBundles_again (ctx : PassContext) (bundle : Bundle) :
    (PassContext.ExecuteBundles (PassContext.ExecuteBundles ctx [some bundle])
      [some bundle]).withoutCommands =
      (PassContext.ExecuteBundles ctx [some bundle]).withoutCommands := by
  cases ctx with
  | Error e => rfl
  | Finished o => rfl
  | Open key bindings usages recorded =>
    have hm1 : ∀ u, mergeBundles u [some bundle] = mergeUsages u bundle.usages := fun _ => rfl
    simp only [PassContext.ExecuteBundles, hm1]
    cases hi : invalidBundle key [some bundle] 0 with
    | some e => rfl
    | none =>
      cases hh : firstHazard (mergeUsages usages bundle.usages) with
      | some p => rfl
      | none =>
        simp only [PassContext.ExecuteBundles, hm1, hi, mergeUsages_idempotent, hh]
        rfl

/-- Executing one bundle any number of times, in one or in several calls, leaves the pass as
executing it once does. -/
theorem recordAll_executeRepeatedly (bundle : Bundle) (counts : List Nat)
    (hpos : ∀ count ∈ counts, 1 ≤ count) :
    ∀ ctx ctx' : PassContext,
      ctx'.withoutCommands =
        (PassContext.ExecuteBundles ctx [some bundle]).withoutCommands →
      (PassContext.recordAll ctx' (executeRepeatedly bundle counts)).withoutCommands =
        (PassContext.ExecuteBundles ctx [some bundle]).withoutCommands := by
  induction counts with
  | nil => intro ctx ctx' h; exact h
  | cons count rest ih =>
    intro ctx ctx' h
    have hcons : PassContext.recordAll ctx' (executeRepeatedly bundle (count :: rest)) =
        PassContext.recordAll
          (PassContext.ExecuteBundles ctx' (List.replicate count (some bundle)))
          (executeRepeatedly bundle rest) := rfl
    rw [hcons]
    apply ih (fun k hk => hpos k (by simp [hk])) ctx
    rw [ExecuteBundles_replicate ctx' bundle count (hpos count (by simp)),
      ExecuteBundles_withoutCommands ctx' _ [some bundle] h, ExecuteBundles_again]

/-- C25: repetition is never a hazard. For every bundle and every way of executing it at least
once in one pass, any number of times per `ExecuteBundles` call and in any number of calls,
`Finish()` of the command encoder has the same outcome as with one execution of the bundle in
that place, whatever is recorded on the pass before and after; merging the usage summary of the
bundle into a usage set that already holds it changes nothing; and two bundles that `Finish()`
returned with identical usages, for the key of the pass, are valid when executed together. -/
theorem C25_repeated_execution_is_no_hazard (key : CompatibilityKey) (bundle : Bundle)
    (counts : List Nat) (hsome : counts ≠ []) (hpos : ∀ count ∈ counts, 1 ≤ count) :
    (∀ before after : List PassCommand,
      finishPass key (before ++ executeRepeatedly bundle counts ++ after) =
        finishPass key (before ++ [PassCommand.ExecuteBundles [some bundle]] ++ after)) ∧
    (∀ usages : List UsageRecord,
      mergeUsages (mergeUsages usages bundle.usages) bundle.usages =
        mergeUsages usages bundle.usages) ∧
    ∀ (commands commands' : List RenderCommand) (other : Bundle),
      finishBundle key commands = .ok bundle → finishBundle key commands' = .ok other →
      other.usages = bundle.usages →
      finishPass key [PassCommand.ExecuteBundles [some bundle, some other]] = .ok () := by
  refine ⟨?_, fun usages => mergeUsages_idempotent usages bundle.usages, ?_⟩
  · intro before after
    rw [finishPass_eq, finishPass_eq]
    have hsplit : ∀ middle : List PassCommand,
        PassContext.recordAll (BeginPass key) (before ++ middle ++ after) =
          PassContext.recordAll
            (PassContext.recordAll (PassContext.recordAll (BeginPass key) before) middle)
            after := by
      intro middle
      simp [PassContext.recordAll, List.foldl_append]
    rw [hsplit, hsplit]
    have hmid : (PassContext.recordAll (PassContext.recordAll (BeginPass key) before)
        (executeRepeatedly bundle counts)).withoutCommands =
        (PassContext.recordAll (PassContext.recordAll (BeginPass key) before)
          [PassCommand.ExecuteBundles [some bundle]]).withoutCommands := by
      cases counts with
      | nil => exact absurd rfl hsome
      | cons count rest =>
        have hcons : PassContext.recordAll (PassContext.recordAll (BeginPass key) before)
            (executeRepeatedly bundle (count :: rest)) =
            PassContext.recordAll
              (PassContext.ExecuteBundles (PassContext.recordAll (BeginPass key) before)
                (List.replicate count (some bundle)))
              (executeRepeatedly bundle rest) := rfl
        rw [hcons]
        exact recordAll_executeRepeatedly bundle rest (fun k hk => hpos k (by simp [hk])) _ _
          (ExecuteBundles_replicate _ bundle count (hpos count (by simp)))
    rw [deferredError_withoutCommands _ _
      (pass_recordAll_withoutCommands after _ _ hmid)]
  · intro commands commands' other hb ho hu
    obtain ⟨hk, hh⟩ := finishBundle_ok key commands bundle hb
    obtain ⟨hk', _⟩ := finishBundle_ok key commands' other ho
    have hm : mergeBundles [] [some bundle, some other] = mergeUsages [] bundle.usages := by
      simp only [mergeBundles, List.foldl_cons, List.foldl_nil, hu]
      exact mergeUsages_idempotent [] bundle.usages
    have hnone := (firstHazard_mergeUsages_nil bundle.usages).2 hh
    have hc : key.firstMismatch bundle.key = none :=
      (firstMismatch_eq_none_iff key bundle.key).2 hk
    have hc' : key.firstMismatch other.key = none :=
      (firstMismatch_eq_none_iff key other.key).2 hk'
    rw [finishPass_eq]
    simp [PassContext.recordAll, PassContext.record, BeginPass, PassContext.ExecuteBundles,
      invalidBundle, hc, hc', hm, hnone, RecordingContext.deferredError]

/-- C25, witness: the tests `ExecuteMultipleTimes` and `MultipleBundles`: the bundle of
`SimpleSuccess` executed in three calls, and twice in one call, has the outcome of one
execution. -/
theorem C25_repeated_execution_is_no_hazard_witness :
    finishPass sampleKey
      ([] ++ executeRepeatedly
        { key := sampleKey, commands := sampleCompleteCommands,
          usages :=
            [ { resource := ResourceHandle.buffer 1, kind := UsageKind.readOnlyUniform },
              { resource := ResourceHandle.buffer 3, kind := UsageKind.storageWrite },
              { resource := ResourceHandle.buffer 2, kind := UsageKind.vertexInput } ] }
        [1, 1, 1] ++ []) =
      finishPass sampleKey
        ([] ++ [PassCommand.ExecuteBundles
          [some
            { key := sampleKey, commands := sampleCompleteCommands,
              usages :=
                [ { resource := ResourceHandle.buffer 1, kind := UsageKind.readOnlyUniform },
                  { resource := ResourceHandle.buffer 3, kind := UsageKind.storageWrite },
                  { resource := ResourceHandle.buffer 2, kind := UsageKind.vertexInput } ] }]]
          ++ []) ∧
    finishPass sampleKey
      [PassCommand.ExecuteBundles
        [some
          { key := sampleKey, commands := sampleCompleteCommands,
            usages :=
              [ { resource := ResourceHandle.buffer 1, kind := UsageKind.readOnlyUniform },
                { resource := ResourceHandle.buffer 3, kind := UsageKind.storageWrite },
                { resource := ResourceHandle.buffer 2, kind := UsageKind.vertexInput } ] },
          some
          { key := sampleKey, commands := sampleCompleteCommands,
            usages :=
              [ { resource := ResourceHandle.buffer 1, kind := UsageKind.readOnlyUniform },
                { resource := ResourceHandle.buffer 3, kind := UsageKind.storageWrite },
                { resource := ResourceHandle.buffer 2, kind := UsageKind.vertexInput } ] }]]
      = .ok () :=
  ⟨(C25_repeated_execution_is_no_hazard sampleKey _ [1, 1, 1] (by simp)
      (by intro count h; simp at h; omega)).1 [] [],
    (C25_repeated_execution_is_no_hazard sampleKey _ [2] (by simp)
      (by intro count h; simp at h; omega)).2.2 sampleCompleteCommands sampleCompleteCommands _
      rfl rfl rfl⟩

/-- After `Finish()` a bundle context is finished. -/
theorem Finish_isFinished (ctx : BundleContext) :
    (BundleContext.Finish ctx).1.isFinished = true := by
  cases ctx with
  | Error e => rfl
  | Finished o => rfl
  | Open key bindings usages recorded =>
    simp only [BundleContext.Finish]
    split <;> rfl

/-- On a finished bundle context `Finish()` fails and leaves the context as it is. -/
theorem Finish_of_isFinished (ctx : BundleContext) (h : ctx.isFinished = true) :
    (BundleContext.Finish ctx).2 = .error RecordingError.contextFinished ∧
    (BundleContext.Finish ctx).1 = ctx := by
  cases ctx with
  | Error e => simp [RecordingContext.isFinished] at h
  | Open key bindings usages recorded => simp [RecordingContext.isFinished] at h
  | Finished o => exact ⟨rfl, rfl⟩

/-- Further calls of `Finish()` leave a finished bundle context finished. -/
theorem finishAgain_isFinished (count : Nat) :
    ∀ ctx : BundleContext, ctx.isFinished = true → (finishAgain count ctx).isFinished = true := by
  induction count with
  | zero => intro ctx h; exact h
  | succ n ih =>
    intro ctx h
    simp only [finishAgain]
    exact ih _ (Finish_isFinished ctx)

/-- On a bundle context that has not finished, `Finish()` returns the deferred error of the
context, or a bundle when there is none. -/
theorem Finish_eq_deferredError (ctx : BundleContext) (h : ctx.isFinished = false) :
    (∀ e, ctx.deferredError = some e → (BundleContext.Finish ctx).2 = .error e) ∧
    (ctx.deferredError = none → ∃ bundle, (BundleContext.Finish ctx).2 = .ok bundle) := by
  cases ctx with
  | Finished o => simp [RecordingContext.isFinished] at h
  | Error e =>
    refine ⟨?_, ?_⟩
    · intro e' he
      simp only [RecordingContext.deferredError, Option.some.injEq] at he
      subst he
      rfl
    · intro he
      simp [RecordingContext.deferredError] at he
  | Open key bindings usages recorded =>
    simp only [RecordingContext.deferredError, BundleContext.Finish]
    cases firstHazard usages with
    | some p =>
      refine ⟨?_, ?_⟩
      · intro e he
        simp only [Option.map_some', Option.some.injEq] at he
        subst he
        rfl
      · intro he
        simp at he
    | none =>
      refine ⟨?_, ?_⟩
      · intro e he
        simp at he
      · intro _
        exact ⟨_, rfl⟩

/-- C26: a recording context can be finished exactly once. For every render bundle encoder, the
first `Finish()` on an encoder that has not finished and carries no deferred error (no latched
error and no hazard in its usage set) succeeds; and every later `Finish()` on the same encoder,
whatever recording calls and `Finish()` calls were made in between, is the validation error of
a context that has already finished. -/
theorem C26_bundle_encoder_finishes_exactly_once (encoder : BundleContext) :
    (encoder.isFinished = false → encoder.deferredError = none →
      ∃ bundle, (BundleContext.Finish encoder).2 = .ok bundle) ∧
    (BundleContext.Finish (BundleContext.Finish encoder).1).2 =
      .error RecordingError.contextFinished ∧
    (∀ (count : Nat) (commands : List RenderCommand),
      (BundleContext.Finish
        (BundleContext.recordAll (finishAgain count (BundleContext.Finish encoder).1)
          commands)).2 = .error RecordingError.contextFinished) := by
  refine ⟨fun hf hd => (Finish_eq_deferredError encoder hf).2 hd,
    (Finish_of_isFinished _ (Finish_isFinished encoder)).1, ?_⟩
  intro count commands
  apply (Finish_of_isFinished _ _).1
  rw [bundle_recordAll_isFinished]
  exact finishAgain_isFinished count _ (Finish_isFinished encoder)

/-- C26, witness: the test `FinishTwice`: on a new encoder the first `Finish()` succeeds and the
second fails. -/
theorem C26_bundle_encoder_finishes_exactly_once_witness :
    (∃ bundle,
      (BundleContext.Finish (.Open sampleKey BindingState.empty [] [])).2 = .ok bundle) ∧
    (BundleContext.Finish
      (BundleContext.Finish (.Open sampleKey BindingState.empty [] [])).1).2 =
      .error RecordingError.contextFinished :=
  ⟨(C26_bundle_encoder_finishes_exactly_once (.Open sampleKey BindingState.empty [] [])).1
      rfl rfl,
    (C26_bundle_encoder_finishes_exactly_once (.Open sampleKey BindingState.empty [] [])).2.1⟩

/-- The recording calls of a bundle on an open context latch an error or leave the context open
with their commands recorded. -/
theorem bundle_recordAll_commands (commands : List RenderCommand) :
    ∀ (key : CompatibilityKey) (bindings : BindingState) (usages : List UsageRecord)
      (recorded : List RenderCommand),
      (∃ e, BundleContext.recordAll (.Open key bindings usages recorded) commands = .Error e) ∨
      ∃ bindings' usages',
        BundleContext.recordAll (.Open key bindings usages recorded) commands =
          .Open key bindings' usages' (recorded ++ commands) := by
  induction commands with
  | nil =>
    intro key bindings usages recorded
    exact Or.inr ⟨bindings, usages, by simp [BundleContext.recordAll]⟩
  | cons c rest ih =>
    intro key bindings usages recorded
    have hcons : BundleContext.recordAll (.Open key bindings usages recorded) (c :: rest) =
        BundleContext.recordAll
          (RecordingContext.record id (.Open key bindings usages recorded) c) rest := rfl
    rw [hcons]
    have hstep : (∃ e, RecordingContext.record id (.Open key bindings usages recorded) c =
          .Error e) ∨
        ∃ bindings' usages',
          RecordingContext.record id (.Open key bindings usages recorded) c =
            .Open key bindings' usages' (recorded ++ [c]) := by
      cases c <;> simp only [RecordingContext.record] <;> (try split) <;>
        first
        | exact Or.inl ⟨_, rfl⟩
        | exact Or.inr ⟨_, _, rfl⟩
    rcases hstep with ⟨e, he⟩ | ⟨b', u', he⟩
    · rw [he, bundle_recordAll_Error]
      exact Or.inl ⟨e, rfl⟩
    · rw [he]
      rcases ih key b' u' (recorded ++ [c]) with ⟨e, he'⟩ | ⟨b'', u'', he'⟩
      · exact Or.inl ⟨e, he'⟩
      · exact Or.inr ⟨b'', u'', by simpa using he'⟩

/-- C27: deferred error latching. In a bundle context and in a pass context, once a recording
call has latched a validation failure, the context holds that error whatever recording calls
follow, and `Finish()` (of the bundle, or of the command encoder of the pass) returns exactly
that error; and on an open bundle context, a sequence of recording calls after which the
context carries no deferred error (no call latched an error and the usage set has no hazard)
makes `Finish()` succeed, with a bundle that holds the recorded commands. -/
theorem C27_first_validation_failure_is_latched :
    (∀ (encoder : BundleContext) (before after : List RenderCommand) (failing : RenderCommand)
      (e : RecordingError),
      BundleContext.record (BundleContext.recordAll encoder before) failing = .Error e →
      BundleContext.recordAll encoder (before ++ failing :: after) = .Error e ∧
      BundleContext.Finish (BundleContext.recordAll encoder (before ++ failing :: after)) =
        (.Finished (some e), .error e)) ∧
    (∀ (pass : PassContext) (before after : List PassCommand) (failing : PassCommand)
      (e : RecordingError),
      PassContext.record (PassContext.recordAll pass before) failing = .Error e →
      PassContext.recordAll pass (before ++ failing :: after) = .Error e ∧
      CommandEncoderFinish
        [PassContext.End (PassContext.recordAll pass (before ++ failing :: after))] =
        .error e) ∧
    (∀ (key : CompatibilityKey) (bindings : BindingState) (usages : List UsageRecord)
      (recorded commands : List RenderCommand),
      (BundleContext.recordAll (.Open key bindings usages recorded) commands).deferredError =
        none →
      ∃ bundle,
        (BundleContext.Finish
          (BundleContext.recordAll (.Open key bindings usages recorded) commands)).2 =
          .ok bundle ∧
        bundle.key = key ∧ bundle.commands = recorded ++ commands) := by
  refine ⟨?_, ?_, ?_⟩
  · intro encoder before after failing e h
    have hsplit : BundleContext.recordAll encoder (before ++ failing :: after) =
        BundleContext.recordAll
          (BundleContext.record (BundleContext.recordAll encoder before) failing) after := by
      simp [BundleContext.recordAll, List.foldl_append]
    rw [hsplit, h, bundle_recordAll_Error]
    exact ⟨rfl, rfl⟩
  · intro pass before after failing e h
    have hsplit : PassContext.recordAll pass (before ++ failing :: after) =
        PassContext.recordAll
          (PassContext.record (PassContext.recordAll pass before) failing) after := by
      simp [PassContext.recordAll, List.foldl_append]
    rw [hsplit, h, pass_recordAll_Error]
    exact ⟨rfl, rfl⟩
  · intro key bindings usages recorded commands hd
    rcases bundle_recordAll_commands commands key bindings usages recorded with
      ⟨e, he⟩ | ⟨b', u', he⟩
    · rw [he] at hd
      cases hd
    · rw [he] at hd ⊢
      simp only [RecordingContext.deferredError, Option.map_eq_none'] at hd
      simp only [BundleContext.Finish, hd]
      exact ⟨_, rfl, rfl, rfl⟩

/-- C27, witness: the first case of the test `StateInheritance`: the draw without a pipeline
latches its error, the calls after it do not change it, and `Finish()` returns it. -/
theorem C27_first_validation_failure_is_latched_witness :
    BundleContext.recordAll (.Open sampleKey BindingState.empty [] [])
      (sampleCommandsWithoutPipeline ++ RenderCommand.Draw ::
        [RenderCommand.SetPipeline samplePipeline, RenderCommand.Draw]) =
      .Error RecordingError.pipelineNotBound ∧
    BundleContext.Finish
      (BundleContext.recordAll (.Open sampleKey BindingState.empty [] [])
        (sampleCommandsWithoutPipeline ++ RenderCommand.Draw ::
          [RenderCommand.SetPipeline samplePipeline, RenderCommand.Draw])) =
      (.Finished (some RecordingError.pipelineNotBound),
        .error RecordingError.pipelineNotBound) :=
  C27_first_validation_failure_is_latched.1 (.Open sampleKey BindingState.empty [] [])
    sampleCommandsWithoutPipeline
    [RenderCommand.SetPipeline samplePipeline, RenderCommand.Draw] RenderCommand.Draw
    RecordingError.pipelineNotBound rfl

end dawn.recording

namespace tint.sem

open tint.utils

/-- What `UniqueVector::add` leaves in the vector: the item and what was there. -/
theorem mem_add {T : Type} [DecidableEq T] (self : UniqueVector T) (item x : T) :
    x ∈ (self.add item).vector ↔ x ∈ self.vector ∨ x = item := by
  unfold UniqueVector.add
  split
  · constructor
    · exact Or.inl
    · rintro (h | h)
      · exact h
      · subst h; assumption
  · simp

/-- One call keeps every directly referenced global among the transitively referenced ones. -/
theorem afterCall_direct_subset_transitive (f : Function) (call : FunctionCall)
    (h : ∀ g ∈ f.DirectlyReferencedGlobals.vector, g ∈ f.TransitivelyReferencedGlobals.vector) :
    ∀ g ∈ (f.afterCall call).DirectlyReferencedGlobals.vector,
      g ∈ (f.afterCall call).TransitivelyReferencedGlobals.vector := by
  intro g hg
  cases call with
  | AddDirectlyReferencedGlobal global =>
    simp only [Function.afterCall, Function.AddDirectlyReferencedGlobal,
      Function.DirectlyReferencedGlobals, Function.TransitivelyReferencedGlobals,
      mem_add] at hg ⊢
    rcases hg with hg | hg
    · exact Or.inl (h g hg)
    · exact Or.inr hg
  | AddTransitivelyReferencedGlobal global =>
    simp only [Function.afterCall, Function.AddTransitivelyReferencedGlobal,
      Function.DirectlyReferencedGlobals, Function.TransitivelyReferencedGlobals,
      mem_add] at hg ⊢
    exact Or.inl (h g hg)
  | _ => exact h g hg

/-- Every sequence of calls keeps every directly referenced global among the transitively
referenced ones. -/
theorem afterCalls_direct_subset_transitive (calls : List FunctionCall) :
    ∀ f : Function,
      (∀ g ∈ f.DirectlyReferencedGlobals.vector,
        g ∈ f.TransitivelyReferencedGlobals.vector) →
      ∀ g ∈ (f.afterCalls calls).DirectlyReferencedGlobals.vector,
        g ∈ (f.afterCalls calls).TransitivelyReferencedGlobals.vector := by
  induction calls with
  | nil => intro f h; exact h
  | cons c rest ih =>
    intro f h
    exact ih (f.afterCall c) (afterCall_direct_subset_transitive f c h)

/-- The direct calls after a sequence of calls: those before it and then those that
`AddDirectCall` was given, in order. -/
theorem afterCalls_DirectCallStatements (calls : List FunctionCall) :
    ∀ f : Function,
      (f.afterCalls calls).DirectCallStatements =
        f.DirectCallStatements ++ directCallsOf calls := by
  induction calls with
  | nil => intro f; simp [Function.afterCalls, directCallsOf]
  | cons c rest ih =>
    intro f
    have := ih (f.afterCall c)
    simp only [Function.afterCalls, List.foldl_cons] at this ⊢
    rw [this]
    cases c <;>
      simp [Function.afterCall, Function.DirectCallStatements, Function.AddDirectCall,
        Function.SetWorkgroupSize, Function.AddDirectlyReferencedGlobal,
        Function.AddTransitivelyReferencedGlobal, Function.AddTransitivelyCalledFunction,
        Function.AddDirectlyCalledIntrinsic, Function.AddCallSite,
        Function.AddAncestorEntryPoint, Function.SetHasDiscard, directCallsOf]

/-- C29: every directly referenced global is a transitively referenced one. For every
`sem::Function` in which that holds (as in a newly constructed one, whose vectors are empty) and
every sequence of calls of the methods that change the function, every global in
`DirectlyReferencedGlobals()` is in `TransitivelyReferencedGlobals()` afterwards;
`AddDirectlyReferencedGlobal` records the global in both vectors, and
`AddTransitivelyReferencedGlobal` records it in the transitive one and never changes the
directly referenced globals. -/
theorem C29_directly_referenced_globals_are_transitively_referenced (f : Function)
    (calls : List FunctionCall)
    (h : ∀ g ∈ f.DirectlyReferencedGlobals.vector,
      g ∈ f.TransitivelyReferencedGlobals.vector) :
    (∀ g ∈ (f.afterCalls calls).DirectlyReferencedGlobals.vector,
      g ∈ (f.afterCalls calls).TransitivelyReferencedGlobals.vector) ∧
    (∀ (f' : Function) (global : Nat),
      global ∈ (f'.AddDirectlyReferencedGlobal global).DirectlyReferencedGlobals.vector ∧
      global ∈ (f'.AddDirectlyReferencedGlobal global).TransitivelyReferencedGlobals.vector) ∧
    (∀ (f' : Function) (global : Nat),
      (f'.AddTransitivelyReferencedGlobal global).DirectlyReferencedGlobals =
        f'.DirectlyReferencedGlobals ∧
      global ∈
        (f'.AddTransitivelyReferencedGlobal global).TransitivelyReferencedGlobals.vector) := by
  refine ⟨afterCalls_direct_subset_transitive calls f h, ?_, ?_⟩
  · intro f' global
    simp [Function.AddDirectlyReferencedGlobal, Function.DirectlyReferencedGlobals,
      Function.TransitivelyReferencedGlobals, mem_add]
  · intro f' global
    refine ⟨rfl, ?_⟩
    simp [Function.AddTransitivelyReferencedGlobal, Function.TransitivelyReferencedGlobals,
      mem_add]

/-- C29, witness: on a function with empty vectors, a transitive reference to global 7, a
direct reference to global 5 and a transitive reference to global 5. -/
theorem C29_directly_referenced_globals_are_transitively_referenced_witness :
    (sampleFunction.afterCalls
      [.AddTransitivelyReferencedGlobal 7, .AddDirectlyReferencedGlobal 5,
        .AddTransitivelyReferencedGlobal 5]).DirectlyReferencedGlobals.vector = [5] ∧
    (sampleFunction.afterCalls
      [.AddTransitivelyReferencedGlobal 7, .AddDirectlyReferencedGlobal 5,
        .AddTransitivelyReferencedGlobal 5]).TransitivelyReferencedGlobals.vector = [7, 5] ∧
    ∀ g ∈ (sampleFunction.afterCalls
      [.AddTransitivelyReferencedGlobal 7, .AddDirectlyReferencedGlobal 5,
        .AddTransitivelyReferencedGlobal 5]).DirectlyReferencedGlobals.vector,
      g ∈ (sampleFunction.afterCalls
        [.AddTransitivelyReferencedGlobal 7, .AddDirectlyReferencedGlobal 5,
          .AddTransitivelyReferencedGlobal 5]).TransitivelyReferencedGlobals.vector :=
  ⟨by decide, by decide,
    (C29_directly_referenced_globals_are_transitively_referenced sampleFunction
      [.AddTransitivelyReferencedGlobal 7, .AddDirectlyReferencedGlobal 5,
        .AddTransitivelyReferencedGlobal 5]
      (by intro g hg; cases hg)).1⟩

/-- C30: `FindDirectCallTo` returns the earliest recorded call to the target. For every
`sem::Function` and every call target, a call that `FindDirectCallTo(target)` returns is one of
the direct calls of the function, its `Target()` is `target`, and no direct call recorded
before it has that target; `FindDirectCallTo(target)` returns `nullptr` if and only if no direct
call of the function has that target; and the direct calls of a function are those that
`AddDirectCall` was given, in the order of the calls. -/
theorem C30_FindDirectCallTo_returns_the_earliest_call_to_the_target (f : Function)
    (target : Nat) :
    (∀ call, f.FindDirectCallTo target = some call →
      call.Target = target ∧
      ∃ earlier later, f.DirectCallStatements = earlier ++ call :: later ∧
        ∀ c ∈ earlier, c.Target ≠ target) ∧
    (f.FindDirectCallTo target = none ↔ ∀ c ∈ f.DirectCallStatements, c.Target ≠ target) ∧
    (∀ call, (f.AddDirectCall call).DirectCallStatements = f.DirectCallStatements ++ [call]) ∧
    (∀ calls : List FunctionCall,
      (f.afterCalls calls).DirectCallStatements =
        f.DirectCallStatements ++ directCallsOf calls) := by
  refine ⟨?_, ?_, fun _ => rfl, fun calls => afterCalls_DirectCallStatements calls f⟩
  · intro call h
    unfold Function.FindDirectCallTo at h
    rw [List.find?_eq_some] at h
    obtain ⟨ht, earlier, later, hl, he⟩ := h
    refine ⟨by simpa using ht, earlier, later, hl, ?_⟩
    intro c hc
    simpa using he c hc
  · unfold Function.FindDirectCallTo Function.DirectCallStatements
    rw [List.find?_eq_none]
    simp

/-- C30, witness: after the direct calls at addresses 100, 101 and 102, to the targets 7, 8
and 7, the call found for target 7 is the one at address 100, and none is found for
target 9. -/
theorem C30_FindDirectCallTo_returns_the_earliest_call_to_the_target_witness :
    (sampleFunction.afterCalls
      [.AddDirectCall { address := 100, target_ := 7 }, .AddCallSite { address := 5, target_ := 9 },
        .AddDirectCall { address := 101, target_ := 8 },
        .AddDirectCall { address := 102, target_ := 7 }]).FindDirectCallTo 7 =
      some { address := 100, target_ := 7 } ∧
    (sampleFunction.afterCalls
      [.AddDirectCall { address := 100, target_ := 7 }, .AddCallSite { address := 5, target_ := 9 },
        .AddDirectCall { address := 101, target_ := 8 },
        .AddDirectCall { address := 102, target_ := 7 }]).FindDirectCallTo 9 = none ∧
    Call.Target { address := 100, target_ := 7 } = 7 :=
  ⟨by decide, by decide,
    ((C30_FindDirectCallTo_returns_the_earliest_call_to_the_target
      (sampleFunction.afterCalls
        [.AddDirectCall { address := 100, target_ := 7 },
          .AddCallSite { address := 5, target_ := 9 },
          .AddDirectCall { address := 101, target_ := 8 },
          .AddDirectCall { address := 102, target_ := 7 }]) 7).1
      { address := 100, target_ := 7 } (by decide)).1⟩

end tint.sem

namespace dawn_native.vulkan

/-- The loop of `Queue::Submit` from counter value `i` on makes the calls `RecordCommands` of
`commands[i]`, ..., `commands[numCommands - 1]`, in this order. -/
theorem Submit_loop_eq {σ : Type} (numCommands : Nat) (commands : Nat → CommandBuffer σ)
    (commandBuffer : VkCommandBuffer) (remaining : Nat) :
    ∀ (i : Nat) (state : σ), numCommands - i = remaining →
      Queue.Submit.loop numCommands commands commandBuffer i state =
        (List.range' i remaining).foldl
          (fun s k => (commands k).RecordCommands commandBuffer s) state := by
  induction remaining with
  | zero =>
    intro i state h
    rw [Queue.Submit.loop, if_neg (by omega)]
    rfl
  | succ r ih =>
    intro i state h
    rw [Queue.Submit.loop, if_pos (by omega), ih (i + 1) _ (by omega)]
    rfl

/-- The calls that the loop adds to the list of a logging device. -/
theorem foldl_logging (pending : VkCommandBuffer) (addresses : Nat → Nat) (indices : List Nat) :
    ∀ log : List Call,
      indices.foldl
          (fun s k => (loggingCommandBuffer (addresses k)).RecordCommands pending s) log =
        log ++ indices.map fun k => Call.RecordCommands (addresses k) pending := by
  induction indices with
  | nil => intro log; simp
  | cons k rest ih =>
    intro log
    simp only [List.foldl_cons, List.map_cons]
    rw [ih]
    simp [loggingCommandBuffer]

/-- C38: `Queue::Submit(n, commands)` records `commands[0]`, ..., `commands[n - 1]` and then
submits. Whatever the device and the command buffers do, the state after `Submit` is the one
after one call of `GetPendingCommandBuffer`, then `RecordCommands` on `commands[0]`, ...,
`commands[n - 1]` in this order, each with the command buffer that `GetPendingCommandBuffer`
returned, then one call of `SubmitPendingCommands`. On a device and command buffers that list
the calls made to them, the calls that `Submit` adds are exactly these, one `RecordCommands` for
each index below `n` in increasing order and `SubmitPendingCommands` once and last, also when
`n = 0`. -/
theorem C38_Submit_records_every_command_buffer_then_submits :
    (∀ (σ : Type) (self : Queue σ) (numCommands : Nat) (commands : Nat → CommandBuffer σ)
      (state : σ),
      self.Submit numCommands commands state =
        self.GetDevice.SubmitPendingCommands
          ((List.range numCommands).foldl
            (fun s i =>
              (commands i).RecordCommands (self.GetDevice.GetPendingCommandBuffer state).1 s)
            (self.GetDevice.GetPendingCommandBuffer state).2)) ∧
    (∀ (pending : VkCommandBuffer) (addresses : Nat → Nat) (numCommands : Nat)
      (log : List Call),
      (Queue.ctor (loggingDevice pending)).Submit numCommands
          (fun i => loggingCommandBuffer (addresses i)) log =
        log ++ [Call.GetPendingCommandBuffer] ++
          (List.range numCommands).map (fun i => Call.RecordCommands (addresses i) pending) ++
          [Call.SubmitPendingCommands]) ∧
    (∀ (pending : VkCommandBuffer) (addresses : Nat → Nat) (log : List Call),
      (Queue.ctor (loggingDevice pending)).Submit 0
          (fun i => loggingCommandBuffer (addresses i)) log =
        log ++ [Call.GetPendingCommandBuffer, Call.SubmitPendingCommands]) ∧
    (∀ (pending : VkCommandBuffer) (addresses : Nat → Nat) (numCommands : Nat),
      Function.Injective addresses →
      List.count Call.SubmitPendingCommands
        ((Queue.ctor (loggingDevice pending)).Submit numCommands
          (fun i => loggingCommandBuffer (addresses i)) []) = 1 ∧
      ∀ i, i < numCommands →
        List.count (Call.RecordCommands (addresses i) pending)
          ((Queue.ctor (loggingDevice pending)).Submit numCommands
            (fun i => loggingCommandBuffer (addresses i)) []) = 1) := by
  have hgen : ∀ (σ : Type) (self : Queue σ) (numCommands : Nat)
      (commands : Nat → CommandBuffer σ) (state : σ),
      self.Submit numCommands commands state =
        self.GetDevice.SubmitPendingCommands
          ((List.range numCommands).foldl
            (fun s i =>
              (commands i).RecordCommands (self.GetDevice.GetPendingCommandBuffer state).1 s)
            (self.GetDevice.GetPendingCommandBuffer state).2) := by
    intro σ self numCommands commands state
    simp only [Queue.Submit]
    rw [Submit_loop_eq numCommands commands _ numCommands 0 _ (by omega), List.range_eq_range']
  have hlog : ∀ (pending : VkCommandBuffer) (addresses : Nat → Nat) (numCommands : Nat)
      (log : List Call),
      (Queue.ctor (loggingDevice pending)).Submit numCommands
          (fun i => loggingCommandBuffer (addresses i)) log =
        log ++ [Call.GetPendingCommandBuffer] ++
          (List.range numCommands).map (fun i => Call.RecordCommands (addresses i) pending) ++
          [Call.SubmitPendingCommands] := by
    intro pending addresses numCommands log
    rw [hgen]
    simp only [Queue.ctor, loggingDevice]
    rw [foldl_logging pending addresses]
  refine ⟨hgen, hlog, ?_, ?_⟩
  · intro pending addresses log
    rw [hlog]
    simp
  · intro pending addresses numCommands hinj
    rw [hlog]
    refine ⟨?_, ?_⟩
    · simp [List.count_eq_zero]
    · intro i hi
      have hnodup : ((List.range numCommands).map
          fun i => Call.RecordCommands (addresses i) pending).Nodup := by
        apply List.Nodup.map _ (List.nodup_range numCommands)
        intro a b hab
        simp only [Call.RecordCommands.injEq, and_true] at hab
        exact hinj hab
      have hmem : Call.RecordCommands (addresses i) pending ∈
          (List.range numCommands).map fun i => Call.RecordCommands (addresses i) pending :=
        List.mem_map.2 ⟨i, List.mem_range.2 hi, rfl⟩
      simp [List.count_eq_one_of_mem hnodup hmem]

/-- C38, witness: three command buffers at the addresses 10, 11 and 12, and the pending command
buffer 77. -/
theorem C38_Submit_records_every_command_buffer_then_submits_witness :
    (Queue.ctor (loggingDevice 77)).Submit 3 (fun i => loggingCommandBuffer (10 + i)) [] =
      [Call.GetPendingCommandBuffer, Call.RecordCommands 10 77, Call.RecordCommands 11 77,
        Call.RecordCommands 12 77, Call.SubmitPendingCommands] := by
  have h := C38_Submit_records_every_command_buffer_then_submits.2.1 77 (fun i => 10 + i) 3 []
  simpa [List.range_succ] using h

end dawn_native.vulkan
